/-
Verification development for the bcrypt-pbkdf crate: a shallow embedding of
the bcrypt-derived hash bhash, the keyed-MAC adaptor around it, and the
bcrypt_pbkdf driver (PBKDF2 over the Bhash MAC followed by the byte
transpose), over plain Nat arithmetic.  Byte strings are lists of byte
values; the 64-byte blocks handled by the cipher are packed big-endian into
a single Nat; the Blowfish key-schedule state packs each table into one Nat
with word i at bits 32*i.  The external collaborators the crate delegates
to (the blowfish cipher crate, the sha2 crate and the generic pbkdf2
driver) are modelled concretely from their standard definitions, as the
spec describes their interfaces.
-/
import Mathlib

set_option maxRecDepth 1000000

/-- Blowfish initial P-array (18 words packed, word i at bits 32*i):
the first 18 fractional hex-digit words of pi, as in the standard Blowfish cipher. -/
def bfP0 : Nat := 132820761456652459939504064090086082839299423090053931486007046355658289227511020191056099714165591199012916232743387165835407429560991589780062902171219325097674714753493640

/-- Blowfish initial S-box 0 (256 words packed, word i at bits 32*i):
fractional hex digits of pi, words 18..273, as in the standard Blowfish cipher. -/
def bfS00 : Nat := 470894906478918937591117076106584958285950441542140321229278292648828843415736022505775849982924436367321400865629334279722705341402939698543790588699004188922008826161274058273893809625152130843219312670992350053577869030112777971673676466720802983169107709184097197222935963398551804721441089089207705277830582186124994917333406475421873056162789143198264524930939274757548938435271575249532488982922039019931407544884029293062419268933832355722280630563490187248756966560193708723473748158325896681117380466509013101702937738888574951180185384899907309443209697504900965873109756490804535094636548986232856256588540946040957196694370902012617045616660569694603662039947452117607472706777615866747577258608980910230260574160282446205783596157934068581992812463388319544035137271357460522225824010554176791208342597740896999678351771348696057140408544588772223205831125463178638203984004412196663563706405945980532434402174164697938192829152698751344949299303743946551090705498000641481588774106390378998136144137751658914566217262435818995924219728911903778283596560156727707851133627790668951296928189792994253798932739343679614434877565162756408948718519503322864288754586732004728163306820266967875405564987922799265722772765242215482655939110272389553709685913186237066205116212361908471922129680402611521210760280003846871382265899549514445855054704286119041247558167834552343468360888875363046580490274208675868885469895527779378965174041310329661896359010676762357624098429073570143461812206527085707743913269421678862072702130154135689612826633109461140475423667314169157804171448374198058943567541401836671794366124690271643389014537131397089160655208632490875673637755855130874894407509590960223171065606989274654514396205686718448037427813833352673910739524590983960800320245813229060574834209809143330106168814331888909819789993138048058743007163665966548989101110773631047196423053893088052541285215038951336781557846091161539777015465264358568009886996238078093109455924144752099337490983419026693380714405308112071116831006990255033423023741597079981316767786600267747418644068295629078738420162572061729197811165275892219689056887112884227010842801792828357852506252798408612732673409952143019074304107165248859352839688607189322135745450857478452971122384316559772465084809675245104027887757750418260954968601621719452161461079648242043064737414534571140300490283613243554976942323376811013806429591743980754365775403153179261396776620946854316966

/-- Blowfish initial S-box 1 (256 words packed, word i at bits 32*i):
fractional hex digits of pi, words 274..529, as in the standard Blowfish cipher. -/
def bfS10 : Nat := 935292552402130018591347996749614273403384786091898407069584435365314406562344561628565062742057144319053592342321906009927961358503247549389634452009518724542165737442571818832394721115516812258789435653389952323710550446542214899296365976157801213988356981255360316673731594202496625673506760158567749697749246293140006582141112304811278654729150813867153801711646613240290190197395671336061204831965467908206386282778750327956649689426349300047859384582863010360280234180919709877786237501448753101528742746331367595982601068039976053003489286609272955395885348423156706100271425797779805273310244540626046558322117953478728097557848868334387949835932530257126252915259057823154598097463880537919441970765417004184698015041614914425046231924517851314879061111318683291636743515732347793848456918813116086998215187029265758956004789920945291725572865535293074833741139264188294219042784229736325925595206553645194998476722586048077151556037893439672905388886069224301716883484541832891140631152474531978727993632622363961153900734469822439735489125671773266782471562690197441496629273622990728552925693029335444972941206285347256030358623070949990316188717374132171143373129038219595798790489939356104152771041993709938311856771734063733887375009488064466442506396312744483148480195268298989149190659719407746155475053244999646354712531814178010818124348071827002067043356940717256919453681971678607682332484146733642303834306743100078568735894205457072083037796175877507429644944235171092849050175844610211297750730150409653397801280014146798829660564339194482910655218160849530836635722127117197950059048398859742972091744691258744364955503819309813212916446549647970159374118172144567012557355944451410574750925332011788909414658810931157415183506587735751489626755241871136752924184196878771802403162326830820266674596451295434527902713073297253659325453705710308233648064892771942484788943990431131615307741282715326556775878763959668814397302293236136054896518330397672840523005059579186974411655269199432180502257340528189168020529162720410609266425210233758744688401735614091434555779211546952864670393780720267907917890631202633303824912598268539740952270044450133772808900721033691140684166737506249814209658775949945347995327925580388600859307018763780529075007879775786989321689597708119441501167857944062289349123088307377585492770129857987604892500501010881641415684159919785956756535554878234230267873271716552386002791851032974652473592325001081065

/-- Blowfish initial S-box 2 (256 words packed, word i at bits 32*i):
fractional hex digits of pi, words 530..785, as in the standard Blowfish cipher. -/
def bfS20 : Nat := 274284866483325602133601641204989106077554110808340115674301496853887976214382882374306835044245550524210850569741636106787167509114491522692059599951461426348754370556278103311391181131513042677053605189665683584989695753068065942111907325848440200107648986457005477322862034979685013245516743935153446419865359883608877105529098640950759494191241192586824697382478929326756972683636111582647270279531090036404551577435841468871299077384994480368279294534569322649528717723227866571960116247450091421862664881628583286785472951545785440920736132331225222088074694361416592165562839620544858134919349671938713750861464235802550349142680838289155245320083578049409685466672360160810704383359764600774887629294603824855142704760169467636402383275927802253648386536181428051235057899587479104460659072773776704634165034433036811325911048225142006529680244868883364656322684026221627454665483201579124434642101152317432903032620581102137818731683104013845984313329029991234899594349979220753600656255425058980628557144604831745857536758976045439484784384243177498352237507454888310348039995857843761724175300596701825467800737317825029144044884643304943523669144055879345426555126687089603302498365277608727687371445816414951541961043567245232248835610053451047762222743484061209109491831906640255705013418412254403639677770099049892741987639366362435035560349167195442808271472833936970804889283940927899044456018280579350051236362708259321826104019215973354397819657804056346741794121349242824654980641054919055029270923710211455425519230387703135565355422517287158555974742141181287532063579199621032673874571852163672575167499360845397891891532078667988722118523598922872812682233397454872165074208134741766536835119733862156003424682827987743085332194674133409878183608977818896051051392538707837331011843002138310168080034145743287817237930303619159336348694424317998022194570939713652354376335778478611404353004089147567955077102915462964822272319618791681995914865143704314641955706742638662968467917772117993409196015237313671270004154327312600900950701083666272301248749307609003479261127130323430358891532966989470117370035232313863066400097818539378931999512643909526872445877693117963815727407100264902496106617291064433606803232987218593881393751869782710726373850597043942580132038020876955467318001953278105625095646250515914904250406591014004503136850121364946972738300951387335898102153813505942971439035115352336893641922893328858117208254375125670504

/-- Blowfish initial S-box 3 (256 words packed, word i at bits 32*i):
fractional hex digits of pi, words 786..1041, as in the standard Blowfish cipher. -/
def bfS30 : Nat := 250375576196270128973294551421234337529492186272732871864659087297807576982375260539599069457391981783825352659033905090367389024162084298149769170649721619830551980620168004303337925920511163555510699219829274628972276671438155490209441885986568304030672381613388213699316370354445503751151901523428762543511076607911901882822699936663218805841433301011023373002463202593308624714515564833389857319833071555101518990027835324881716563570091826590240831699697322472435491297902750583968428519907228986625841857057715139043421272648316060447019711663188339353171651114226899369627142370487728943189233096788592173299021113179386508994179560042085315923899031315481260987735685463422543223233652458590036365913606223458536086900208171281943938448441429902496603225291033142376673333620285677877210564288368082643860402932904624950870150777916622530870613113441616914547443698802940697067462456595681321721411538322962031417060751698114207997107217770583739754024192611591465066688688378996736447049378227093725206135741793669357372747583358729362754037541669568703624680193039093172450852627042916287017243932672820322948462327260356569001722043437129310984041758915061631703715996973047323155173283240416904630288561095663857500435594682603449042282692965195774821672448085223946574898428799287837176681256813504749418596600108931912412647653536754211661393947718368993245467056896993401762001913950376495904313013454859868309667683294460791537857720669832534995707350454636999860088691015339225895711092432183222580444737469272923373081555169177173479179922643220233386371057342287397135010325140902848906924895032420573528479043650103716293248432669298357605889087210774553233653468091607255579897619461438481024558265785374856168460070444843308857495331378430112363167110518894055833444514077631895883157887408014409496117147427710399016534641541130474873828538702794601692572317347570776466586721088224054975594238201553627743958870857550220787359567887059269658784288160561963758733846739413776091936898391008808397497673894268183906972276515268236603558405631502094428726100358869376800301050843664162954611527917015774109391262211800399814291346209258797259815738003814220524735585459832687705644714937745074690609609516208376034762588967483026513907429365015317153282901011647989554761189581469763522486821429515336530876953708867392235177033238358191103300714079314167844282534248972219505888217180348410107426186996059629688825836805745900052722307227569719

/-- SHA-512 round constants (80 words packed, word i at bits 64*i):
fractional parts of cube roots of the first 80 primes. -/
def shaK : Nat := 79401733742453553460850974233500163835348862130151944941868585954107921729851966433709504484594679435920217403432902140994683155589145428503332143350099233675287629342148958156760608048718624254807234857957852455754214058884921634611326080205028019932017299108412944066748695243938538222011871193474315677411354832238878879580026905713004175351116394147631691291051896265977658407765544729563264081113624712905526199824849243202590140303189688134116128494335089560005513154509089550000761255799866325224245302341002348938473127098360843277708398217491814982223042684701014439043985348647627260823478770080292761916386342786932479083740835907016162305032857537046140546558784246985852552655451305556579902388712433715435365355118487175420852053958416930158193676921281365595997321839184966351001269990065517904640083352893266395342353390165452080100972549846464999139078654794207765074847081235236169199660995854142221606170754579040654251887857292569044177719716794421818060776737044033093531714540655966802073377033638767129476236253099442454114897544131384012900311640737753004131001050775512054237450756896889568333869892075607669344033195862547426252590686148624074116392191708788571081612071343428420806936287685748480654347806239090915076728239100344933911375104624615916807971556351801760876948354563175513568373209404554063007387465388995308446212666495189366480319809197885878244498379497550728853899917860378912106109910455014168049971294187227495270703061017345423922759262219819475714723322081387967974931234460660416134255259170

/-- SHA-512 initial hash value (8 words packed, word i at bits 64*i):
fractional parts of square roots of the first 8 primes. -/
def shaH0 : Nat := 4812048101252663290612834066995531158742713419846591145376350182667999366794400516985448940192745739731038893726247251609359409289363687649257956495378696

/-- Strict-evaluation helper: case analysis on a `Nat` forces it to a literal
before the continuation runs (keeps kernel reduction chains shallow). -/
def strict {a : Type} (n : Nat) (k : Nat → a) : a :=
  Nat.casesOn n (k 0) fun m => k (m + 1)

/-- Force both components of a pair of `Nat`s. -/
def strict2 {a : Type} (lr : Nat × Nat) (k : Nat → Nat → a) : a :=
  strict lr.1 fun x => strict lr.2 fun y => k x y

/-- Word `i` of a packed array of 32-bit words (word `i` sits at bits `32*i`). -/
def getw (a i : Nat) : Nat := Nat.mod (Nat.shiftRight a (Nat.mul 32 i)) 4294967296

/-- Overwrite word `i` of a packed array of 32-bit words with `v`. -/
def setw (a i v : Nat) : Nat :=
  Nat.xor a (Nat.shiftLeft (Nat.xor (Nat.mod (Nat.shiftRight a (Nat.mul 32 i)) 4294967296) v) (Nat.mul 32 i))

/-- Big-endian 32-bit word `i` (0-based) of a 64-byte block stored as a
512-bit big-endian integer: bytes `4*i..4*i+3`, as `next_u32_wrap` reads them. -/
def kw (k i : Nat) : Nat := Nat.mod (Nat.shiftRight k (Nat.mul 32 (15 - i))) 4294967296

/-- The Blowfish round function `F`: split `x` into bytes `a b c d` and return
`((S0[a] + S1[b]) ^ S2[c]) + S3[d] (mod 2^32)`.  Each S-box is packed with
word `i` at bits `32*i`, so `S[j][a] = (sj >>> (32*a)) % 2^32`; the shift
amounts `32*a` etc. are computed as `(x >>> 19) &&& 8160` and friends.
A single final `mod` suffices: the carry bit of the inner 32-bit addition is
above bit 31, is preserved by the xor, and is removed by the final `mod`. -/
def bfF (s0 s1 s2 s3 x : Nat) : Nat :=
  Nat.mod
    (Nat.add
      (Nat.xor
        (Nat.add (Nat.mod (Nat.shiftRight s0 (Nat.land (Nat.shiftRight x 19) 8160)) 4294967296)
                 (Nat.mod (Nat.shiftRight s1 (Nat.land (Nat.shiftRight x 11) 8160)) 4294967296))
        (Nat.mod (Nat.shiftRight s2 (Nat.land (Nat.shiftRight x 3) 8160)) 4294967296))
      (Nat.mod (Nat.shiftRight s3 (Nat.land (Nat.shiftLeft x 5) 8160)) 4294967296))
    4294967296

/-- One Blowfish ECB block encryption (`Blowfish::encrypt` in the `blowfish`
crate): 8 double rounds `l ^= P[2i]; r ^= F(l); r ^= P[2i+1]; l ^= F(r)`,
then return `(r ^ P[17], l ^ P[16])`.  The 18 round keys are passed unpacked. -/
def bfEnc (s0 s1 s2 s3 p0 p1 p2 p3 p4 p5 p6 p7 p8 p9 p10 p11 p12 p13 p14 p15 p16 p17 l r : Nat) : Nat × Nat :=
  let l0 := Nat.xor l p0
  let v1 := Nat.xor (Nat.xor r (bfF s0 s1 s2 s3 l0)) p1
  let v2 := Nat.xor (Nat.xor l0 (bfF s0 s1 s2 s3 v1)) p2
  let v3 := Nat.xor (Nat.xor v1 (bfF s0 s1 s2 s3 v2)) p3
  let v4 := Nat.xor (Nat.xor v2 (bfF s0 s1 s2 s3 v3)) p4
  let v5 := Nat.xor (Nat.xor v3 (bfF s0 s1 s2 s3 v4)) p5
  let v6 := Nat.xor (Nat.xor v4 (bfF s0 s1 s2 s3 v5)) p6
  let v7 := Nat.xor (Nat.xor v5 (bfF s0 s1 s2 s3 v6)) p7
  let v8 := Nat.xor (Nat.xor v6 (bfF s0 s1 s2 s3 v7)) p8
  let v9 := Nat.xor (Nat.xor v7 (bfF s0 s1 s2 s3 v8)) p9
  let v10 := Nat.xor (Nat.xor v8 (bfF s0 s1 s2 s3 v9)) p10
  let v11 := Nat.xor (Nat.xor v9 (bfF s0 s1 s2 s3 v10)) p11
  let v12 := Nat.xor (Nat.xor v10 (bfF s0 s1 s2 s3 v11)) p12
  let v13 := Nat.xor (Nat.xor v11 (bfF s0 s1 s2 s3 v12)) p13
  let v14 := Nat.xor (Nat.xor v12 (bfF s0 s1 s2 s3 v13)) p14
  let v15 := Nat.xor (Nat.xor v13 (bfF s0 s1 s2 s3 v14)) p15
  let v16 := Nat.xor v14 (bfF s0 s1 s2 s3 v15)
  (Nat.xor v15 p17, Nat.xor v16 p16)

/-- Encrypt with the 18 round keys still packed in `p`. -/
def bfEncP (p s0 s1 s2 s3 l r : Nat) : Nat × Nat :=
  bfEnc s0 s1 s2 s3 (getw p 0) (getw p 1) (getw p 2) (getw p 3) (getw p 4) (getw p 5)
    (getw p 6) (getw p 7) (getw p 8) (getw p 9) (getw p 10) (getw p 11) (getw p 12)
    (getw p 13) (getw p 14) (getw p 15) (getw p 16) (getw p 17) l r

/-- Phase 1 of `expand_key`: xor the 18 round keys with successive big-endian
32-bit words of the 64-byte key, read cyclically (`p[i] ^= next_u32_wrap(key)`;
for a 64-byte key the word index is `i % 16`). -/
def xorPLoop (k fuel i p : Nat) : Nat :=
  Nat.rec (motive := fun _ => Nat → Nat → Nat)
    (fun _ p => p)
    (fun _ ih i p => ih (i + 1) (Nat.xor p (Nat.shiftLeft (kw k (i % 16)) (Nat.mul 32 i))))
    fuel i p

/-- Phase 2 of `expand_key`: 9 times encrypt `(l, r)` and overwrite
`P[2i], P[2i+1]` with the result. -/
def expPLoop (s0 s1 s2 s3 fuel i p l r : Nat) : Nat × Nat × Nat :=
  Nat.rec (motive := fun _ => Nat → Nat → Nat → Nat → Nat × Nat × Nat)
    (fun _ p l r => (p, l, r))
    (fun _ ih i p l r =>
      strict2 (bfEncP p s0 s1 s2 s3 l r) fun l2 r2 =>
        ih (i + 1) (setw (setw p (2 * i) l2) (2 * i + 1) r2) l2 r2)
    fuel i p l r

/-- Phase 3 of `expand_key` for S-box 0: 128 times encrypt `(l, r)` with
the (fixed) round keys and the current boxes, overwriting `S[2j], S[2j+1]`
of the box; the other three boxes are fixed. -/
def expS0Loop (sa sb sc : Nat) (p0 p1 p2 p3 p4 p5 p6 p7 p8 p9 p10 p11 p12 p13 p14 p15 p16 p17 : Nat) (fuel j s l r : Nat) : Nat × Nat × Nat :=
  Nat.rec (motive := fun _ => Nat → Nat → Nat → Nat → Nat × Nat × Nat)
    (fun _ s l r => (s, l, r))
    (fun _ ih j s l r =>
      strict2 (bfEnc s sa sb sc p0 p1 p2 p3 p4 p5 p6 p7 p8 p9 p10 p11 p12 p13 p14 p15 p16 p17 l r) fun l2 r2 =>
        ih (j + 1) (setw (setw s (2 * j) l2) (2 * j + 1) r2) l2 r2)
    fuel j s l r

/-- Phase 3 of `expand_key` for S-box 1: 128 times encrypt `(l, r)` with
the (fixed) round keys and the current boxes, overwriting `S[2j], S[2j+1]`
of the box; the other three boxes are fixed. -/
def expS1Loop (sa sb sc : Nat) (p0 p1 p2 p3 p4 p5 p6 p7 p8 p9 p10 p11 p12 p13 p14 p15 p16 p17 : Nat) (fuel j s l r : Nat) : Nat × Nat × Nat :=
  Nat.rec (motive := fun _ => Nat → Nat → Nat → Nat → Nat × Nat × Nat)
    (fun _ s l r => (s, l, r))
    (fun _ ih j s l r =>
      strict2 (bfEnc sa s sb sc p0 p1 p2 p3 p4 p5 p6 p7 p8 p9 p10 p11 p12 p13 p14 p15 p16 p17 l r) fun l2 r2 =>
        ih (j + 1) (setw (setw s (2 * j) l2) (2 * j + 1) r2) l2 r2)
    fuel j s l r

/-- Phase 3 of `expand_key` for S-box 2: 128 times encrypt `(l, r)` with
the (fixed) round keys and the current boxes, overwriting `S[2j], S[2j+1]`
of the box; the other three boxes are fixed. -/
def expS2Loop (sa sb sc : Nat) (p0 p1 p2 p3 p4 p5 p6 p7 p8 p9 p10 p11 p12 p13 p14 p15 p16 p17 : Nat) (fuel j s l r : Nat) : Nat × Nat × Nat :=
  Nat.rec (motive := fun _ => Nat → Nat → Nat → Nat → Nat × Nat × Nat)
    (fun _ s l r => (s, l, r))
    (fun _ ih j s l r =>
      strict2 (bfEnc sa sb s sc p0 p1 p2 p3 p4 p5 p6 p7 p8 p9 p10 p11 p12 p13 p14 p15 p16 p17 l r) fun l2 r2 =>
        ih (j + 1) (setw (setw s (2 * j) l2) (2 * j + 1) r2) l2 r2)
    fuel j s l r

/-- Phase 3 of `expand_key` for S-box 3: 128 times encrypt `(l, r)` with
the (fixed) round keys and the current boxes, overwriting `S[2j], S[2j+1]`
of the box; the other three boxes are fixed. -/
def expS3Loop (sa sb sc : Nat) (p0 p1 p2 p3 p4 p5 p6 p7 p8 p9 p10 p11 p12 p13 p14 p15 p16 p17 : Nat) (fuel j s l r : Nat) : Nat × Nat × Nat :=
  Nat.rec (motive := fun _ => Nat → Nat → Nat → Nat → Nat × Nat × Nat)
    (fun _ s l r => (s, l, r))
    (fun _ ih j s l r =>
      strict2 (bfEnc sa sb sc s p0 p1 p2 p3 p4 p5 p6 p7 p8 p9 p10 p11 p12 p13 p14 p15 p16 p17 l r) fun l2 r2 =>
        ih (j + 1) (setw (setw s (2 * j) l2) (2 * j + 1) r2) l2 r2)
    fuel j s l r

/-- The Blowfish key-schedule state: round keys `p` and the four S-boxes,
each packed as one `Nat` with word `i` at bits `32*i`. -/
structure BF where
  p : Nat
  s0 : Nat
  s1 : Nat
  s2 : Nat
  s3 : Nat
deriving DecidableEq

/-- Pass the 18 words of `p` to a continuation (extracted once, so the
phase-3 loops do not re-extract them at every iteration). -/
def withP {a : Type} (p : Nat) (k : (Nat → Nat → Nat → Nat → Nat → Nat → Nat → Nat → Nat → Nat → Nat → Nat → Nat → Nat → Nat → Nat → Nat → Nat → a)) : a :=
  k (getw p 0) (getw p 1) (getw p 2) (getw p 3) (getw p 4) (getw p 5) (getw p 6)
    (getw p 7) (getw p 8) (getw p 9) (getw p 10) (getw p 11) (getw p 12) (getw p 13)
    (getw p 14) (getw p 15) (getw p 16) (getw p 17)

/-- `Blowfish::expand_key` (the `bc_expand_key` of the `blowfish` crate, for a
64-byte key): xor the key into `P`, then regenerate `P` and all four S-boxes
by repeated encryption of a running `(l, r)` that starts at `(0, 0)`. -/
def bcExpandKey (st : BF) (k : Nat) : BF :=
  let pa := xorPLoop k 18 0 st.p
  match expPLoop st.s0 st.s1 st.s2 st.s3 9 0 pa 0 0 with
  | (pb, l, r) =>
    withP pb fun p0 p1 p2 p3 p4 p5 p6 p7 p8 p9 p10 p11 p12 p13 p14 p15 p16 p17 =>
    match expS0Loop st.s1 st.s2 st.s3 p0 p1 p2 p3 p4 p5 p6 p7 p8 p9 p10 p11 p12 p13 p14 p15 p16 p17 128 0 st.s0 l r with
    | (t0, l, r) =>
      match expS1Loop t0 st.s2 st.s3 p0 p1 p2 p3 p4 p5 p6 p7 p8 p9 p10 p11 p12 p13 p14 p15 p16 p17 128 0 st.s1 l r with
      | (t1, l, r) =>
        match expS2Loop t0 t1 st.s3 p0 p1 p2 p3 p4 p5 p6 p7 p8 p9 p10 p11 p12 p13 p14 p15 p16 p17 128 0 st.s2 l r with
        | (t2, l, r) =>
          match expS3Loop t0 t1 t2 p0 p1 p2 p3 p4 p5 p6 p7 p8 p9 p10 p11 p12 p13 p14 p15 p16 p17 128 0 st.s3 l r with
          | (t3, _, _) => ⟨pb, t0, t1, t2, t3⟩

/-- Phase 2 of `salted_expand_key`: like `expPLoop` but the running `(l, r)`
is xored with successive big-endian words of the salt before each encryption
(`pos` counts salt words consumed; the salt wraps every 16 words). -/
def sExpPLoop (s0 s1 s2 s3 salt fuel i pos p l r : Nat) : Nat × Nat × Nat :=
  Nat.rec (motive := fun _ => Nat → Nat → Nat → Nat → Nat → Nat × Nat × Nat)
    (fun _ _ p l r => (p, l, r))
    (fun _ ih i pos p l r =>
      strict2 (bfEncP p s0 s1 s2 s3 (Nat.xor l (kw salt (pos % 16))) (Nat.xor r (kw salt ((pos + 1) % 16)))) fun l2 r2 =>
        ih (i + 1) (pos + 2) (setw (setw p (2 * i) l2) (2 * i + 1) r2) l2 r2)
    fuel i pos p l r

/-- Phase 3 of `salted_expand_key` for S-box 0 (salt xored into the
running `(l, r)` before each encryption, as in `sExpPLoop`). -/
def sExpS0Loop (sa sb sc : Nat) (p0 p1 p2 p3 p4 p5 p6 p7 p8 p9 p10 p11 p12 p13 p14 p15 p16 p17 : Nat) (salt fuel j pos s l r : Nat) : Nat × Nat × Nat :=
  Nat.rec (motive := fun _ => Nat → Nat → Nat → Nat → Nat → Nat × Nat × Nat)
    (fun _ _ s l r => (s, l, r))
    (fun _ ih j pos s l r =>
      strict2 (bfEnc s sa sb sc p0 p1 p2 p3 p4 p5 p6 p7 p8 p9 p10 p11 p12 p13 p14 p15 p16 p17 (Nat.xor l (kw salt (pos % 16))) (Nat.xor r (kw salt ((pos + 1) % 16)))) fun l2 r2 =>
        ih (j + 1) (pos + 2) (setw (setw s (2 * j) l2) (2 * j + 1) r2) l2 r2)
    fuel j pos s l r

/-- Phase 3 of `salted_expand_key` for S-box 1 (salt xored into the
running `(l, r)` before each encryption, as in `sExpPLoop`). -/
def sExpS1Loop (sa sb sc : Nat) (p0 p1 p2 p3 p4 p5 p6 p7 p8 p9 p10 p11 p12 p13 p14 p15 p16 p17 : Nat) (salt fuel j pos s l r : Nat) : Nat × Nat × Nat :=
  Nat.rec (motive := fun _ => Nat → Nat → Nat → Nat → Nat → Nat × Nat × Nat)
    (fun _ _ s l r => (s, l, r))
    (fun _ ih j pos s l r =>
      strict2 (bfEnc sa s sb sc p0 p1 p2 p3 p4 p5 p6 p7 p8 p9 p10 p11 p12 p13 p14 p15 p16 p17 (Nat.xor l (kw salt (pos % 16))) (Nat.xor r (kw salt ((pos + 1) % 16)))) fun l2 r2 =>
        ih (j + 1) (pos + 2) (setw (setw s (2 * j) l2) (2 * j + 1) r2) l2 r2)
    fuel j pos s l r

/-- Phase 3 of `salted_expand_key` for S-box 2 (salt xored into the
running `(l, r)` before each encryption, as in `sExpPLoop`). -/
def sExpS2Loop (sa sb sc : Nat) (p0 p1 p2 p3 p4 p5 p6 p7 p8 p9 p10 p11 p12 p13 p14 p15 p16 p17 : Nat) (salt fuel j pos s l r : Nat) : Nat × Nat × Nat :=
  Nat.rec (motive := fun _ => Nat → Nat → Nat → Nat → Nat → Nat × Nat × Nat)
    (fun _ _ s l r => (s, l, r))
    (fun _ ih j pos s l r =>
      strict2 (bfEnc sa sb s sc p0 p1 p2 p3 p4 p5 p6 p7 p8 p9 p10 p11 p12 p13 p14 p15 p16 p17 (Nat.xor l (kw salt (pos % 16))) (Nat.xor r (kw salt ((pos + 1) % 16)))) fun l2 r2 =>
        ih (j + 1) (pos + 2) (setw (setw s (2 * j) l2) (2 * j + 1) r2) l2 r2)
    fuel j pos s l r

/-- Phase 3 of `salted_expand_key` for S-box 3 (salt xored into the
running `(l, r)` before each encryption, as in `sExpPLoop`). -/
def sExpS3Loop (sa sb sc : Nat) (p0 p1 p2 p3 p4 p5 p6 p7 p8 p9 p10 p11 p12 p13 p14 p15 p16 p17 : Nat) (salt fuel j pos s l r : Nat) : Nat × Nat × Nat :=
  Nat.rec (motive := fun _ => Nat → Nat → Nat → Nat → Nat → Nat × Nat × Nat)
    (fun _ _ s l r => (s, l, r))
    (fun _ ih j pos s l r =>
      strict2 (bfEnc sa sb sc s p0 p1 p2 p3 p4 p5 p6 p7 p8 p9 p10 p11 p12 p13 p14 p15 p16 p17 (Nat.xor l (kw salt (pos % 16))) (Nat.xor r (kw salt ((pos + 1) % 16)))) fun l2 r2 =>
        ih (j + 1) (pos + 2) (setw (setw s (2 * j) l2) (2 * j + 1) r2) l2 r2)
    fuel j pos s l r

/-- `Blowfish::salted_expand_key` (`bcrypt` feature of the `blowfish` crate),
for a 64-byte salt and 64-byte key. -/
def bcSaltedExpandKey (st : BF) (salt k : Nat) : BF :=
  let pa := xorPLoop k 18 0 st.p
  match sExpPLoop st.s0 st.s1 st.s2 st.s3 salt 9 0 0 pa 0 0 with
  | (pb, l, r) =>
    withP pb fun p0 p1 p2 p3 p4 p5 p6 p7 p8 p9 p10 p11 p12 p13 p14 p15 p16 p17 =>
    match sExpS0Loop st.s1 st.s2 st.s3 p0 p1 p2 p3 p4 p5 p6 p7 p8 p9 p10 p11 p12 p13 p14 p15 p16 p17 salt 128 0 18 st.s0 l r with
    | (t0, l, r) =>
      match sExpS1Loop t0 st.s2 st.s3 p0 p1 p2 p3 p4 p5 p6 p7 p8 p9 p10 p11 p12 p13 p14 p15 p16 p17 salt 128 0 274 st.s1 l r with
      | (t1, l, r) =>
        match sExpS2Loop t0 t1 st.s3 p0 p1 p2 p3 p4 p5 p6 p7 p8 p9 p10 p11 p12 p13 p14 p15 p16 p17 salt 128 0 530 st.s2 l r with
        | (t2, l, r) =>
          match sExpS3Loop t0 t1 t2 p0 p1 p2 p3 p4 p5 p6 p7 p8 p9 p10 p11 p12 p13 p14 p15 p16 p17 salt 128 0 786 st.s3 l r with
          | (t3, _, _) => ⟨pb, t0, t1, t2, t3⟩

/-- The initial Blowfish state (`Blowfish::bc_init_state`): the pi-digit
constants. -/
def bfInit : BF := ⟨bfP0, bfS00, bfS10, bfS20, bfS30⟩

/-- The 64 salt/password re-expansions of `bhash`:
`for _ in 0..64 { bc_expand_key(salt); bc_expand_key(pass) }`. -/
def bhashLoop (salt pass : Nat) (fuel : Nat) (st : BF) : BF :=
  Nat.rec (motive := fun _ => BF → BF)
    (fun st => st)
    (fun _ ih st =>
      match bcExpandKey (bcExpandKey st salt) pass with
      | ⟨p, s0, s1, s2, s3⟩ =>
        strict p fun p => strict s0 fun s0 => strict s1 fun s1 => strict s2 fun s2 =>
          strict s3 fun s3 => ih ⟨p, s0, s1, s2, s3⟩)
    fuel st

/-- Word `i` of a packed array of 64-bit words (word `i` at bits `64*i`). -/
def getq (a i : Nat) : Nat := Nat.mod (Nat.shiftRight a (Nat.mul 64 i)) 18446744073709551616

/-- Rotate a 64-bit word right by `n`. -/
def rotr64 (x n : Nat) : Nat :=
  Nat.mod (Nat.lor (Nat.shiftRight x n) (Nat.shiftLeft x (64 - n))) 18446744073709551616

/-- The SHA-512 big sigma 0 function. -/
def bsig0 (x : Nat) : Nat := Nat.xor (Nat.xor (rotr64 x 28) (rotr64 x 34)) (rotr64 x 39)

/-- The SHA-512 big sigma 1 function. -/
def bsig1 (x : Nat) : Nat := Nat.xor (Nat.xor (rotr64 x 14) (rotr64 x 18)) (rotr64 x 41)

/-- The SHA-512 small sigma 0 function. -/
def ssig0 (x : Nat) : Nat := Nat.xor (Nat.xor (rotr64 x 1) (rotr64 x 8)) (Nat.shiftRight x 7)

/-- The SHA-512 small sigma 1 function. -/
def ssig1 (x : Nat) : Nat := Nat.xor (Nat.xor (rotr64 x 19) (rotr64 x 61)) (Nat.shiftRight x 6)

/-- The SHA-512 choice function (not-e is taken against the 64-bit mask). -/
def chF (e f g : Nat) : Nat :=
  Nat.xor (Nat.land e f) (Nat.land (Nat.xor e 18446744073709551615) g)

/-- The SHA-512 majority function. -/
def majF (a b c : Nat) : Nat :=
  Nat.xor (Nat.xor (Nat.land a b) (Nat.land a c)) (Nat.land b c)

/-- Message-schedule loop: extend the 16 block words (packed in `w`, word `i`
at bits `64*i`) to 80 words, `w[t] = ssig1 w[t-2] + w[t-7] + ssig0 w[t-15] + w[t-16]`. -/
def schedLoop (fuel t w : Nat) : Nat :=
  Nat.rec (motive := fun _ => Nat → Nat → Nat)
    (fun _ w => w)
    (fun _ ih t w =>
      strict
        (Nat.mod
          (Nat.add (Nat.add (ssig1 (getq w (t - 2))) (getq w (t - 7)))
            (Nat.add (ssig0 (getq w (t - 15))) (getq w (t - 16)))) 18446744073709551616)
        fun v => ih (t + 1) (Nat.add w (Nat.shiftLeft v (Nat.mul 64 t))))
    fuel t w

/-- Pack the eight 64-bit state words into one `Nat` (word `i` at bits `64*i`). -/
def pack8q (a b c d e f g h : Nat) : Nat :=
  Nat.add a (Nat.add (Nat.shiftLeft b 64) (Nat.add (Nat.shiftLeft c 128)
    (Nat.add (Nat.shiftLeft d 192) (Nat.add (Nat.shiftLeft e 256)
      (Nat.add (Nat.shiftLeft f 320) (Nat.add (Nat.shiftLeft g 384) (Nat.shiftLeft h 448)))))))

/-- The 80-round SHA-512 compression loop over working variables `a..h`. -/
def compLoop (w fuel t a b c d e f g h : Nat) : Nat :=
  Nat.rec (motive := fun _ => Nat → Nat → Nat → Nat → Nat → Nat → Nat → Nat → Nat → Nat)
    (fun _ a b c d e f g h => pack8q a b c d e f g h)
    (fun _ ih t a b c d e f g h =>
      strict
        (Nat.mod (Nat.add h (Nat.add (bsig1 e) (Nat.add (chF e f g) (Nat.add (getq shaK t) (getq w t)))))
          18446744073709551616) fun t1 =>
      strict (Nat.mod (Nat.add (bsig0 a) (majF a b c)) 18446744073709551616) fun t2 =>
        ih (t + 1) (Nat.mod (Nat.add t1 t2) 18446744073709551616) a b c
          (Nat.mod (Nat.add d t1) 18446744073709551616) e f g)
    fuel t a b c d e f g h

/-- Word-wise 64-bit addition of two packed 8-word states. -/
def addPack8 (x y : Nat) : Nat :=
  pack8q (Nat.mod (Nat.add (getq x 0) (getq y 0)) 18446744073709551616)
    (Nat.mod (Nat.add (getq x 1) (getq y 1)) 18446744073709551616)
    (Nat.mod (Nat.add (getq x 2) (getq y 2)) 18446744073709551616)
    (Nat.mod (Nat.add (getq x 3) (getq y 3)) 18446744073709551616)
    (Nat.mod (Nat.add (getq x 4) (getq y 4)) 18446744073709551616)
    (Nat.mod (Nat.add (getq x 5) (getq y 5)) 18446744073709551616)
    (Nat.mod (Nat.add (getq x 6) (getq y 6)) 18446744073709551616)
    (Nat.mod (Nat.add (getq x 7) (getq y 7)) 18446744073709551616)

/-- Big-endian 64-bit read of bytes `8*i .. 8*i+7` of a byte list. -/
def be64At (bs : List Nat) (i : Nat) : Nat :=
  (List.range 8).foldl (fun a j => Nat.add (Nat.mul a 256) (bs.getD (8 * i + j) 0)) 0

/-- The 16 words of one 128-byte block, packed (word `i` at bits `64*i`),
each word read big-endian from the block bytes. -/
def blockWords (bs : List Nat) : Nat :=
  (List.range 16).foldl (fun a i => Nat.add a (Nat.shiftLeft (be64At bs i) (Nat.mul 64 i))) 0

/-- One SHA-512 block transformation: extend the schedule, run the 80-round
compression from the incoming state, then add the two states word-wise. -/
def sha512Block (h blk : Nat) : Nat :=
  let w := schedLoop 64 16 blk
  addPack8 h
    (compLoop w 80 0 (getq h 0) (getq h 1) (getq h 2) (getq h 3) (getq h 4) (getq h 5) (getq h 6) (getq h 7))

/-- SHA-512 padding: append `0x80`, zero bytes up to 112 mod 128, then the
message bit-length as a 16-byte big-endian integer. -/
def sha512Pad (msg : List Nat) : List Nat :=
  msg ++ 128 :: (List.replicate ((128 - ((msg.length + 17) % 128)) % 128) 0
    ++ (List.range 16).map (fun i => Nat.mod (Nat.shiftRight (Nat.mul 8 msg.length) (Nat.mul 8 (15 - i))) 256))

/-- Split a byte list into 128-byte chunks (the first argument is fuel). -/
def chunks128 : Nat → List Nat → List (List Nat)
  | 0, _ => []
  | _, [] => []
  | fuel+1, bs => bs.take 128 :: chunks128 fuel (bs.drop 128)

/-- The SHA-512 digest of a byte list: fold the block transformation over the
padded message, then serialize the 8 state words big-endian, 8 bytes each. -/
def sha512 (msg : List Nat) : List Nat :=
  let padded := sha512Pad msg
  let h := (chunks128 padded.length padded).foldl
    (fun h blk => strict (sha512Block h (blockWords blk)) fun h => h) shaH0
  (List.range 8).foldl
    (fun acc i => acc ++ (List.range 8).map (fun j => Nat.mod (Nat.shiftRight (getq h i) (Nat.mul 8 (7 - j))) 256)) []

/-- Number of 32-bit words in a bhash output (the BHASH_WORDS constant). -/
def BHASH_WORDS : Nat := 8

/-- Size in bytes of a bhash output (BHASH_WORDS * 4 = 32). -/
def BHASH_OUTPUT_SIZE : Nat := BHASH_WORDS * 4

/-- ASCII bytes of the 32-byte seed constant, the string
"OxychromaticBlowfishSwatDynamite" (BHASH_SEED in the source). -/
def BHASH_SEED : List Nat :=
  [79, 120, 121, 99, 104, 114, 111, 109, 97, 116, 105, 99,
   66, 108, 111, 119, 102, 105, 115, 104, 83, 119, 97, 116,
   68, 121, 110, 97, 109, 105, 116, 101]

/-- Big-endian 32-bit read of bytes 4*i .. 4*i+3 of a byte list
(the BE::read_u32 of the i-th 4-byte slice). -/
def be32At (bs : List Nat) (i : Nat) : Nat :=
  Nat.add (Nat.mul (bs.getD (4 * i) 0) 16777216)
    (Nat.add (Nat.mul (bs.getD (4 * i + 1) 0) 65536)
      (Nat.add (Nat.mul (bs.getD (4 * i + 2) 0) 256) (bs.getD (4 * i + 3) 0)))

/-- The 8 cdata words read big-endian from a 32-byte block, packed with
word i at bits 32*i (the cdata initialization loop). -/
def cdataInit (bs : List Nat) : Nat :=
  Nat.add (be32At bs 0) (Nat.add (Nat.shiftLeft (be32At bs 1) 32)
    (Nat.add (Nat.shiftLeft (be32At bs 2) 64) (Nat.add (Nat.shiftLeft (be32At bs 3) 96)
      (Nat.add (Nat.shiftLeft (be32At bs 4) 128) (Nat.add (Nat.shiftLeft (be32At bs 5) 160)
        (Nat.add (Nat.shiftLeft (be32At bs 6) 192) (Nat.shiftLeft (be32At bs 7) 224)))))))

/-- A byte list as a big-endian integer; a 64-byte block becomes the 512-bit
integer whose word i (as read by kw) is the big-endian u32 at bytes 4*i. -/
def beNat (bs : List Nat) : Nat := bs.foldl (fun a b => Nat.add (Nat.mul a 256) b) 0

/-- The 4 bytes of a 32-bit word, little-endian (LE::write_u32). -/
def leBytesW (w : Nat) : List Nat :=
  [Nat.mod w 256, Nat.mod (Nat.shiftRight w 8) 256,
   Nat.mod (Nat.shiftRight w 16) 256, Nat.mod (Nat.shiftRight w 24) 256]

/-- Serialize the 8 cdata words to 32 bytes, each word little-endian, in
word order (the output loop of bhash). -/
def bhashOut (cd : Nat) : List Nat :=
  leBytesW (getw cd 0) ++ leBytesW (getw cd 1) ++ leBytesW (getw cd 2) ++ leBytesW (getw cd 3) ++
  leBytesW (getw cd 4) ++ leBytesW (getw cd 5) ++ leBytesW (getw cd 6) ++ leBytesW (getw cd 7)

/-- One pass of the cdata encryption loop, as in the source:
for i in (0..8).step_by(2) encrypt (cdata[i], cdata[i+1]) and write the
ciphertext halves back in place.  The fuel counts remaining pairs and i is
the current word index (0, 2, 4, 6). -/
def bhashPairs (s0 s1 s2 s3 p0 p1 p2 p3 p4 p5 p6 p7 p8 p9 p10 p11 p12 p13 p14 p15 p16 p17 : Nat) (fuel i cd : Nat) : Nat :=
  Nat.rec (motive := fun _ => Nat → Nat → Nat)
    (fun _ cd => cd)
    (fun _ ih i cd =>
      strict2 (bfEnc s0 s1 s2 s3 p0 p1 p2 p3 p4 p5 p6 p7 p8 p9 p10 p11 p12 p13 p14 p15 p16 p17 (getw cd i) (getw cd (i + 1))) fun l r =>
        ih (i + 2) (setw (setw cd i l) (i + 1) r))
    fuel i cd

/-- The 64 rounds of the cdata encryption loop of bhash. -/
def bhashEncLoop (s0 s1 s2 s3 p0 p1 p2 p3 p4 p5 p6 p7 p8 p9 p10 p11 p12 p13 p14 p15 p16 p17 : Nat) (fuel cd : Nat) : Nat :=
  Nat.rec (motive := fun _ => Nat → Nat)
    (fun cd => cd)
    (fun _ ih cd => strict (bhashPairs s0 s1 s2 s3 p0 p1 p2 p3 p4 p5 p6 p7 p8 p9 p10 p11 p12 p13 p14 p15 p16 p17 4 0 cd) fun cd => ih cd)
    fuel cd

/-- Final stage of bhash given the expanded cipher state: encrypt the seed
words 64 times and serialize them little-endian. -/
def bhashFinish (p s0 s1 s2 s3 : Nat) : List Nat :=
  withP p fun p0 p1 p2 p3 p4 p5 p6 p7 p8 p9 p10 p11 p12 p13 p14 p15 p16 p17 =>
    bhashOut (bhashEncLoop s0 s1 s2 s3 p0 p1 p2 p3 p4 p5 p6 p7 p8 p9 p10 p11 p12 p13 p14 p15 p16 p17 64 (cdataInit BHASH_SEED))

/-- The function bhash(sha2_pass, sha2_salt): the body after the two length
assertions.  Salted key expansion keyed by the salt with keying material the
password, 64 repetitions of expand(salt); expand(pass), then the seed block
encrypted 64 times and serialized little-endian. -/
def bhash (pass salt : List Nat) : List Nat :=
  let st := bhashLoop (beNat salt) (beNat pass) 64 (bcSaltedExpandKey bfInit (beNat salt) (beNat pass))
  bhashFinish st.p st.s0 st.s1 st.s2 st.s3

/-- The digest size of SHA-512 in bytes (Sha512::output_size()). -/
def sha512OutputSize : Nat := 64

/-- The function bhash together with its two length assertions
(assert_eq!(sha2_pass.len(), 64) and assert_eq!(sha2_salt.len(), 64)):
none models the panic of a failed assertion. -/
def bhashChecked (sha2_pass sha2_salt : List Nat) : Option (List Nat) :=
  if sha2_pass.length = sha512OutputSize then
    if sha2_salt.length = sha512OutputSize then some (bhash sha2_pass sha2_salt)
    else none
  else none

/-- The keyed-MAC adaptor (struct Bhash in the source): sha2_pass holds the
64-byte key, and salt models the running Sha512 input state by the sequence
of bytes absorbed so far (Sha512 is a plain accumulator of its input, so the
absorbed bytes determine its state). -/
structure Bhash where
  sha2_pass : List Nat
  salt : List Nat

/-- Mac::new for Bhash: store the key, start an empty salt hash. -/
def Bhash.new (key : List Nat) : Bhash := ⟨key, []⟩

/-- Mac::input for Bhash: absorb data into the running salt hash. -/
def Bhash.input (m : Bhash) (data : List Nat) : Bhash := ⟨m.sha2_pass, m.salt ++ data⟩

/-- Mac::reset for Bhash: reset the running salt hash to its default state
(the key is untouched). -/
def Bhash.reset (m : Bhash) : Bhash := ⟨m.sha2_pass, []⟩

/-- Mac::result for Bhash: bhash of the stored key and the digest of the
absorbed salt bytes. -/
def Bhash.result (m : Bhash) : List Nat := bhash m.sha2_pass (sha512 m.salt)

/-- Modelled from the spec: one application of the keyed MAC as the external
generic PBKDF2 driver uses it (clone the keyed instance, feed data,
finalize). -/
def prfOnce (prf : Bhash) (data : List Nat) : List Nat := (prf.input data).result

/-- Byte-wise xor of two byte strings of equal length. -/
def xorBytes (a b : List Nat) : List Nat := List.zipWith (fun x y => Nat.xor x y) a b

/-- The 4 big-endian bytes of a 32-bit integer (the block-index suffix of
PBKDF2). -/
def be32Bytes (v : Nat) : List Nat :=
  [Nat.mod (Nat.shiftRight v 24) 256, Nat.mod (Nat.shiftRight v 16) 256,
   Nat.mod (Nat.shiftRight v 8) 256, Nat.mod v 256]

/-- Modelled from the spec: the iteration of one PBKDF2 block after U1:
repeatedly U := PRF(U), xor-accumulating into the block. -/
def pbkdf2Iter (prf : Bhash) : Nat → List Nat → List Nat → List Nat
  | 0, _, acc => acc
  | n+1, u, acc =>
    let u2 := prfOnce prf u
    pbkdf2Iter prf n u2 (xorBytes acc u2)

/-- Modelled from the spec: PBKDF2 block b (0-based):
U1 = PRF(salt || BE32(b+1)), then rounds-1 further PRF iterations
xor-accumulated (per the standard PBKDF2 definition the external pbkdf2
crate implements). -/
def pbkdf2Block (prf : Bhash) (salt : List Nat) (rounds b : Nat) : List Nat :=
  let u1 := prfOnce prf (salt ++ be32Bytes (b + 1))
  pbkdf2Iter prf (rounds - 1) u1 u1

/-- Modelled from the spec: the generic PBKDF2 driver (the external pbkdf2
crate), specialized to the Bhash MAC: ceil(len/32) consecutive 32-byte
blocks, truncated to len bytes. -/
def pbkdf2 (key salt : List Nat) (rounds len : Nat) : List Nat :=
  (List.flatten ((List.range ((len + BHASH_OUTPUT_SIZE - 1) / BHASH_OUTPUT_SIZE)).map
    (fun b => pbkdf2Block (Bhash.new key) salt rounds b))).take len

/-- The public driver bcrypt_pbkdf(passphrase, salt, rounds, output):
digest the passphrase with SHA-512, run PBKDF2 with the Bhash MAC into
stride * 32 bytes, then transpose into the output buffer
(output[i] = generated[(i % stride) * 32 + i / stride]).  The output buffer
is modelled by its length; the returned list is its final contents. -/
def bcrypt_pbkdf (passphrase salt : List Nat) (rounds len : Nat) : List Nat :=
  let stride := (len + BHASH_OUTPUT_SIZE - 1) / BHASH_OUTPUT_SIZE
  let generated := pbkdf2 (sha512 passphrase) salt rounds (stride * BHASH_OUTPUT_SIZE)
  (List.range len).map (fun i => generated.getD ((i % stride) * BHASH_OUTPUT_SIZE + i / stride) 0)

/-- Spec step 2, as worded there: 128 re-expansions in total, alternating
salt (at even positions i) and password (at odd positions), each a full
expand-key pass. -/
def specAltExpand (salt pass : Nat) (fuel i : Nat) (st : BF) : BF :=
  Nat.rec (motive := fun _ => Nat → BF → BF)
    (fun _ st => st)
    (fun _ ih i st => ih (i + 1) (bcExpandKey st (if i % 2 = 0 then salt else pass)))
    fuel i st

/-- Spec step 4, as worded there: for i = 0, 1, 2, 3 in order, encrypt the
adjacent pair (cdata[2i], cdata[2i+1]) as one 64-bit block, replacing the
pair with the ciphertext halves. -/
def specPairs (s0 s1 s2 s3 p0 p1 p2 p3 p4 p5 p6 p7 p8 p9 p10 p11 p12 p13 p14 p15 p16 p17 : Nat) (fuel i cd : Nat) : Nat :=
  Nat.rec (motive := fun _ => Nat → Nat → Nat)
    (fun _ cd => cd)
    (fun _ ih i cd =>
      strict2 (bfEnc s0 s1 s2 s3 p0 p1 p2 p3 p4 p5 p6 p7 p8 p9 p10 p11 p12 p13 p14 p15 p16 p17 (getw cd (2 * i)) (getw cd (2 * i + 1))) fun l r =>
        ih (i + 1) (setw (setw cd (2 * i) l) (2 * i + 1) r))
    fuel i cd

/-- The 64 repetitions of spec step 4. -/
def specEncLoop (s0 s1 s2 s3 p0 p1 p2 p3 p4 p5 p6 p7 p8 p9 p10 p11 p12 p13 p14 p15 p16 p17 : Nat) (fuel cd : Nat) : Nat :=
  Nat.rec (motive := fun _ => Nat → Nat)
    (fun cd => cd)
    (fun _ ih cd => strict (specPairs s0 s1 s2 s3 p0 p1 p2 p3 p4 p5 p6 p7 p8 p9 p10 p11 p12 p13 p14 p15 p16 p17 4 0 cd) fun cd => ih cd)
    fuel cd

/-- Spec step 5, as worded there: serialize words 0..7 in word order, each
written little-endian. -/
def specSerialize (cd : Nat) : List Nat :=
  (List.range 8).foldl (fun acc i => acc ++ leBytesW (getw cd i)) []

/-- Final stage of the spec algorithm given the expanded state (steps 3-5). -/
def specFinish (p s0 s1 s2 s3 : Nat) : List Nat :=
  withP p fun p0 p1 p2 p3 p4 p5 p6 p7 p8 p9 p10 p11 p12 p13 p14 p15 p16 p17 =>
    specSerialize (specEncLoop s0 s1 s2 s3 p0 p1 p2 p3 p4 p5 p6 p7 p8 p9 p10 p11 p12 p13 p14 p15 p16 p17 64 (cdataInit BHASH_SEED))

/-- The five-step reference algorithm of the spec for bhash: salted key
expansion keyed by the salt with keying material the password; 128
alternating re-expansions; the big-endian seed words; 64 pairwise
encryption passes; little-endian serialization. -/
def bhashSpec (pass salt : List Nat) : List Nat :=
  let st := specAltExpand (beNat salt) (beNat pass) 128 0 (bcSaltedExpandKey bfInit (beNat salt) (beNat pass))
  specFinish st.p st.s0 st.s1 st.s2 st.s3

/-- Strict evaluation is the identity: case analysis on a natural number and
re-applying the continuation gives the value of the continuation. -/
theorem strict_eq {a : Type} (n : Nat) (k : Nat → a) : strict n k = k n := by
  cases n <;> rfl

/-- Forcing both components of a pair is the identity. -/
theorem strict2_eq {a : Type} (lr : Nat × Nat) (k : Nat → Nat → a) : strict2 lr k = k lr.1 lr.2 := by
  unfold strict2
  rw [strict_eq, strict_eq]

/-- One unfolding step of the alternating re-expansion loop. -/
theorem specAltExpand_succ (salt pass f i : Nat) (st : BF) :
    specAltExpand salt pass (f + 1) i st =
      specAltExpand salt pass f (i + 1) (bcExpandKey st (if i % 2 = 0 then salt else pass)) := rfl

/-- One unfolding step of the 64-round double-expansion loop of the source. -/
theorem bhashLoop_succ (salt pass n : Nat) (st : BF) :
    bhashLoop salt pass (n + 1) st = bhashLoop salt pass n (bcExpandKey (bcExpandKey st salt) pass) := by
  cases hE : bcExpandKey (bcExpandKey st salt) pass with
  | mk p s0 s1 s2 s3 =>
    show (match bcExpandKey (bcExpandKey st salt) pass with
          | ⟨p, s0, s1, s2, s3⟩ =>
            strict p fun p => strict s0 fun s0 => strict s1 fun s1 => strict s2 fun s2 =>
              strict s3 fun s3 => bhashLoop salt pass n ⟨p, s0, s1, s2, s3⟩) = _
    rw [hE]
    simp only [strict_eq]

/-- The 128 alternating spec re-expansions, started at an even position,
coincide with the source loop of 64 salt-then-password double expansions. -/
theorem alt_expand_eq (salt pass : Nat) :
    ∀ (n m : Nat) (st : BF), specAltExpand salt pass (2 * n) (2 * m) st = bhashLoop salt pass n st := by
  intro n
  induction n with
  | zero => intro m st; rfl
  | succ k ih =>
    intro m st
    have e1 : (if 2 * m % 2 = 0 then salt else pass) = salt := by
      have h : 2 * m % 2 = 0 := by omega
      rw [h]
      exact if_pos rfl
    have e2 : (if (2 * m + 1) % 2 = 0 then salt else pass) = pass := by
      have h : (2 * m + 1) % 2 = 1 := by omega
      rw [h]
      exact if_neg (by decide)
    have h2 : 2 * (k + 1) = 2 * k + 1 + 1 := by ring
    have h3 : 2 * m + 1 + 1 = 2 * (m + 1) := by ring
    rw [h2, specAltExpand_succ, specAltExpand_succ, e1, e2, h3, ih (m + 1), bhashLoop_succ]

/-- One unfolding step of the source cdata pair pass. -/
theorem bhashPairs_succ (s0 s1 s2 s3 p0 p1 p2 p3 p4 p5 p6 p7 p8 p9 p10 p11 p12 p13 p14 p15 p16 p17 f i cd : Nat) :
    bhashPairs s0 s1 s2 s3 p0 p1 p2 p3 p4 p5 p6 p7 p8 p9 p10 p11 p12 p13 p14 p15 p16 p17 (f + 1) i cd =
      strict2 (bfEnc s0 s1 s2 s3 p0 p1 p2 p3 p4 p5 p6 p7 p8 p9 p10 p11 p12 p13 p14 p15 p16 p17 (getw cd i) (getw cd (i + 1))) (fun l r =>
        bhashPairs s0 s1 s2 s3 p0 p1 p2 p3 p4 p5 p6 p7 p8 p9 p10 p11 p12 p13 p14 p15 p16 p17 f (i + 2) (setw (setw cd i l) (i + 1) r)) := rfl

/-- One unfolding step of the spec cdata pair pass. -/
theorem specPairs_succ (s0 s1 s2 s3 p0 p1 p2 p3 p4 p5 p6 p7 p8 p9 p10 p11 p12 p13 p14 p15 p16 p17 f i cd : Nat) :
    specPairs s0 s1 s2 s3 p0 p1 p2 p3 p4 p5 p6 p7 p8 p9 p10 p11 p12 p13 p14 p15 p16 p17 (f + 1) i cd =
      strict2 (bfEnc s0 s1 s2 s3 p0 p1 p2 p3 p4 p5 p6 p7 p8 p9 p10 p11 p12 p13 p14 p15 p16 p17 (getw cd (2 * i)) (getw cd (2 * i + 1))) (fun l r =>
        specPairs s0 s1 s2 s3 p0 p1 p2 p3 p4 p5 p6 p7 p8 p9 p10 p11 p12 p13 p14 p15 p16 p17 f (i + 1) (setw (setw cd (2 * i) l) (2 * i + 1) r)) := rfl

/-- The spec pass at pair index i coincides with the source pass started at
word index 2*i. -/
theorem pairs_shift (s0 s1 s2 s3 p0 p1 p2 p3 p4 p5 p6 p7 p8 p9 p10 p11 p12 p13 p14 p15 p16 p17 : Nat) :
    ∀ (f i cd : Nat), specPairs s0 s1 s2 s3 p0 p1 p2 p3 p4 p5 p6 p7 p8 p9 p10 p11 p12 p13 p14 p15 p16 p17 f i cd = bhashPairs s0 s1 s2 s3 p0 p1 p2 p3 p4 p5 p6 p7 p8 p9 p10 p11 p12 p13 p14 p15 p16 p17 f (2 * i) cd := by
  intro f
  induction f with
  | zero => intro i cd; rfl
  | succ g ih =>
    intro i cd
    rw [specPairs_succ, bhashPairs_succ, strict2_eq, strict2_eq]
    have h1 : 2 * i + 2 = 2 * (i + 1) := by ring
    rw [ih (i + 1), h1]

/-- The pairwise spec cdata encryption pass (pairs (2i, 2i+1), i = 0..3)
coincides with the source pass (indices 0, 2, 4, 6 stepping by 2). -/
theorem pairs_eq (s0 s1 s2 s3 p0 p1 p2 p3 p4 p5 p6 p7 p8 p9 p10 p11 p12 p13 p14 p15 p16 p17 cd : Nat) :
    specPairs s0 s1 s2 s3 p0 p1 p2 p3 p4 p5 p6 p7 p8 p9 p10 p11 p12 p13 p14 p15 p16 p17 4 0 cd = bhashPairs s0 s1 s2 s3 p0 p1 p2 p3 p4 p5 p6 p7 p8 p9 p10 p11 p12 p13 p14 p15 p16 p17 4 0 cd := by
  have h := pairs_shift s0 s1 s2 s3 p0 p1 p2 p3 p4 p5 p6 p7 p8 p9 p10 p11 p12 p13 p14 p15 p16 p17 4 0 cd
  norm_num at h
  exact h

/-- The 64 spec encryption passes coincide with the source loop. -/
theorem encLoop_eq (s0 s1 s2 s3 p0 p1 p2 p3 p4 p5 p6 p7 p8 p9 p10 p11 p12 p13 p14 p15 p16 p17 : Nat) :
    ∀ (n cd : Nat), specEncLoop s0 s1 s2 s3 p0 p1 p2 p3 p4 p5 p6 p7 p8 p9 p10 p11 p12 p13 p14 p15 p16 p17 n cd = bhashEncLoop s0 s1 s2 s3 p0 p1 p2 p3 p4 p5 p6 p7 p8 p9 p10 p11 p12 p13 p14 p15 p16 p17 n cd := by
  intro n
  induction n with
  | zero => intro cd; rfl
  | succ m ih =>
    intro cd
    show strict (specPairs s0 s1 s2 s3 p0 p1 p2 p3 p4 p5 p6 p7 p8 p9 p10 p11 p12 p13 p14 p15 p16 p17 4 0 cd) (fun cd2 => specEncLoop s0 s1 s2 s3 p0 p1 p2 p3 p4 p5 p6 p7 p8 p9 p10 p11 p12 p13 p14 p15 p16 p17 m cd2) =
         strict (bhashPairs s0 s1 s2 s3 p0 p1 p2 p3 p4 p5 p6 p7 p8 p9 p10 p11 p12 p13 p14 p15 p16 p17 4 0 cd) (fun cd2 => bhashEncLoop s0 s1 s2 s3 p0 p1 p2 p3 p4 p5 p6 p7 p8 p9 p10 p11 p12 p13 p14 p15 p16 p17 m cd2)
    rw [strict_eq, strict_eq, pairs_eq]
    exact ih _

/-- The spec serialization (fold over word indices 0..7) coincides with the
little-endian serialization of the source. -/
theorem serialize_eq (cd : Nat) : specSerialize cd = bhashOut cd := rfl

/-- The spec final stage (steps 3-5) coincides with the final stage of the source. -/
theorem finish_eq (p s0 s1 s2 s3 : Nat) : specFinish p s0 s1 s2 s3 = bhashFinish p s0 s1 s2 s3 := by
  show specSerialize (specEncLoop s0 s1 s2 s3 (getw p 0) (getw p 1) (getw p 2) (getw p 3) (getw p 4) (getw p 5) (getw p 6) (getw p 7) (getw p 8) (getw p 9) (getw p 10) (getw p 11) (getw p 12) (getw p 13) (getw p 14) (getw p 15) (getw p 16) (getw p 17) 64 (cdataInit BHASH_SEED)) =
       bhashOut (bhashEncLoop s0 s1 s2 s3 (getw p 0) (getw p 1) (getw p 2) (getw p 3) (getw p 4) (getw p 5) (getw p 6) (getw p 7) (getw p 8) (getw p 9) (getw p 10) (getw p 11) (getw p 12) (getw p 13) (getw p 14) (getw p 15) (getw p 16) (getw p 17) 64 (cdataInit BHASH_SEED))
  rw [encLoop_eq, serialize_eq]

/-- C3: for every pair of 64-byte inputs, bhash equals the five-step
reference algorithm of the spec (salted expansion; 128 alternating
re-expansions; big-endian seed words; 64 pairwise encryption passes in index
order; little-endian serialization). -/
theorem bhash_matches_spec (pass salt : List Nat)
    (_hp : pass.length = 64) (_hs : salt.length = 64) :
    bhash pass salt = bhashSpec pass salt := by
  have hloop : specAltExpand (beNat salt) (beNat pass) 128 0
      (bcSaltedExpandKey bfInit (beNat salt) (beNat pass)) =
      bhashLoop (beNat salt) (beNat pass) 64 (bcSaltedExpandKey bfInit (beNat salt) (beNat pass)) := by
    have h := alt_expand_eq (beNat salt) (beNat pass) 64 0
      (bcSaltedExpandKey bfInit (beNat salt) (beNat pass))
    norm_num at h
    exact h
  simp only [bhash, bhashSpec]
  rw [hloop]
  exact (finish_eq _ _ _ _ _).symm

/-- C3 witness instance: the equality applies to concrete 64-byte inputs. -/
theorem bhash_matches_spec_inst :
    (List.replicate 64 0).length = 64 ∧
    bhash (List.replicate 64 0) (List.range 64) = bhashSpec (List.replicate 64 0) (List.range 64) :=
  ⟨by decide, bhash_matches_spec (List.replicate 64 0) (List.range 64) (by decide) (by decide)⟩

/-- C2: for len > 0 the driver output has exactly len bytes, and byte i is
byte (i mod stride) * 32 + (i div stride) of the stride * 32 bytes of PBKDF2
material, stride = ceil(len / 32). -/
theorem bcrypt_pbkdf_transpose (pass salt : List Nat) (rounds len : Nat) (_hlen : 0 < len) :
    (bcrypt_pbkdf pass salt rounds len).length = len ∧
    ∀ i, i < len →
      (bcrypt_pbkdf pass salt rounds len).getD i 0 =
        (pbkdf2 (sha512 pass) salt rounds ((len + 32 - 1) / 32 * 32)).getD
          (i % ((len + 32 - 1) / 32) * 32 + i / ((len + 32 - 1) / 32)) 0 := by
  constructor
  · simp [bcrypt_pbkdf]
  · intro i hi
    show ((List.range len).map
        (fun i => (pbkdf2 (sha512 pass) salt rounds ((len + BHASH_OUTPUT_SIZE - 1) / BHASH_OUTPUT_SIZE * BHASH_OUTPUT_SIZE)).getD
          (i % ((len + BHASH_OUTPUT_SIZE - 1) / BHASH_OUTPUT_SIZE) * BHASH_OUTPUT_SIZE + i / ((len + BHASH_OUTPUT_SIZE - 1) / BHASH_OUTPUT_SIZE)) 0)).getD i 0 = _
    rw [List.getD_eq_getElem?_getD, List.getElem?_map, List.getElem?_range hi]
    rfl

/-- C2 witness instance: a 5-byte output with 2 rounds, index 3. -/
theorem bcrypt_pbkdf_transpose_inst :
    0 < 5 ∧
    ((bcrypt_pbkdf [1, 2] [3] 2 5).length = 5 ∧
    ∀ i, i < 5 →
      (bcrypt_pbkdf [1, 2] [3] 2 5).getD i 0 =
        (pbkdf2 (sha512 [1, 2]) [3] 2 ((5 + 32 - 1) / 32 * 32)).getD
          (i % ((5 + 32 - 1) / 32) * 32 + i / ((5 + 32 - 1) / 32)) 0) :=
  ⟨by decide, bcrypt_pbkdf_transpose [1, 2] [3] 2 5 (by decide)⟩

/-- C5 counterexample: with a zero-length output buffer the call returns
successfully with the zero-length (empty) result; nothing is rejected. -/
theorem bcrypt_pbkdf_len0_inst :
    bcrypt_pbkdf [112, 97, 115, 115, 119, 111, 114, 100] [115, 97, 108, 116] 4 0 = [] := rfl

/-- C5 (amended): a zero-length output buffer is not rejected: for every
passphrase, salt and rounds the call returns successfully, writing nothing
(the output stays of length zero). -/
theorem bcrypt_pbkdf_len0 (passphrase salt : List Nat) (rounds : Nat) :
    bcrypt_pbkdf passphrase salt rounds 0 = [] := rfl

/-- C8: bcrypt_pbkdf and bhash are deterministic: calls on equal arguments
give equal (byte-identical) results. -/
theorem bcrypt_pbkdf_deterministic (p1 p2 s1 s2 a1 a2 b1 b2 : List Nat) (r1 r2 l1 l2 : Nat)
    (hp : p1 = p2) (hs : s1 = s2) (hr : r1 = r2) (hl : l1 = l2) (ha : a1 = a2) (hb : b1 = b2) :
    bcrypt_pbkdf p1 s1 r1 l1 = bcrypt_pbkdf p2 s2 r2 l2 ∧ bhash a1 b1 = bhash a2 b2 := by
  subst hp hs hr hl ha hb
  exact ⟨rfl, rfl⟩

/-- C8 witness instance. -/
theorem bcrypt_pbkdf_deterministic_inst :
    bcrypt_pbkdf [112] [0] 4 0 = bcrypt_pbkdf [112] [0] 4 0 ∧
    bhash [1] [2] = bhash [1] [2] :=
  bcrypt_pbkdf_deterministic [112] [112] [0] [0] [1] [1] [2] [2] 4 4 0 0 rfl rfl rfl rfl rfl rfl

/-- C9: bhashChecked rejects (returns none, modelling the assertion panic)
exactly when an input is not 64 bytes, and on two 64-byte inputs it returns
the bhash value unchanged (the assertions are unreachable). -/
theorem bhash_length_assertions :
    (∀ p s : List Nat, p.length ≠ 64 ∨ s.length ≠ 64 → bhashChecked p s = none) ∧
    ∀ p s : List Nat, p.length = 64 → s.length = 64 → bhashChecked p s = some (bhash p s) := by
  constructor
  · intro p s h
    unfold bhashChecked sha512OutputSize
    rcases h with h | h
    · rw [if_neg h]
    · by_cases hp : p.length = 64
      · rw [if_pos hp, if_neg h]
      · rw [if_neg hp]
  · intro p s hp hs
    unfold bhashChecked sha512OutputSize
    rw [if_pos hp, if_pos hs]

/-- C9 witness instance: a 63-byte password is rejected; two 64-byte inputs
pass the assertions. -/
theorem bhash_length_assertions_inst :
    bhashChecked (List.replicate 63 0) (List.replicate 64 0) = none ∧
    bhashChecked (List.replicate 64 0) (List.replicate 64 0) =
      some (bhash (List.replicate 64 0) (List.replicate 64 0)) :=
  ⟨bhash_length_assertions.1 _ _ (Or.inl (by decide)),
   bhash_length_assertions.2 _ _ (by decide) (by decide)⟩

/-- Feeding input pieces to the MAC adaptor accumulates their concatenation
next to whatever was already absorbed. -/
theorem mac_input_foldl (m : Bhash) (pieces : List (List Nat)) :
    (pieces.foldl Bhash.input m).result = bhash m.sha2_pass (sha512 (m.salt ++ pieces.flatten)) := by
  induction pieces generalizing m with
  | nil => simp [Bhash.result]
  | cons d rest ih =>
    rw [List.foldl_cons, ih]
    simp [Bhash.input, List.append_assoc]

/-- The stored key survives any sequence of input calls. -/
theorem mac_input_key (m : Bhash) (pieces : List (List Nat)) :
    (pieces.foldl Bhash.input m).sha2_pass = m.sha2_pass := by
  induction pieces generalizing m with
  | nil => rfl
  | cons d rest ih => rw [List.foldl_cons, ih]; rfl

/-- C6: however the salt bytes are split into input calls, finalizing the
keyed MAC yields bhash(key, SHA512 of the concatenation of all inputs). -/
theorem mac_result_eq (key : List Nat) (_hkey : key.length = 64) (pieces : List (List Nat)) :
    (pieces.foldl Bhash.input (Bhash.new key)).result = bhash key (sha512 pieces.flatten) := by
  rw [mac_input_foldl]
  rfl

/-- C6 witness instance: a key of 64 bytes and a split input. -/
theorem mac_result_eq_inst :
    (List.replicate 64 0).length = 64 ∧
    ([[1], [2, 3]].foldl Bhash.input (Bhash.new (List.replicate 64 0))).result =
      bhash (List.replicate 64 0) (sha512 ([[1], [2, 3]] : List (List Nat)).flatten) :=
  ⟨by decide, mac_result_eq (List.replicate 64 0) (by decide) [[1], [2, 3]]⟩

/-- C7: reset returns the adaptor to its post-construction state: the key is
kept, the absorbed input is cleared, and a reset instance behaves exactly
like a freshly constructed one on any further input sequence. -/
theorem mac_reset_restores (key : List Nat) (_hkey : key.length = 64) (junk s : List (List Nat)) :
    (junk.foldl Bhash.input (Bhash.new key)).reset = Bhash.new key ∧
    (s.foldl Bhash.input ((junk.foldl Bhash.input (Bhash.new key)).reset)).result =
      (s.foldl Bhash.input (Bhash.new key)).result := by
  have h : (junk.foldl Bhash.input (Bhash.new key)).reset = Bhash.new key := by
    unfold Bhash.reset
    rw [mac_input_key]
    rfl
  exact ⟨h, by rw [h]⟩

/-- C7 witness instance. -/
theorem mac_reset_restores_inst :
    ([[7]].foldl Bhash.input (Bhash.new (List.replicate 64 0))).reset = Bhash.new (List.replicate 64 0) ∧
    ([[1, 2]].foldl Bhash.input (([[7]].foldl Bhash.input (Bhash.new (List.replicate 64 0))).reset)).result =
      ([[1, 2]].foldl Bhash.input (Bhash.new (List.replicate 64 0))).result :=
  mac_reset_restores (List.replicate 64 0) (by decide) [[7]] [[1, 2]]

/-- Splitting the 64-iteration re-expansion loop: running a + b
iterations is running a iterations and then b more. -/
theorem bhashLoop_add (salt pass : Nat) :
    ∀ (a b : Nat) (st : BF),
      bhashLoop salt pass (a + b) st = bhashLoop salt pass b (bhashLoop salt pass a st) := by
  intro a
  induction a with
  | zero =>
    intro b st
    rw [Nat.zero_add]
    rfl
  | succ k ih =>
    intro b st
    have h : k + 1 + b = (k + b) + 1 := by omega
    rw [h, bhashLoop_succ, bhashLoop_succ]
    exact ih b (bcExpandKey (bcExpandKey st salt) pass)

theorem beNat_zero64 : beNat (List.replicate 64 0) = 0 := by
  decide

theorem beNat_range64 : beNat (List.range 64) = 206194662513534749705098423655607014647894899201728464094172417435167459132234478689763541686534462555786726000561108048500636413870766166035119554111 := by
  decide

def stA0 : BF := ⟨24555231433161720432362253002707254061391909592974903608303165986559214453433843781190976313875575535673381894649151189453410355251011316884884399399274508275735497957810124, 41105398954543700454237385923168769462656828321802580216199044879954992631683673713719418254931699450297478190586275942676123803949007430714711976324659811682395144680202068939348499215914770140157651865628785253313883606478278660203704936020933313933011603855832539327878160275721090473134449072445509092344959888566880050109578552088350193466504446840542546247216793819984799361857262584580750055672814342570646214547555163528242378034202596030137086598783124547144564712158053643938904535967929246457140150520260595350531735982710930705931093749415677016537278825275793824872258103037356330393428824796470079376219352627999951327706219476830651316275942539487753367072825557466957723202832751804383816697104474637423325500413074474743554945709201708168571385379955140305676670435983442737995447768223169708224804219155278984863031131584589949275492594889234943469172286273484446114909445853639579703257289645929440205780269519779630115226256200713023462486689477647589832712658590176231385883166098990877492773893130679205061065490311385148027454238500171204951860655462458744488474981403885308383181891689838723859605464632085013637634101325452084673111304994905240074739712867328229683402786969585990456073701295978608083485753417809541891511312896807626434122071146404463655810099177643280660498026106448892360926736782938793362005551353019151597036100737890619378012633109201533828940334330741370548935568123285202577619735529572505381738328735164945037407270234469656836052549067235277341501278931362598177935431972044893742908922511569243336466750773270840484042910399141927814615889893436319370362637224038582444197805716329313051669549047811215708603414139417989389399232612823880575412741193209824164470782519024694164916894447764290636992414169137361120028412573966686345233692361950800910806060235326070125879192117763050255896408852632594641781674064996195941114265073859476317795202469276912165482471429405261544345215694100848145457755736008429441245393484954582037803851211293579901349239061416854197010551494584947914681426601770782548312894154031637168381216736149555430705123957244709473778323580398067618380783464133021437277400822224045766749393752686374989476301717247553037076785624245160821299558074815943875425652808511959093333716539989291326343936535671727063861215974732064224466415344425795143083291334295679821927902954368407172469736536006072558053370081251282356417394210669383264351025776896593980406306882973556625512407822360737, 335652396924021939284091306726646444218036181855376654407297810434202327699318025572568834651423517413507202382490705121771778571407701877301553012863769541356087723323501959756911138406075420724010295145915699924047715585058767138871197874331950410018320522145069296659427542300153947054778073515549781627662794660677144087397524301048780039798580160212346932694116104907516779619867215601132518112166701578698718669501326667524768069540096071566136784360927635252185755795833009031191672318275183815202462293211076273296618668744385961979858431047990683573543880672692916465885275443463601230384245413155913077582264632930451326577064328469575634412924192835471274458077777812495490759562516600407877860560068188760441309847442609047737600074051462950217975115002885818994973792568696940649665626436812421872120763365636909272003772720264396877524777556528041285106270131744481198422914946636840214466633679243096072606422520645286796688981569235904447727239165370310885022558657377979694017750451559557615306972935942111313090654278017989079389159712480519069578289321386576292011469491959177021060771085820806791679555320119827422705219485714582366482351799961571813221193386297869012857561295349674487754766439602293990052964874711796694093730042645677615193814323525824686788747932125959558821396929637552588122934788290372849414853087893893731542947433485273774287654344747504754819417328661532897969380035934981085977441978575641000088954804264635918734161633211139811728116648925522212409298191206457040330217092268031476473925574936795200270646041503141657550824841150356907323079559253032618226684502092634873028827705856552139752531738865948847238577612664516052147852916759163381790480231768967244027438228810151339828659039276937001828358191656148610471200913979902322284621268990368134428774751546205532423234396081189736775822088543997382044820280383284638932309315131716728546049540660824551701908199168271127151870030021012471199404873302070467952977589798130528006243975023201708160428818319048024741615451953858094292112780778757388356841638129620490013015939413226065392667394811105810661160938240641381291308768515006207167388008065472884928588814878208878866334076025909133600269329521796312030247545713633819697403551690154403993022950679573961767555570296289837451169833456779050387462999853531697373507559651589422678970773759540774127568428158078066933022820219712035857694670430340633499108795545953467141491846298371980170992316961946427, 977487054411031847583811255473127119953442574391796473206336273375819533853407203744780240774738661439805947266418533934163399304082670657859668781449845550309314898729477697619672193322047439524733721525183688298949785984417228646623649503210049943960549337547394100282529479178239220171743067509087756661060524416660378096846056075281248273147685484317050908259784874752221597112635928294389365480769462811138478206393240131020976554563146432104208459858727409556170514765224718254465021664923265864929900603253480521230823823671125972478122178573248472833522925203939115365704654117864574105913894408269868868383597121727480709553948306984160114970124379534604169989410243587023097705325234651419737461053277833344813313842706748035204061890591847002678507546987499548862835447006587086558720208832227844380045013755618600812113087942060599683718370104517533782442441862959886480506434557934703988236948489486590124139430377688611711468680256264813535111381655053084242526618374736296729036617406397589767830353333835163633344496666928050381327168270963389741415376622953540695523395528611302573251198713162303118865234559695469041700265935411479873387556636416437334753827502116605906384011949059653140940616947981977667075720280776155342507797290645907587152783434568763432038970019790456811985881031794164472602844370232217281392914467102792130857817893593677410150988674628712817778572659422767227358156503155735528885513157224068830944612654352123821288582023024869836233445130629594178449038382290074108046582828905455372086867711173789732467671245805864938153291627953279691655471475064141449070771555833184414695788724742877293136055840397909399880322732187654425601157321546131383376381684496732335267214153106415298077186875642317960224929842590092582626668921116178382141953653062774156594140467371129992040709740825115872225430308219104180140944312621348138113745517666605349748525705982919556910220548016284152312557917315339957514440469038252843066113262548773958167308984254602187877671423098951634954876179437296689877204933655051506222287901450366569768126505539887279108904597433836143473120402500983308521037278338479796522276621522090904359841261018186124810116432817488409041460649405815232784990966860116897482529189086537276701321632758019812158614601537376304594432673793479797965558801964784772981813274378613177608179788287488324702393704726434510971220243859880463093763970946704913347331823067599437472683679597560201418826783480081038, 163392948188740880278253904294371796919226711134076689213869629471172204648901648810175648970010579032591501286790768125310240881169082918187346797883957509920207246647190070272447119030558951233486633114285954502830236750208356622151274545534058076582998913458157158108277248658258073582357747779632205012869813242349617922310036549198197411023077237211914548881559752193801991683671524347872278608332050620546537133792252256788408265162880154842887360621122519144021607410282958016476290389107225440729655713285053517517624545771359338585769606903164467907822114887137043480665662924083915534601646785971352784020905527532893730133498556779471008913549388373545574328474166623740064471135290477490473790523846565428597120589314417955246922829134199961241424142566374154236380354408018015370072058551395972191560774443459369497173852501040718134824612777883709567509171933292146830369271109157395590469641417794662522574632475450342342646803528333833197507109203238040616017799499503792172128873636280841558400870490023740181208131704848271547267267738625915954544191943712761092218398763656484260754903860478382705575314569758876705845908820286554028707390245249559432256592253636119155825951823484994971777573733451436636529486365436147334846232526209837126053756492983901699426488739846397670072147607391516265056766403061323382124514055400575334053297184759547948913361499264018385972256181605043853474494187752614086550393491130262735066870698866067206713194452625666015113682567154195388506047786796968595641519291875858942661962977754785875998943151444360805933604821183765701271966148349511187442864190369680689173650750251935379439710872859230447645383506723285520386084559819312143122941665638741594678387521742104885010073971799393933216261627350136468679331844464394677591459116881163662950239812276778231827550298788743688802583371641418808664593593368217622734534717275252551732529293369809624176217315945929232571159777403725023455351552152371011887294352820310314741735464865723564207189796272750482542129039439909843951660764776328968525695777233682786897605616388322966867422204281238477827109992638281389613540924890632488865947868558143219187189104183005458497386021999672339426295940712435371886475109143873099349452994105035783249279199013758219910032460547739229614392658348797553348552236798433634945624255084202004108778456550869376046935670095305048413567824899708244577310656182574937627469730102929570255951538239191326075237842195539720⟩

def stA1 : BF := ⟨164903612139861251992782556340998724444862144276302130860540828346801283753810504767368189169649459289620610385293474893113223827317247803178191585238697969368212796431046491, 777236117308898857642514150020641080180534841043467575310319237624040810987474072019812809035327490669530044518565428751068458136174185902618896010079881905468832553826049079507307027637497344198806062077532271385203083964154543039244063198553130141347246561009366544882705024869657795316939253687394962939713330372476875047953898083968814324648043006749196423544255196516712331589511448981409472667865983411224682927973913460288117020362640733325743944050167405806707463710140360379167337854490915327858669221080022745964149886936906837697855367643792722474597686948713346498555725141700517091765529236902343740597444975573588868896062957352823873145654374676516160577343069119153886549294072248368455871833928497067645885844819304889013256138604142676802792067516792463228579463089736410675110480050850276448672620527528066774234300131300649950438502274502482572642232963707154195807084429798078853477533876297227056435028459338191864448719078182534779360777373148345654057843559122580143812831909141147571156532326573236673907745054640869309804865718038251141749161763681454398107143322393452200427789844730254672953551980057182554122316587225267869182990654051439603603735474471457096139511859201861726730216025683427513859130893736018987036467253598497103945903634827208003512913016401349709790007002930031638812757164637861581482748473342477874267347346807985829198585745259864295221076419480839653978959574898884553566164490654530685670075996842615060041439811178950418869481325671834988226716678021222728844258818107293259893355297104362016216929416974951849420847438089737011791108647208959760693633857809637599931014711594608676433731769314010198224964930033022676251549846207972060845213583056795532904630951957882580029774470862319701033638273656859059113066022128200088840226935428571416358006477252880306616017153403123806952789267484094176372688453188646057644722976616053788978668161568226952924768775615425676939218393272567457599745099229003181018869603776680504003989545431506574385883985448394207853473406951359809753629842092066997095393938616729013466807795199918960661760184427723029788871164840578274081093226081125682737926082808611150983814674721106775589406788761464687135569363600042269876225009422228677474134113227082816707261186864779800333820936811684306133730361338506855553115553656174508890184485017513137020826057926266318027057028167624636565328944157836679091764702194874279606372697808015647438664234861820121926891551975927876, 879409718048626884673901457991915260696658951320876396157936266658724443233689941792991266317535969797555135773919458344011775373398048178893227886114417049603611571521488797495065792756463029322575772461819690261425331350316567763545736077233854018111802259702856424578149191777571022605167073834183719643673950823677805038452599317457347337726653220980352218358928968922352820807538226503244063669141496212885034943495305840028585465556323743422751192175129079201117211909436736736395485727292115511764597200330183501912541300099521864795706361206871377608103297874541536965244812902291134367987145096034096257603313882965507841293566975002382016940973945715267406729370195402953957066206163651058123590652742812729595941971877193381707043444984517656174621371510813079410292233318507998172440788142119160645915087778980752673911522989818586667667809525208420936078560595672155287242266537416107341172161948429628421822461080975521855842352985486826807669650279882923434107338918053367373866790417294704408765141429520765984743014415309810815144904782413619731505308745275633176754093789589194037044699726500320039798206620392143874805215323140938464363514071414569851092906343024645454302469680748441268472983638996142470877261485016577113580301408940920407114632437499713775415960776885657330029854932059908542854123194967435534528061938661449508288502253754209421001496087558975096176241980984139851886907241389863214688122373356058054484450012761089847575385810834126992338576050264667218591284533088696234361766655576170889168548192537147045275395069157655934135610545427219672652918059518246583308885032099992275033033492190624015988772668696453968304195283939974383813451647190809097198188432930279523544786347114205942710203863313812917844710533125537712768865694789289003433567577646590169629978381380441920677672108615207471770385679981894879169761459955704219182084924804243761649117762842190880687663815530343055406426647976442077627032732525239648710027199302652050364470348018826733807988562964162171898394770477410546040499605035489172346602917510777758252641078983179760115146344599697720225168625935935815498980396991885320872635019693771840803824454567818988855855025864549703726144812417633145845399277726498719647698486673951765949835319159025483666340683476553530208403212489822220748132419203171995747854043763475954780638423015566358826606750052442999714244294074653202558168447034803819943201176161756809861419223492363030568665560437071334, 81763006018129152908882201233726759244957456087891423464285832541214227031496402470268432093281787563084435726924367465765095314029658331658281473135681546008800380801171844792765599696047318747374732223278908363067959873533364823565119765366984336911343046794537850698261320371046438475540518040347012750107828146294839304843380280778998483336000549166445208658280768353490762505687259203470989296125110853568180469595707917555313833932988181738932239007756719599345750085505118339212919095377713801733762033363176108698539229058792130138522130159859949028694935188775259357624137293239067527658528812237698764959144552110505506651887938985255659720570263294192721954465636639675482444734246958649309378070623979873809177914325750804455906866677625084661245205061519534534785978396410267082907836948028418988079691648719498373950597063266855473485825351602097523571809177410407404205634025142255731016440646852131963256772700609767612864633278347995070501961269862136259274745153893242987332227227320666420318454552445600497098860752106884060021956241833029968497951627064185534855168997609152306727698970865909360343960623316027158062574011551582308684326606471271002500548846453311435904243805095185405695067462994032261800247482651023892663752013041905834789376249200670051944222601231857960941779413304395587223894145222736760346412697057445617289120992055966890484375911702344652583622190103569872818016957717108955421209582770251057253717182615284076191833960507464759061894529911907862675468194151133964486685793578847784814428775288765899977644068466857877809297735026242667365495744397073484602455038142105378519799931163774837683135373749329064497101573709806263863650787601260854048428606723712423980645317522945806813224487399587773040912896319715997769954418787008904424583830282824611301721374390192404624538466074637476831295572445371412196697944749762095261165947967070103452068765904540112051385833117931045048608442364000870279699816015839286378390685070805789258559651057929304719604938691625119025147777124925867060075881249198522172040444419065658063528044838939339134393020950632033687883460648265061257085625352886672624641611168333129566559811533951501125172430752639710880352606343679196556331194533884782475415478653525727342703547674257891101686709924460099848791628037582155194682888091262152609538880398461603562378601328027126945460117509140213545506699511855885868883579056798878109821633658985582119984916867330891302942650760827659, 827524053330593950964802115197012163663448664339379410961829647152724608368666296861514407508073713684510771878608271339695782184539442702053099590962382836432962793278392225288950750046855865482884408086520447542498874878181323551397649247401266964284988967290781325129389616427444815353491615364151710124512953264396735648497580832754313082455092552074679211397554555067627803391888810584667209571410752814663798661655968424050209120877199590347828795856752111572019486017563221429375616423656490301428238111150991007357450380595119943266924351382307055519605905275337651373114172236177003954252004208269927045944168244038427792415757141823563121371084392637165639699852827884113246266785182923660366058888517656803215628299752127927423400776592142605851461100645477673938442351469278523805928544161852377914790933227580437790794816165848260999369566182804561748407087962481584810363956980881998951697529919239881388965320418880894464992570678736161812728474969431868813352603218716113460183881300415839816160267879852282575240435942013307672096149361223539743062399446860196068285156660326972482765241247314402554771000239916638707544482372520866256141967006913351862621250005992081886088656793539590217021649240526421958588444770717626431305067027404689006101829969762169301283906112852310460294127305316703564852439509276917154137908757170354754483208403786204096863982897675294761628499880872040401268593188732417996023409462719158261851616168648176299114794979049744385953166972229940726466717218032894595949360800941541877089929687163706607027852405239880540088708326630453116848660270861185886255706190554989220122650692172015393872928354732551956920548918746762300490569457806387375130315005949492320078806156803079405526636387637560936655496176714960617490115211751044693843666340225868027757389519042705562260289293094936621203866284937518004119163238616290067476492060760977740255217456203545588561954159140079206646001482844713612761562477145647648598135891905268419358943721115766270200367072400747761579086247751435655391421232079118164340209869428055434030142858275487889912376887558172793413041635308535249426178760128341065885988060328230817153843119948205864480702410292505495223772927075420760706303402717533665995902558902071904329348057910212975372371786152755920228607733024841451295317548455371683053659791093132074873118819304674118989030550044674196440454716404847432028154351369731816275378198313124777929488908516901390752541988884301000⟩

def stA2 : BF := ⟨174561088846624384133105638549681077118567085008173406635292851327042667089504723406957643160923247070637965736113881626646741495182038369690580278681882540653626530991836141, 517290060980537946597814057492528144665666546395111876537578695458790685920740296673678819363199433699741070035774650240046471381920518988237145193545426516155540787759170246482450564037948758671340327386304572498405049388527720074852329766860394748582081605064055932352906046311723306910444975219684433215926496805800123651876707395248755243240420505300334444269388550005775601901091923215576199819527243362736437448434989867815282750089439909766335777288651413049232268532101774781558902503794255026002331354734920964314638366775010035117030195317898360785392884422722258762853341083249150477623591293526428629654955653550901153191997296070753209666646170325274428595608542901283892549228358351828138227547655161057060356466443409991805747697924503873421824655665823683373709650677297941509117734928573371119179936239674799531040144470329114456034661185481459119515651463825627959467003909147506790722371465749838002201191213202481854934705355594227607938464923684465161481403466220287199817453082030096230788838166807557706968781232549007741988989975929405579876938716469621008612925450109754518095610852469985351705540900785996222457566398281471995716980340709357254008435522496289703164639263350639032304559849621791432281284581278085598129142355596505497866990636738340233076624447395965354379044108292884795733508590664216855600172763105202224758343163141586566778911042518141829875045558325142754560399009819871611442495620039011762656348821175947299588758976431856531618734858536783024536254814643759480163394644374734576020129617545098731691469205691716773006393876024954888759353720813823919139974026295606654632197838861024301520624947422505681313037460293351731309051246467401747145037347637309905124864803824392156191535651287285504806181989961704845395752422638205649479475929154900400823288781982752110642663163497625366350016221434132421561918678499730194496149279263371133293455692629624732095735181643064536836004398525758746223976136275318227753559671724041743700257602828480518457101376663848704446819890495540942122391704492607278297036785350922291324492200111433220350883017913048492699387211308952837033899188088580935463026232528770434517820441611176341774486714217431075110803044594421978134698674001566918886731097670629424590374022527522247538602226035905625639931401115212150939537998952989389975547822679817362809895602147148532616971139746132503632273622442153674748080809093488944428165055125637941463579398349599185842930509739322670, 606821361445761153681836032464439360230425159318375675186522267946845438677448187727469468341588084035721387203148126891634044752613646855311181017257207444342128674054769141344715071336274045274505100342296154967083042270993734923526066580022598845638857664483655240325992655982745186150925052927378216801528892800669263101132887937183675575108569510835357917388704616919095877495583539778332990567572934728071734617189057323155953307507314867044310492391086362657070831571943611551697230200511369294050677743065794289236389179640668951033471427125818340933592322666461614140963669568150281378864979161401972392464044223667539297590000796813840818667908752545691652970370945143063990672411442150967571101495092578075571842514651789337725389366584830840775525430002998212882730831740493120998380438120367134181965400863668806026592738379402165252098499316316245472817215194371138908576461717279073534408946872947193252286740744328025697356946045281790514788904015031938935553260688146608198159340959332696065662957254450325563888799810295998609831672655884286328009707816995248875326601861396077234985142296131672961110766999471132955484001732663841908942831961045951339152023192244055475000938130579014416826104659843446704685474401540608983512535264960547249411136243227946560541248720555472871328011949429112094615176230936258848543359351243020615765790745573358760813869739740714363741297238860371764686517041445775501126909496745824103918005609856402948939856604081056772810739560676983387085795106815061567067892951000689247655267775817387073066106063321097728650854485643569463385832854399113790973926335107635896284047010869332501193915179593314459711354727299106393050087227979383158072614066870458313535095926297621798855448844371468442166154479660351551382838911101354822897998337191608630713107376425270397854114393530266130551572585759215644674354391096304611567117929517160396056107119920451861366958465903647054301364768138698425755298789901598924059683647068854728516488334472655018471030484444186530842707801188780967967314652414453753386261259468176760234184926328689242427990422418610918742220538174633582877311630419032272436237353021096600081902084957795974834526003448918613718208339335899887302359825771227363683139369291986126524696731886382639566774297861966888507684779591947543464397138972543880896324082289298292136869860966902879911698066094324447240663229049249383524226113946556433969694448774343406367011297048459003678755610739766268, 418326028997682383136371819850259163300741327874727967826958035327478010308995558698632021036555159166274379335288150776399894371070573563715331876590852357381568517580105466430024740883886511143880120074527587779430295849653962414387618730050034106603021390736990117361837095142050019271907437846438776193202732443774336351674193118280475530797777925232215948914090202810904840901626257180656689439332441704223554611635484533705663706159291122308537526894544556105371965695155599883170420118677294066030198945774671699971853531798436491426707958926359078689102885740479393016656026197960372464762609273077849794634682942014137875617628064640117442246939625226646207110312068508451016056389380818519688755035797522484620356979492231399422065364646077163286929057129269213163650962856236417801031318720282538342792183681289736187666810301490204226531646247329525034144149583181182341459452288356514138989300454562966681274345651715958481937679370302858611795154447835219754328489005754500230117023023821906099070019008971589229191093140867632698932473307836315616894242175073670978149970732375739925831289809207960435382122500643462000716974877098961818566850566427242217758537867058528226644177046368591146008087940597045687594238250956103125915542452116807096849429598904805746452139113714540708354177156680765497045414245708073377067873059568350045253222872380046872845661775350075891986788144438012405194283623550466624861249398383398582066462022094443792134551243063390954785881717827053592204599658299936312435645949602172815929432332825324135278286763275698456001645755555770189764948857558284766569917545369417981772769259734336348373711631210521214491787018948463918653188914181229391738431288340414820452412516092346260927414097845629842842076208819556762605922762754954076421299880988472543788607494165799965743854276706265176279280798172766674517839480787845218214920993528669925928221792702604476982637249307020556222906735763910654882579777823946668964701884824704940566655297929009107114682449580658230910796420001290777607048704075889410807687553960493384171195574966080889255437443685619601062947810658912304937467309643848010012639822107031026186530600785767052384353264192520427622379193034449284224201003309310030973482525572119788940549393062330280566745931188474245489000941335101120329043745399648488572046277946979738429078467479279191585601962680256278784676116108043490855302641176080728202718705798798725708126288381438130585659480505746517, 568961159591076381206507140417364426074287078650990386041903404499560575644762965444667225463683108820811238155439384251208288739967680753990262980772673959320164978596193057333784663888573574969038421278563411661376416433707576087512998297888958315789048706993400788805414438589746797307576708380167374724777472811310775244777880146155148774125519617048943694627985122400309771631773817119673517614291671722639928438962336619206496432876680884560287975116636596802959826402610107939038468390433260037175343257161729618321430683491973814159329513872874948652458832534859689184643346033576752306200364848215832888074795977381200827118593804667784593664414636892585405489403909002145267931692695225359748397294077669748831167641491703169583900496521872385549081300134571244062540049766458961543773938516336040229418007901233964854585037695009368891054389290845976576864052554300658960381942522386561368075992474265570875917584496515571779940820266255347880128567617799333269688152712756850330947243809440161281103959001109080575833212503272012086111852287651111952815359843097509008400571986371572126160156567378156101235743757722772207418484720137592104212207718719754239022774850732189523724760747554962405847608354413962661724594272237806444826824569610533447192237147730240905132270586385233923607753036807639416552789750967778823483532101019998059842673529555782405817012203230765230095166523403319031168819625070519079215423052276880037540687328007582414450010718963173953066930354366745983692624169857776741585682875068912004020581200425385451969268094992031942222965417180070583288225446050719293787810206279133260849150015816081630111460870755093801777272460619094965107111027060844109312979958110236338760697365930584489888526462055959254801233078725024278702251359770982675940273341494816900854014983438464338561453054842830610471380458898637034818296253938488811965431992237394499297693012727903185658155130805075669904200133504660288876121621914784901940393504947857397920463277687797351985039025881770544158509077030087004233624036274705849103013166983946854671624664982233893820821410448162674733376247784974260789863438862065912857881828084152274938202304022031500964611228709935093766964363913382105728134611956874637422664482924501068486181561476285722749848975396015701619281129426523248757333942253934248389494765055891188078629782858634769902787653895037673295290894443964452671819155620692681552190437387861008008103959322006994453060992023930086⟩

def stA3 : BF := ⟨13740229787896891876060476404124495504093417038771305198749642833795535473444077055503516478878303518866485147292728027903165488094461425576211072792137557153355020554514626, 983360802316154928724132677389191738227534488752830986213492220151015838239408468326005652898890323807473487996572710687286610885839279306207206866416466364241538807089184942371214135361900024231967335802458556157048269732379967205678785880089469230947920453320152144817603910294638207556389121072361209722018131143059790276337868732527649811547746604190012835193719055432955344116760033808076247712811771433106101792682334489246332400674666847786089481894784130649414875600639308776173261343402280780667836202946746144720883342774876271073551635542853117201690470407064794978567694882179628397456569163248241549835889451785450193307877114287174940843977354553356276927357557333064278527463535729391546767495493672152643589197546912873571370649333155365362751511712470710691924285103291182347184174218537040436702778796456528864434610640285328729937147379243888768826150480052876227649446492133488370727297210172143270689713157165122620565347952362885183520857564184600364005339616127527376879847871688659279424271717681333438724907631676678837243406982830395092266696781958346226995744560515057784924840891653231546044716750521226528355272524711913434102935687223678005317628318361707091269621480909961915685557430499817665005479294641911099872259958962555721405082707007800381063177682437666027907630375870304442447960157571223812054842769370854252206986601836624462189565561861968892533740841073814718973488324720079910811387926018425606221246052456188802508651410267970315683389294096640374235936294834682470236821180915216355014014972645685380963652169849421924441870667730525836646281243018015345111352306076370729187611365347241373376361390016952298433008804177059584309192627702431998302671002322992738073669175449801068337523909850581746589539745207066397625719218481357391991426070738962342096513617226002174811367973172466321188872981087494440352132855655685693990569286343180598224496740725717391047174957688437838212204609952064706329994104098362887466413031533345832407841323408590862248958221041866750204016223743017215815280241209947874544247284606119425833860394770947954138094099317333330832495772573274727358977161043365335033674176148797178548300196104861517407285138512001416520523175190941246637334279559315424028892942801599183819784765723971133164090051431082088112702718763301509781625605992313598256156036629844861438768391680200813894276701084789399755479934847335057745179615950758317998553252135338286308092519702012464992476078098809960, 455344246348855065258152514312497289600098320265209079028930696324883041112392824778801101422990669541937186903250614945036582211097618320390487371387318074942343802479525300767711263256132369069807920508793365218156550292087893327378038772849296250623152447634813254854307933030080758915022411688809557966187270377295844241388196409882364528876781336823947184558009358126346569508233569877722925153511368082822347554863214452747028144122318010278689685210410283261535146798164867074780764021777977644330609536004334429981400633044869419004736763287034338837487455630862176803735990201131014545312856826687146808192563084261644604327365399752439518447494765902132811285603558512697849783550703326849767336959548538361999504976553430326461661834898618191290270009763400094191250325908928314102025832444228467745507719142541262712066626445696179751751405222908346127500340676853765542451259646748417169683630611776763426106710439013163251963797427438971045363354252700650510168977552476044900283818262273644267158417126346620930797115232313675371407895036121089578798692592484071911247774430284329274450997640818612279138588290011285434322155843430545556526848298022172714906894723796582012798143850443665396532155288023949454568043773000690182063278626022232613613293807169066233805973375869577973446812164423593636387832986754679513315541150866358463771175881528936769696212622910065740295415186961467275333003843275799643661180575215151303492477311036728198577293854534814277113511463912144289618414090001377851030078536783110209521886639915550875085815164938476687829690151794202213235461046551868019763668065930653016722183931061993421312095989728552962145363999155584869207226200647099057577684135117884744254085156531796617900224705988298970773873852597941742028871855223680137712354388685680321885776360709754261494806238208548297604990918586964969988735250511535107642553806581672912351026365746293403289561149961305226078213039232406459426804522580496534418144385139300680087077132385851466480003779293199890571941291629972282009786036841800251887421250890966660073686383837120178333574877291554044402378156439337815553444656009992020121474841221040525629851027091591619775541895385231047344697717014399126909207511095422545470471582350398500454572800946527584383923671668701900248196767756800194399366495812916086929841729853753545165499831153557522965902988216869335599771840021901756742241304172876001630970261140519959369075943209027894835925038169390970, 908085612046846274092811091185430058191323778986984732147054719441029667135528332648009613701614784275215682842508954220704357697462808293306442026412419742233964026025756596850788938366269931444191958256378830520314730853119191542991352432998561029090107550980371198768522732486984645048747890660697820868704288710585519460465029554242213320738810773400975390938608721619113062378169395805829347862369663873902013069299616924893471193388160504109918407804212472935212651476927270130982706347712088269721998223488395394631077926496486384792248724556870506869749729729334378626085065620453526564397418382330930786388117370064538152589851319171110110167980554472689731605667802551214670746527954682050754152559332780462966815818848172968312269508718785641319762199919892933887056512496314167219117810306023438949018438472319915524708728998340422928528240370116555597889659780310226376845619213256972250120414006395643768549457084718147734603919107933373142978904305374013324809151544461535977705148073114449414035274167379866462667800420296820098461323459346571115575811238646631925660994230053130490974073812800889646799378688134383210742644685245845126170501621061560186262520476006173928916963247256575691323571706562765237430363061891599582172736543758066733064036131823177245376007443544778267881087537599311956996450102424788241921109434336989242192457278993207366489089824303994254716915129534138519108794096827566846824020251350087482734311448519517308885519951148751209546133675219271453020340439086144424867122451172603615676136351139165101085722528145855002696549220247658258015913481837351395150593171086170123356906754319920866298916567122099585654600950109176036765375306507329051736252643999120041482405900670128368537914532828502219437164812660397191875480470354228081195160134279591946429924211575053337290066742647134383467142900856500969277752184382162622081675976397878210161008557991895865687889117737328412801520254087914597084285400227578703988488142412250673997161326484740332015828013097751056465436156579175474520244144022110617330727453031210588419926134342690469137075357929234264397197254603057103618102423978896338186869040106998680669097159542978699559107069122828910987198871973293849990404519298228434425867482884118549043155882269654615363153035380413443831209709512942457555313143306029575675026332957398223957654686764737720151157694933544544153547416423416309475729309006147147160324236674711508741514427120937542763667349713694025, 836743338272840533302135694376346148164417816799650778867622273853195318863644234054008614784015004076052523924120459947160814538220277884687104138337612883621318119773107023627611457870890273996767960742361553140775111839227123851465921713431374894900259693184257628917130884723226328734490798276303052702956136758985182590692948319030809770359874921967607598786907872877326315609326521875979710506787134821643910462538451113206960475816403571206779098954833036793894528163603868126303069581100740153683737787065018234458054163381398344734625283072620960950613007372886980321595865815439968587364277555948414975199408825533839618373778894055575805408713436002746153465952286976274373591756131041565654210467534674012860082534377771148456652951949556372952545449529252827941163160104277797850687255851024702414922292904920438068447076448943875669681288485355591211517283577183779067276318969126811186011040131098228024660372644911091374258168125532217540006663891877148456547121590793538542755839847998644221812865907833117264689479266662830390894260588404561888728443325626156982570251740462891781426247925039854497202522243690244658937300145964290445597062386928534647439310545178913711050713365155778722791479834248213249673766013554747791723620888807980445679562385056738681236646917440018026549551923736364869882597981403737430715307795190991948443063769817219607225625700945230195768437014014016805930081991321113208664539082299027076137825787588870281796429922440186744922270926531573876090681629727949724938149007161878941765102808789165469218643375609777540850284604169256370878336399094962878520265993781646823826620373552866057587130269323939522009176694164181601822611059426980350408669491733906007449003114265756688740471533425997334909265031587144191722827020054222337959107720525140088748662175786498583260148752751312234422684691780813042092407666634183962632346446015072495252638394713950841604139572078515912034538496802439375737054678766922456705520560949880289668225087239781104593443236623026887088693302306480297386600800712448023744611266214732977519947100630447054673657670389660934395074796103292417442153817065253576115774275096178957066729195478754405590809400219659294782023813694369876465198349926659775596224139887852431783825082955284125740096356611489813412602515823662949224862620940107345471089497607031707297553692178072943624363558326966335163267137696780806841484936329070707300423457952227991060193843651064928008189009427495701⟩

def stA4 : BF := ⟨49643733435530530384931029349655595715910540239009907819687602338814623105750162725331751445254405210340288613102761040653625224855690911416823637353296677804505367050829101, 358790816809154920096807022154215585856488295830423052804606125115636971958376010112385842565933185085479226903212543483450270821969674240417658221039062994287888210772313147451714084509046811423833702167665633903585925361236057697412886093348039762451727521003592188198132286004701773965986708047967642496454105820223241365935282397131094507760332331199249088955534266765119961850279166285636181077752949523955226321343542185256969223035766425805656375549291595463951326163670371310241855633065699169511550084470377976402067838605325275476121192730231664174253958093653907452903818202863678912001365437350704293023817851244774476485889809906295552885691078575174546827853061099458290685250724485065851626583493050336046914484494832647856889699878947111164404878986294846495865180711192932594904045805528819053700540646390142906090880238526875295738182710486820481443399796299506072070414594604385704673895535676325879086257544746173433642120094850929222485515076538747322226143832834434698034579900338437049444762809940729154783165081963995319988747803750229725329948066905067716444452258140615939519973481869126312331296809944623995162940806727157028079267024033021301082743527857189486575305282245920009539691322679378347669882234621175294097967686645863634865373657220687297112000888147618021681400641633573499198587381651779371319481137280806932544645753029259653783394793203121194153930115138531485351472950029160453038252682358977968114478390073581909099605160797440010598551026994439591838958359058623792129378103577969340014269370891356389449343808138227661241261294330198697785301618138224695994622891744240550484969635859735115363269369982639619509718762277639953861277056113826378442286428298548881998434224474250967283365184813850487875784251046715425881300821553359808492972392934116834434549860957505445000301864591795322224904014348574753154237349362588427298382197605840819025779256074681354779718714175329245206137824435161149495342848791899364808260415055800191448330451237657365978666446375392333907644308530207965611115028481600489279638921450269242729708373922798504634416587178953296317179132715626502474990426414516465676126821892367357849764336401315515815304474011981718923782522872492137859466291692318576742331007720276802243574395316001789531803089494993770370569657066901229713356718575190521952172597554439493498218551472574984916273698032272906709812819603124969602620190891435538594870755985123440929961103071495476207827426228866538, 992191924770886250772750910609037352923160238759030883702142490134602720675934869229596838469055725148923665708664931491711658179972003696547614254538500683705452442575061805644562511850525261087793185389313415686626883925066873442543848469964559684173983659102347319357286341693488457672864338212578800999557060771192062258670160528362422715104374298571023738465809356713640176624926729969522565134362038146410484892152132317358207561241512815372638306265878753699543668788323221901910529936376592640684820223788143204802547375468411120752306924979743029863066204946151845914552298615671853940400675550441648091592697775665253965150642812596262102601612800387179875455124366643644910198535646184086775243221947410048728792779250862456809011963400353357721323608457631054640578656135180004962547385080264161535946631182435521833096041821475290832575257699390996150377308251256261551474951830053385720927864943898908247087661916975192735355267383195921336826275954438115932170953451266788497564873874156783419063479916690494457664052603970306840661876187790201227594417463665345333362298540296350700949650441623369453838652824146827312124034562338770615967274463904567919747723203039662672863266603921629205112741702157899002591835702353124808784690516344741054752307088728345194779457218809970338369723469971953510624210484458496346110887320396979402146971695784823511274045861517432653702790174350171153480870686024265413203537383262614407765373518929766414691666759576362634914208032164418495978622949502593824480420291496813111793892713907430261857774239258592769563895495727247812406623246318281007976210635022333832601177156586000316718476861711211541207537846968937742930464704817862127016180655787058529294388554745201706822338096816270031716605626730629662351907571434135550144282445180519491637213868179257067790340287493536040164375159528341284041793104507357386283382412081166230756307982702641969472031548010217915978940593319148687964764927073904994631123750028823175427923105706384493041106970328646355355597242216975645097846890048179880990531944779010862925272621832078351048809663545882324958684484617652518148882684252997993674541284506342448320816293211918844917517064987901218766578383032676544158649077818202887568438965625160385700872230595859398118141790352564726524428092624272481258448093023699629452252979403750728170000441056169433858165490284126107521127532622022701324549665407091540367062146103189242334460064491814733299872287376498076, 411668146245516876032659662676612642547530105671856326586317748957455086276756163192830497941513577098831261036763216775760933471044749860846249709855247479034380530565834092584765981876061243008482558623254825289609650430563405373021848489226518396531196152974795070928668668211331417403384871865212735667300194211174283304977074556227916954476961555948986676212710260357120250020144866966217376688683469035403904710177738195031454444296035860935714270574872013311990309160111661137987781279733802487322983093374971525452994989171954060258543433090714781841416837835780370132342824225955053220675294558010011105354965459917297355430395319085401613291885377780515215766875735424751375469822602220455392519139408390981140686920106413249651313174979798702550637145587155528307124886422563815630629454285101440400279652584913175686075384575097712884813092818875077981462809890716513208379425076862940165649266098272005090215720925224582425978486320764168211752770036877136554182587654174318541482742799443134941462366362964248834314816910219567064363434275008764937148860071054685815984443958125542240212945026078186026259952323148674223458655295342169109870859453025463595010312806073464789173869363000689384700916287336440105147016929806027359874566159589333836597761179339129636433672820706267033674763384807388857959122756793058486351224349249852827394213116018503488539364529089424711777129382256754794343940495479379706926963105254069712169900472536559230775365453135689323068879195428431776122122355181068634638979797540546825841807551768120097807699794289346763986695416044090131772844494318730202798684707864097048887858938502034230802289768246445683979125724668679594954623626068684354221228089903630449640793187966360157154756717232435898686419666708131496859043978849932637078209343546975895705743761183178972317208829590146820749835357991995151829534345780891549153486934455062508660608179938168773578960684683349557192112440034938498089715674452225794796917811826004580178340902725574722852979398074475202766449281706362664570666996156094757929813760102541170401566667076036667714324035681942733846846379925385608307300306281440903507573382398249243201217428977358688151809185426911274203919666299668507563919246003232981682271345333594462080166811005326087976113037252783722491814245680772845686977050204283665653042438282748168278503205780408635169159555640305680314712580108695452126592380978151930407134347606413585317909110013589303067143893470787951, 118417492973528242968384649073338683684008402987095756252545195545354723196689713905076957315436751839260048135237591827357381435677617407497453789711215748486627620857628717117498896620624006185960268396988213917754810231347654130423470013887237061286806259770176059951924918170069236765299549419976682611886746246618792520361255603288382228119769087346959547047409818211438739425562192591431044577223709346724769549763961656568782571041566777640982886802614875278640302639512126780636878345021836071934370749123822233040895063040612875861517363938786791524206940948712250783042629053821763143072747627796647883392078850146033259723922377276302247601577252660824243656903930583235707616520103041346278947754364002615669971417816899218824664468287547118293959407659057772683814827437088572146424091227363923341063948075300616518181208448853375073220224741743842348597975691804785680741902644035454770254832230428816602684521485736519964211643498360308913765532970095667525965442400943257436430962002979950795589640892989546671992351225161909178353747972859779515776325660385378531586082629669529885002390333973708929824769281568253556186562890458837394312659863082527840399605339358390209461304835883319071428787156413485053091644644207869027527520266677821294607336940568123808386369993155370703681578924846541284296149014556528295410595090783338265686554398095612026194839743499661438824504184434122024652801701113208848008804738236439328599726801537405009345145064926008632274277463662617472547553113253867625225306623443255974005451202466557069262310586414257888295334810226279244541897695508176977192711889473587241182942707242465413961983202914251665810634077485015422165571793932044732455017804676029595345509853801220618754182359695925273899409367361772413566862662636733047895073737915212528382996150432777010454857008776024824203160716282342635827812745114842401373368274302504574256854991524401711201094964207536783917044512262228858888591062250435306168602776409495344801733166308295999709638894830621399016330553247307469262886181145602642476476968934373612340352519469197946979874882045035111900176129250500526460944843333804626027264707333769918168714828163912325574548940265436001569862470097625882088118340794612633975892072336811731025101143325606329079635342416417207195934001347726202295122516571217068557342927376748751835499837504055915139356392095935605826231764829017525179287482947128635123222508516991478341213546003072294168097629221875518⟩

def stA5 : BF := ⟨242682000019312525063660735997670633078432903052692008332881645561178509522246810880814449604403380636540184720885347752775847656496462941375642480007061625169300514377466943, 708004967101747478299406710344798283746341905165147936899902890718961769379265511861470168356629127569640934443340782957440311716099307355144397275878084018686388188792140414318818657200210940638516927636539171220228084786289556144419938825507408186893971729337592650693917554414159135034141649077230650696084367211901084134574799976303888060647670135227160672692341241969503042510139187301445460680766940937445960906107644947939020051792591976291956979801952877012219307408099429519784672917211634711749532740239241045083754367114173484311412213984476259965485371643713766937811245296741987139449563284569719727728424980109190184360186538398797850919762087001154284383980649732617485933987739789456809862229459979123368499087020088791883668060439126634557018309054466143870281886414591526189249570260849759960952240613190076515492543631364766948868307550258697727963917548673104306920778473451783093665490919875599866098334238495230208715888845067628659647721173670792565421122719038552687455256378239079549984024856053642895821191829957465042220249565079978342727989512798135521907627386356012721746936632347877351815254483604494197778436420723187056282296702761481833696470723062096101117461108231382088144265791455869686520222592999677802054580477826075202933066429375651615839635359781082346884425739333453168740492371739742161389449508904985634292103786559567853944827128047485380193310145831724093572628064783235493546970940062081653979255218792559027843374907657685247826495452525369469254898782153545300646132346766088875634321239429594582197105668701527046539984882046741381029982210097538400190981502642448861027052980157784070169952682221659866201865275481398262563523487370054811354850150783408818905221941400910591305598418115332442402562564624982893546415739184215035908010639035392360864245860661251391927245523293729032380715860139510472619606111941327917363080018723705780291948403869874407982425663345185649198394579915354199846680635111498109307226097066014755230114258565977988725231912579128188848214337425505159650727489133093411809194060399276578585477307624107191186333647804818818685214729298346920861471674476953606954261220018633929570621710876752933173696626723558897176067144377062761694072368697437913301342632145567690503747888206303466351207607285906626185774759965443081153317806834676386857010771255236016610916827623047045555060075859150643551873378695035893529650353660152875255580347533044657581310254689495282821609668817869143, 955317067399857610162180218929044648462788010540077279027062407259632307927165108434496259546311959496624758299142588808074386413476546946798324752209421158171999494061303768182602219744266891481256499832173527355416355717400107952737455002112646837718652167636476097136897674277303540556802400865173316559651729870094170752861395712103909804138929944062541543155705094275306625318083968846190099944371286229938903690051219535109278187564174869845423121129674942260228742504815200099005272075352167910491617598121199463023314810576384465140729753966546480128293814198805318848702350093795195512276435440056124664961711832791731096264290371199212418876564007350806005619547228011952759178752770009702577637351567431471944909448625555608679361654210015198854030647124005774764987289381794996663901240722298991346238843178044593215741156648568520038246767330179095486524025461938347561861063048990006972014652813699029551722759218987003353688585609181023519582487796885610779070674714098989655296133190880297321126180935656365179927924987622617072875973157348031249467500062578544914282140927950230630991049086937491387943890654652114562606972184394596401616645462860794404433320991559200992079570693518107206122977829995507189270389754497827247750243963219752963736188536181291256951794948847253627828555640119146625377816965701877414935851589642270879973909358831852254721730525220752887631777109493603259212140058365310682760353206596193209910169641976298022720715918403750606234844560095101439413242674058657831358415476761819633567226318866784207797521818119934232698074766315754508633186685387220175236271611593285953330792469199002181681272280621526065706286077846438637226882724669938805805254951838094732993946083796389422086141447313238655310265865718317373689381176879826877509245418878793961976951395905429920983735224270867798424293412395546368855953800435918140311489952297332301452244545788361411694865903292957928623470994824350502561643121150892078743489570180207647623920614973519570737458544620068902632551396223256526905633201753618117534837849227041146425773101632782115486216929926410890288551239695434861520963206334026474488066982419960327485999428213808293662219571164201214522612055996585645842574516104336486815584925611290335315216367958080908758766489138397289476631917045728816396734439720858948304393126796621396210535441871555295824914932197493541661201445521815662966791658905160801953902741680703745201111827133942675548835485805094513, 202368257251742053463772560679185775558481358290348827056868212677825119804368225584077099049316712390749464795004808857504963770646937046177338175201278351812621107833995287429799381980474897643748413043766056120454418725307650005172275695501104239639035400807121211038752578105576459291174214416872898673082042039436136506245791162054578451038784060764597549724977715952375407267324534188242768132569812665777317435494523253785367409984475931937184340115973660139378081294247726506808844645594324626812193571013786912406499910270551214166114313543868594710575202112484327335952559808378866818920506587170491499647177569313957629756700572589177215100354748044341548934555159236028188047014260137545409383002158234617533955855339142038657471250890403819138033381838395620038531602126625953773578411123998641030190563375950150319589172774800225756101960245461155074414792656400959889682968065082158432551748868203702318911782685226586892094732558830875356865598363696517985534423792112921320047284063861487208349354107799458081230517298583503085716932787470185839611400148320039530470407381111006040548039715942212708870292641233949753145802036848327212781699184240888396135970351358627625447318336459758726521457161438815438939908091100667064199448206459208264339952556055087749513176000372752411490241425056867290304105058481488869714597727864530702692949588878544558273328428453955139616513896584442539101368554381757638713540548195207156934300118128720883311503709168174053244256516830766069157850157997800105147982246565376358662746149397574568468611842308887708558234312389506833851015474085606591328564141262195476458155307903842758016421669095943688034373062837797541578438835443239480299766359785590003016978734840104976263287632398156734142886813532257447304252791364326530080506842065843965804431687774990664566485083107456819254491634173413186601297869585886031372352724851720136878287447296650202530294812525677775915374937294029215088867650996341130786285172940360222700245975881457145137745336171158797647194395275862446548708556978628393581204956775405954567093355589652261664831377024650128590970816930061177869390076523510277926790722477556782656295035830633168507540129001326223323462059681536678244405513801699896082311583620137641231037188424852018166419122770414982576122421511751612027409395961217333550564678987156954938497230983960000427857943837656264773876319224217487810882764979195303551595941983627960782971456880653538894859671059328799, 65800278631219163896237085558758947139718693972821384975617567713437182695706869356855586715444324895023361168552771212626047945331723771890785921272595138879733474739933959582207178039688252637633013736319260414594792454528743792022588007686419520570247929488879554018209761606699395129184822655222279778679901886685960060851463497334364898346770311897780288155226826298456837824162608185797568405960718902846274462624046795885796671084878099430165586982834859804067774399892404430318372817464055874858088091667086855230724123034278073655678011107656635807820122010653018131303015312707556678014041287943046958920970724838730755212345609477123938619032157111236556253946282824114495387917473326697000845063175248899872170552423273410978711264135711776353599806836121992932589455440691208929412266899609637302436422256441375799618526494559302941214180493640475444160677511516146575941078917222040123772014057924267943770549094242570162986559701938094843958834140974004914128591374101281357150747787645575206482685418319023120665514868501883041888127227277053938771055520466508506105241910338632223528224659494087738245173224343122249837504837482676772762336027395989833395005256836312354351289191787399077149078488127193928214057554818867517975081762157128966003589828189867407088406257470027864875825808113639833612833649633700291272664448923326013432377897386267518989085113170887501475268068683720986803493654583245073747103380923184262414894853756273748100843435947212569306091509532144497564108296967766474957024528659148662239036100510088376646342662477565728585376151570141746834241134616407291275557362997541808659965528668949202426687078284569972434626558838896119785602089446844036406226384611262083978578011782107354345624816920099348956085440109086404746331644076505180684088179546262896820435879026758384431709144299492018141101100303394313172103685597827688500890642099323707072804982983907115325381017910473892339430927676055876415515747412833505463285821010248834071678153802831599196657342842802501280583868663096917273722985426686587890736264643080366721125790874945551095079710363240412965181061396793273309197466407202554393870098492704368872454398525096915181172946475902134302272616133431139480126957317989583688557669657985911661130513309263114763386197960019883899451595823226780464463978045925154506264763220347353872464577993076807138293055985358161428317248448187910086485846131284082530518662478765109230170674766792096095519601477041780⟩

def stA6 : BF := ⟨216572893418363508756157832737175927139348245078447872241449463749856048439776183795181221908858318916230789001473433904620698386359828897501489050538665544956734316361708450, 29937243605240252256953001376513349691017087467224753960980513524866699048322563101555956005182712008035447872000667007957205064694856447245265349102093514117179616367172995771736339847044846483676942609294295590113353385581748034622547054797028225066116991066122330787516422372830306500382004786330589421186489374976293248173155229877777228897123342282038466812678569450808008649009889432516362920816019853411996928001257288686239792925072441042887906869338437065430648956464183374361752521010592423053168547449666793034470586461573079974750926800395101533309344108468718876319037693933065330425454550341405381406905803364882893886366823325206036584215778699731740461963269478915526640143372862008579714980476739742333632964658587260220443847251109105141434035727371423070376595993778049550539035948102051183257485941581888547202967655520000926433550808638758772077314712516358600484238583749986566707906520895752224868622814833798400313371855256333884991007852525350706046325135159087045979061416900666382864999743681640426453639843405963018382902099750548835373014833949101909973392555254686498889408150052490765022770262433704536789033517919321677195099347557491199196836275705107240238314849014839457018491761013364635999589900838930669139327550621871234313801818469125958850638409162547656119308307181160896703451991758889037763640208212813503722520376656160360783731648959569317333518132643164785597266255587741474903454294301532262740136269430410401212930715548631855441617699273770728971185987596189210915514338459149585004902756402014174997289494537608837304809850150388188817821102542848423012336844847166780212446169696127927488434005027830797205994948563908276190039598949083624129483044944485331901911413493700035097037592762308559644897131338561919249082773839489442585531208044320351972227515817179992812875788505799608994017180690052173080945502487653036201001082052545702269543307781151255020293376085829913524586155317853990493423324787368521869077679761837981168232966058839038879089321412483005681918937242226197937344168370705703188841954626818119822856469700478454911425809947409688782644802982006035016080211572249264092913104693829716052807969650044077956418819252454125849573556042991567360565353840250916203969999687734330063179782330452191849621202268945630136435900805188724083063467271667540728194634566141194746617740887706399644912924004198059101895625780924045723881383350513251041528026129316207163986061630887852238440572325067243, 365778481419794453015874627139832297488394489855036422221092562478608910871655808060466483212961477707860815801636341805800574664686305654428821852996948611711721466628804283767532065608555302367549861539295482263380180668960354733582080494416347580639589917565576433992918068808853356235675016582096965811670955412845407082382117166848060201984268251680391566316319976078330619930787699209100104475252096018311607467071515072528181324730290334237732454041028547554227165661421821759748519365942349798276530885216508564954630483587238051019799558043999218761555460815910983115491399931907412333461785809323324639858325528859618272709645894382385455257172616371012298711481385272997151014222025875038535033514852450289514806844205695937979021763510536090430610926500064505769324134821219342932262982255091920596073500048244222930628156817237662105473771159043751214958952383809084064872110490721054098270464157760997358462862614916636608468387226534576669743935439543483632188320603355493647890835849289996218689390909513758256426686019228059034884251750451492521629849071148567516786215146790533420920434723390249391376498055098620386471183682196491450058186644897665554539709211681296815603967431974249373297033430532840218165059453153652633861301341307644057557311648441325944471256072176641252498614761286569691052500660849016953255154945370413971058527799581545860962950360812234140447502645512772006022748355470785840074328557333145904995091461921508646382143621496880415603377991817425090266220761931518864889342607800179901934740060447584460080578012694201439703726556017445857929003395906811678755998633346062672954497950974590376582859541044222194120974939486300606115966996500186819098097207736750343006905688669622270246765553424680792263101992915432451261518211367934569638208986643874570254314866384140925272634529210995077423186237878154611074370298424529858593961483880460838675057231083518141621951952280905799270003481115269879060309846081820917519547184300538867662086842890214705228742368945699989249933876358279632911232051409549999697148414802073113319799911797398195519913228580125492911687838045756867236000115447567687235071997710196553274130327984300316341481171236662996990243215717491036809439116089212373531509966049941047692067897782168041349707054860799668148955074379924142547964933687798830781059072417291439987520004732990779642066444333768117320218718648705862962272918915310684214145584495468826523581431947795552507488679546427213, 419836178054926714610553006761834538665924974426733036214699565244064778630291811473431367339568455518309374974492699397987355328925239083557713975219834636238006205511930132110195711158666963301858857871203295535746724415962369365784484234940991445738134618261423686241720919941744866943922625760559915053062743321058667792493134422972247587921793354693418998968775978346028356038780059549953826662376785833378650840200950635567956386883648565059154399156680289332290359786183528249556240422271282776447225213354988243244434226153646151163332545772269821757672376336338793569580117912833575322542193611579915755811275443109662164503888715762617795840588816738707388797173235447940832826780206197653680564816235357043662036632708066531891108824726265337433724991453228980992395884152897456284901205683343391378916482592478080792393879493617137310347073579947849499973571364601876356275458085873005449691645837135570345263258181116647371938595087419242718511046993642921495192810676994828875078471900619221314352258677444684383125039005311041877074543848894110312030513861514617221999517194323969451861884266362944460647827403879370052044012620960864072627057139478088006912664106650244029848025222281102818861906276186188571168257130872409897020996972467323924611802207159161853529037297317835026296579257779360956672646603135921171012676144012288127502871346931035566657643100065001659440873217752768457538081093505588856609010241208936047130056208926248989634829085051986163846568656886780069299963994003850754554894311115088825638048846876582796072470882709031762989636333480585142138853134181691508678079691933636547541069527334778760789732668853963247488815050230218455765215448833288885572531159567231965498028017287506862248248786624193446865863400096572498726608633689120471062475228927978084525436723377391672543510212602832592658370223275772116928006826760097022354542961985341464125812381711086156901342042751137639916454624193783664305831876916612590656100378369631282133396324294427980242770725443799633665759524497774208094517910619099465783483084669339192787266571077829944357293844707053253205144504035627150754343697101085349565464645755679916136630627467000565949291151367134235381312014628994325149243937154472064801008092556400244307942650736947812384223674368211595882806848212664094159140180822643477025785507508996880872312151063509335682310343144251581939274414574157983631007241279137578181069883353381752860459548008189305006980009646620363, 523335882160820823409940082382422539084920294105303155754316125876186955825114809439232056941661234410191797547618736150592340562114774929386390463272158465834236456373147649877484883410915669355802405193278182029397585111373307437401476685488997082797430240780991068934879234836558965863293785713131917868012641526671674332668888875843060476335943491110574044871754130456271783570198551038831960174977082849193952214852664065638712992861095568836718549689208081532713316527706723307543048061531772265763118963004203805711400344990217110528286885977474699615622824546604271054110152986436451080145070644948596969193388081229806586967800520791312830776121192145286430974194648132584139329001769484618563032968924649196745124848426136800263218686321371646964076400145719906144169765650866189183719671134880876023657158891465792268512618227961465200144545073901360652558608862290262206008478267867190166861021765988459689051444281751047522593315232646593572815937702200723780436699657374598782645035204669409781452189343617390971903885397670706111496482468881014988664784820844052001747689068531704672143360452959511062047022132359143751580896733793826993283937341841923763449816763528659516714424314344835093466058167004445816952512779715291833468314068313495218487595677310169878552208764012865871028078023433336690789006400578441560702775563992754394927230002890792970065717610020531167507474867717133167919600731596488306189962177228243664820985441364590897960478482851850743953528607263955252795743846253753137808372592114671054229898464632482840045150068808183165357529500780684331904035737020801544393186334096056392762082571164547698141200808363379520473532048668924599970146585757702766097068176541461166503433588358764531979456924852845452727914654487677851333063198276464643668286290994643139900805005616722885297289281427383444757129264536269359135462166220166001229894855904130720687064105898125705591122272964466671064542143615923339007996400156847752847069753403271182418708551929215014077774381973761301954698042949712983987755147505126050456097766844256336123258725353150137587458366547408881211082972406731379728631485180641646879144474014885781821468856985607711074388033355288162294088645687313109925712708531933385778607675134778214438150063901631309937528496684655169313198861438373367063477004078720781608455084606621652269810907801328263471079560717715538192824468383012678683936411990913038580743296078019517775565728100824709111116502084729645⟩

def stA7 : BF := ⟨23203412060235695298328202278118931680357329397779525751414410819323581428836878451341899251273917980174534343281169244772492133133814641537067689906422013358238160485188982, 728396702220463168028196445561235328136972987644055220715103298717115610710866014062848471261596163596098666415693017649790441070736209342414149131096357491413598229950418935005968429927628718483068315205298584064153072595961055636380578477825614548975386455590890819555788215919091388310029727305013102609227723061470617817727011622713905037573016432404076970125260609406443058014898030565308936047029020183090387299944622997416668402187864037478152993245406142101512994401786931344605385117208012759065675864747173024027961686487096918481730448310346563121473859437762110998765702471295317883861858717362907668185332502786627165416725010739641546838011671522422556119850823521959982732931340215181842637992324553094864632244478031125525696102835531631366107365593815501496272838625258517741814393361332401441216814422673094718006782099851489337530126124026563928196148076577897803254160577452621660356062038927874922161340221898476933972270767390969751496477226101067402393303138050442986741364131523368725208722290437649126522430248474664650541617101071998343745649550359891262067557765395604585167391421204167973068777230324458714492983036232699740469374216268990885669323959771636203205564268972509026841680165516484653216507050379213365207855185594150077294064214935961195901130239609161744357260348969427986817011437175653017189976330825006834080356497094984908031489254179644347868660761041217585380466561858776831797100323990660015329903071502506452544091722586344175728185629633527446026103205943050623160032813366621054011543036301632387786896514159323309073926374839382847989124480122832346983075028827091781146183776734888847454125208242986349470346586314458208464930844126196304860044934206331364512411256314091280954307807854672319905827220323418362927040916749529172241127110605995637649972273433465222003623216998695038507168219155262877143736932646794271968492765707091115307787399716873956068963492091950020668313474612766560627462955065184517750057221693682841460584109312300701964208987513160989116604212735129129911535908435260000170601146236411250943539071876057673577019281369350374011245480302335169276608511404750196580350731446036705809122282045541041069680638405263008343535861150723655761021497339551081640365878235343010629038077314903449782979382775146257050721673638866607782106949625847881701464303941887476714527849143589710278255521841410304084665161195445191946863446413009664521849255195967681769887309238345894262280641445417904, 241417427883412611592362805557079237133385419242724405279411936425248146660879338278576778842741730073278945857215542260370290116734845072142449767177533797667313253506335793561291387850833954822854929467711122561056563353546370734741310371603720706558271021050525161666985981448128884942108977850217217995579399222253728022908062098929676417214266182063999553473595901546791932276590586315942812927966328687801660126591036523805942304603421953808885116506208372187392157718126449307007840253704621184400104347089201526546400894845372913047390896269570704574328682571707560550422038363194424302931635328830450031197949352052375619384211016438465029089863840044683575050222634355785035499513768678804819320055233234425353931910002595583476948527573567067295472447542191901726488105212362813359928825324939074305037275367045028637070317918796252025374798652898442495975089444243984295850264826523287172041218479643231994007425322899621660871884675281593977412805088961643181796682322556478760834363485240196446593866706253625949388645080739577606915038026688101539751040078588678635062487070053035197090722212039162773548360613471784587771688465207469797458868437943325253627249003367635752317770822959566370912914485205213673998540696924619347699380466063066173579491038149944631336013074887297531121437275997255614642401857472837109408367668263729438973048880826772593684160112178749586948662098849665186629468584814034018704543891530983204639098629998898811542036820800393048336293745610278387731904895900937235596365384751442990753434920735793560782487196131165053820606002587216428440848794506124018931685886882042950030499236130970032995032537478836588038169214992331261497525473622796778384070659636262898832721867603763900053345394338629000031863147094875995745923123859808864167522821282793277410378996993520871788187409954871216991561203806752906449733295924053885456307993869592187348614173592086117487303559891885820358193104608422995552154321113219277366127375442184817795292524977169995543662882103328626805721490793257402874670070712933164950435465369185001394677871506904199656866421082322403871898278069803768585826429160388699965533409808551868655418692346880928559237049629660965340447734384559646071942856277523533305688803954470644250247556966988577590342555115750227393588730687024159478172905334334103524375227716710106198885788780128487691947977208676670615762363460526130236625083785255324375735234187059193589946419572877420888849637535718810, 1038987506802867457797274155776298040238662598100060036540567460321315049932861290339637527655148080071160519143731248644915928549423398464394213034534157624693871279762230849831314833892530290413070619411093850836889424451008892787724712684549482235437223433497506712451892076971174382727076250756695510262052531462119333964063383052796286960224887074424085093739919975192583439861102358529476504094234824843609499363293394793330436160790615171267114980414659782968134825751957635864619996132619262978545984276472110734370431288586485915244854340315227103550179393513211450171850598187807030577349176158242495316379617780878210797689478176183167046057410133237434687497170318330388601023137920582615822698026303999587708261122820643911035840841811612920635168220509126359692899541960578100256433443323009156208823807980989857652414534334577493739455885284066129696018590145218358797476286199202373572635430738092181964829690240504628591935128977307442179465227907762448976414979182441776204728690566915438399438126347222430977424464785861785017411322371848408713551299723786311130860494716282153625441413186777299786825351758560588518010919216555907752932147949975698460606516361720013785650754744086078148201172209209732589222187450892415296520710149111408286664260901728367294700335253991296705164376238808146872456278724540328600920675432927293752758296821404010336761768776917347832626032851257065305946136232737260726592007805202463805466419078746795337548700437024569110678231027289266458122710673076085371527615522891019632095945793113971356643071673888994687628842309839316751994887773516624166029763551738065116614364377896301642636767075056200391143237781005863010231115825027355339396032577229525944650466067780166477510348413040618743812278671455782936504354768759784904408204507220511050032778142276466885639162717900156421900679404665461903245037638760324200984959438873201328584437255146223390119756050074722301271484847368882874077746598974721467144863639401102911085738779135128062232606023715221175216962572550898666032477363061314551378536506563385764996285021589764612685467768301087497786267916434134726315066431513486966044836190719173883290132098884936358620538864820593254808387144746291114428258567980192535746912327769238203910475074187202794678549426615186578134471795915844676052398990280414643717011535028940342044757365960233697190865349336760477946202454000413279917286738955568926063454590909891772914551645961231307123841536137503341, 257714431041097229929305460363568576824904597799716217388153314832742321947468473928598634233611652734612985372748551712397327945009805080814921167325486792572610077363867821325710027538431043517814652396227342249148246696042613121599965352196860535545813293430800641066852790019853126032067511660817325262367314491202444058053852544328808868427349678172537572637483625142470211584444887198263195189271013000537323316308404524647120827600310648591841700089255548744719426969912392715463437639610619091178580364322233618204311976411426045886805204824283743539631791270213751095064748653068842805347146641068923008911904558630228710388366373949660401364875160563523136954435986124835606668766449487737107959862222005842939010884992176076865839435146395334173721537168560772394013756377505137078259594606338670623873524297584215541999133294825953064482064414331598859391696610796981461646842270326675768362649080282543007548645167146307827935115688537871453006600674346681720055267260257771322235767106064264258002838283904086931613860343301023838418778342233548189469969365621353452414891056989641930841816258372860195114541107862452951579460098092464607744244468399508773732385618557540410764912296358724150725015978340069228015865056764224749185689027310960200368544206825683619189132083156801657690225034404880827055559156388359339228013634882913183040823908269006553216652678369746113622330752310111990261891022116862879812678057930320495874414705413881376283187232047014062353061988234049008923128808587012805185137689487108653206417331747137408197701875146604566487145942062792011270809420325873794719035358813980275524154776394255403525973007922899722022650474840530371965441593214773075329499163025910007062339142927229527501640152960698475635730415556066870402332490471586886940890692419437877500964712748862375725104408725734479815670371124790983169210352887676788554907225841918491051830611330713286230728801942519598011503579132332489637258824242340553917687214815758584299567575367872325020244899585631979344463599945590472753595613717486392613871001078424731616689076202906048758116161345960110678371727747188152043869128715255461516884699682810272949337399434263852171346211561418841033764298160354726187458889402308585862695322882196534632026826639738991815936008604527102237860026976759718176070467688475923100269249472576034399303349974916700818250535253093168381023766909411033676247586250755168729069851621798063454636205863806453383350900319998855⟩

def stA8 : BF := ⟨144473231356923563257390353047473965206751233752288466506078794757220448142328604143265893952891919681795810666827465811267377150611123776103236521851004714359554308507774462, 491928283166173132445031285217445676669114013854887604370167262631683295467726913691379356645612435551258719541797817012306111914263064624354099637330069077038727465138377780316119819349126519867159898189133997948243813630688080418720593486455586624025499742430997721287947783427738517972115347748251606984579450659653453176309835274955989932418025190715555189768370367971502963508389547696822704917659194360984517863878175156886082082332129131053216821214716468799330893691262546603475108607019755733657547183715890927110461199111103357429249228133400531566682681570486659906285648915210320343128492243530677072186032044413892610176521081366710560307431178746130502605901594025075879860453263109197060180993629610021389639865679599442736800924148999144686284557669705921186820336830796768080267671367288774499626202875952323471541829801805983695518077526414284705832468535663125693597125166707400392405000501329941721725904394640201158624681673279046521263212626391271723293792385102890249819961684012815589494693226413328486029947911298567371390446607147155900695777251282518313837522853509515253493059344456868786419669098664115750833500175346669779889666807229517198546028182998072561462187522244866180961926802293619518495918040048352483349134167155027971060535978617580256153754646190097902952707844253265570124436921453111817206986698633195351016336792986291259278149293037350912509894517009498597012196964590301391546681753168735945976101428075828334396509334806118869546543527069520662580707807903480599800433347794052864121742812121063177050761900527934636364462901150814249493708940744320924281509417664431787929837016228428741269744426876373367183654310477049069915864515313509513285826753632732565193999771555747247921842697234483392622719465377015178109883418016422489924114005755998444483070823100955376842322345210692381183323625992422197806564981910378202742503814260915963991166759633998740236645167985617690044987319890972370022372564192752359004507239742278994089003284726331360573577128593238284831310954865924303027024505033668154609769867676194405743126350221854736058289524493964388898646325191087781951728714956190915598886843964391801447122988479721143277188235983404440944562185951488223207191108271984816732970617044750275584099942237557490920570005672875783253412716928665459274278376916279079187248560039457137461008709589577882605621268538354818632841418506751664853920415802709871720151962004187223754685766673497296388863980243786526, 251437607308363012421522937265199410468031181931864538760922233095071378177825000267925591589590333811497693636307305819656969164396793951703715573900798635003046968462374929781213485343855353418357293290536645874619240736720533429123297952051425411126074382172459932831802496951754227300534393621246506787019176888692514103466204156915965969930301090582238058388419831535308428076431601685235975217484763353047996344037330742737411945016130625177959394211830954054970526905880960573546824516475509197634433611725789916017920769984466322306331362860558728862241489465449930997129784586044898341993946385081599307949372026961593198327824686869267132983163329618038246286468829193682027360254055606097741134911452635499655894936542004015492839239755759290248866017442211262039533175047543687841631961270181198507129208507910639153400428975712969883434056627435475032000228856449640934723991791238622278112762797188132751685184806694303025215463074780709890913284346746906826841572042970358390644800487594097983268120862274682853017486066281262911956257140768667007444728271786922643066752101897602452137069277172336292059991234364764857584921032328805637444575260476987598995013170951845652242601091280317618471190287783412730898729090501071315231726463140492266462916590519530263901290145359867559693220464465384851200526178212593598375774752053743328156867152628464887224314101500014608630313575627046554832547726264096337022771722848039182363079897520324399464066734275082198703306693093708038785119578586581214251449419720092665078071643917788681717463843260597060791622076369952315529746236108626949917719096040337937741479715119845906255889265556201190950291733077501245212059490459351757282614743007268942713049339799384083053659965107203778189020515765393869710378799470928790415900496029182737964750473695033874276134849075890804529849207884551202526249805309140957719186799188497010254024245369028389824318799161555702054251899505397193789902588490686128720348503170589015567877272143366922472941944508349890362045045238149205267286696926588126621166648600145572885852344882754197200412692308359368389848300873012896923336099000757385355534639714656878036924398039668665644543577576729958064688557443116834270777267529490374884067650232562272296191841466067526315948370245084786343641160852166051953721465390335985365908993391228411623198980152184556490837509947028263985211578975534719495014377762738129296016939301610150043019126723988483778867743029188045, 667969424669443787476114656307115385566899068826905791445484238116595511217627996920490057732899379897129774221116942430850359723282782728523966257599917731834752916673519049094541413901202340348964261712342526792340370634008682134855527093566455860751243529614268915273392472111471349279993470087438093035380148098248552010546052079060224409111321211513822822755932847890888875889497647948111139290859749961919204872031584006262176179194158512932407811353584052327166614631204775207994274240903287722785501271297792646552518525840585240382902976416521569962720652665955245398372279608907678686430137137149785814482808100398151625377515177172106805121545601024675802765599778028375264887876131359603585015438379270479464235928067360179662737025368908421005931698294530264798590377347749524738980655025913477302849034346947621387475135320343990157797343742000196963857108507104016245237546749348170153405487288727807393189286978407055588098213389842980599310817685682123098718173868343216917348196335160276177633321927521691765199223556566651966493796693243477216316678270068971232054443780187378467331397802097201231846688417297264391474608419973995644542280872605921163691362254839781235359397098215351418378322259407080101836447402115463670676730740164872163997367212321905464800422632685881676823006614545550476733278223013430451998475426675619492975323017563628094084102523914731045696675906227530070563208783859730120766768029919430824198088354055964371470039301003088145455324847640770532427340427229205849708829554833049901505815774136458762004649783196146467664456383260124234177333304078520537440007334722763933952549853080165626109524496731352208696236851499606387438337522874471457520294359879390781457926890340523477483387327956052164765177251094416813844145228424465484635570853533306685183953110652735187197862640800980962560980086128137420652958146232097257066201889869333093439579179857113567344625148677988048571662929216063318424029045593871559751806240095062063475779042165127180712005688944111073948522634888883408949930147463892861245660201041800258157471212440221074953188680258211474406367011038466890058545320001671888809234117321378911371589670760755917551131639083365954216324066326350881789852257888347401227453959794038459064884113679723306562228097254016942536782750084714086229502650263955853751683737151984094951426134363592923422321954882620550500523663421036937393036343994343629055555885903799629558312211017309425780899185200831272, 875030298505077308416150059084810173293561813344598743575990085818601114867613475360573126907720632509141856462169428840408224232502513357951803984180046990147018580589687043801385907109521265022190456368891382683082482958278252073366376020263077226787772930541359246428377786655320493263542254652719715724344471475474212991144088751856060679070610118874342897041715279709736981407185591599689742831461911565873007403080062013131759861486919412736048096723210774283573995314278085988324052961392549849412848909820921615225276787757044107146069774318095903624282175481469902498904560518697677632736804740384047794665633122590000134341872527213232466321622180732616723460028958243188021474583656594514965293267498704330331154678693007922458126086374671397725951300396020449086008624609316648037245074078880029370614072071771911027267220047278118287717145568800503379272893536218254614509304610768441591244743816215129792742182557437435681194377108314832259807977820887744213146524740882472182654917764550793162262856915751617034108598871293478291195310386834406212022722052128858713708767236188442761114943160186594502823962784199200090464555311283521767217594667157521238461952164922282567026564681343445844036299284754245265684503887668083307679593604339255965586116152037778599081355663407070643276559723558960114101764821953596548518718955078071349019124037187112614984401735887258826280396187114894483735198909782315799678435231262493695489951497690165174384121269164129260607450359845354279761735948331647883161639628008012762932761034137561839138913975831999047565200126022768767555225635282222052850319343116545654705143260479031535318477038115937189569558158504835681988257311698652084674408980979346952502362974036112900999678976508267821514289155184685129785471385627329938922252819423978149466394482869522527936716843316202148337655729241023989178974471487296109591351698377443289267562891138688916466318114133529723824772939743221577203151634303971622825015989044925936820189220220692581927628204683924960057890787557859957591088814482769045638682755870474742203251095330430054867052078345678919854834697576803244248686499501352447343530393604366455608226777365309811843520566098617055432220941377340317885081120820503290312372660337861727935290790671231903759802696213134976154654178630922584364363060512679767664791987464377643091782141561381877011789483753855078262470559228779864180467522796056565462348087967361767232620113903510912128451508211468792⟩

def stA9 : BF := ⟨107820260977712079485499030496896906601239897232592722927109783766626800796146113677715911100653882918041925631886363186674454923171139472153596471924411021845973937230254890, 882381459357122117431479494596459906012630604101916196408106720349979312064272660357916369648454782757948683396680269665101702124472406687568747897282224125391394547311053677615494650149354910048929441564514109848929976676805984091358642895103200284503980463499711727190589859269895116202655846245465746417477312580096556710364130536419076831736911553890064142561161817055956140310737252711212613939351932272685103293029389773395458249480377296964867942366586473399944250152335017869163386416886285423454109888999303157968971675049298127627804120039728760237597253984795940886001075578529674604314703088904817512647934144498324420863312312927444633797077483723064668254633791662779592602366712446603694288971668025222344450753138418241742311788489112008751521705939150407616369648064375349516783782562566607180720474103743472598200685454008824273765674994980356731689477680624619018384878670602578741651497358860247311404727389736024957627261113431266431996144216839302380146244682809932396174532429965005844148535090139046354331192569358319685774869248633315525949541669597807210477708174075302737882891929903188210484484288030552706190706020743666181308337149742115623887081191834350941208326229782670723971522040337496426685786768315315853819465878575178198572581553688594067513947673952088364118231306869367229912975988965477833021400623526971390877824485561634122535816191196429650771843153403316232980128011702238154702535573996144637758084864369321714937300067508118981864658515899126772982127600725754563259047450685521467281723575606610702115414422497206697436972847548147409802845168314600505860881502351569649217883144647258748914440676713408944470769919064593185980551132478600862642828509717871269105745374203014933256192994081643845397201816530794795665993299191132895979092708758646034915829359272050826777706118353672317358415758550590969783931744203944689800151732690852886104633066879066112101634851670017561497691389995209252589407916523949295834927612568456609222421330853438153995889830795305737550431858334727664727146477140256974614740785211000400228958810830261717983244438255245283612758738189406664999660263064841534515566966953072918481309699940144940973339633165130562861819973811036782529847701410342031116185325097223921141793457698278345296228271442437759098068091613378979857961038441128234086202369222211660514168384041170811788459241185000629286817721579164933019100760051208935756723922038857447678710958017810819645304220052891610, 72495987717628715960949252389433560505060189865672180045658663878671734970576685971378039059884385978804590582682611347995120014691357610287157450670362745643236685066734088669837279319112491745284834969711451050827269300407415684653286185091125049777374779890824798913354344285570413685960546944000972420362677587485921675005177176671130092537808064024419920055965551917091274764956454951664587790071836766077497468633548096018506145449795839521175520972639612757172594062570141639812076679958158423187393497215994082976441467169038237708035051733442017112400379368855420423335184847545534052024901449825065167295230901419267441918019170218063657164864682495584945076846598053854872006782867387188729296122544814980855853265084759226659310267375031225646280852041837062931214447823298959709866867118425004948663277751856772661991996744107039856179615290883356083067805482213763651571351787829495198509519996391188889800331084752256220561259779563464828346217417430912698965598673186836797646452262439445563717468454176950814420109490273990665118555320898265284920320893544626929961182651052499353024425805974660215055927018683300711325286329425117377220886935260026568881091753653131879023918291446392596986092947693133408069849960634419984745749157385145552760975619395754050464458541651014399414389874516480658769460265423156802549186266004189280512093899531064932321561149513100910579685225529956595667492609726673671622277576909137954242744186933394527942794373572822815070794742318128322135299562312484810584132448825654586271237435914267599299681635285589617478749800252211378031936682335401003209566853620470539632068298269196682021290247159544719663118735827457224986736820254487035874998689075412121439898013126172487490564707322664158521620006306404410305117748488397986128189703620202390073720636751898966075687696035959656701376062533424125447364042150953686872997775249176240403196027258973383344741495585503249203882980194949005617904766844143715094212053112240051975401979124647872233964816337332127360733820998194572369540394159510515475675485152275539961136804376610894765715145871073734353641757420356568366868772172606090891962195626604618062773882583948093109477075997233970891241001894958592199631709739865466426621448729531585442030783854496566261333558977204504090117483151271326749405423601083449693562920935804076268441445988405896998366293821239951168383946351744254673402352298818696729500134496996198135258417463246635726191206307932953, 842990586247957391821812480728366664281466765366980215374177648522527560932812770641925827863886906080343803243708245140816358106772584543925027508861138478725383497863695059487611974587650362259171115919754752703644402665303734337454764898186864698641674053581990773314832041980988514592671076521604703048461695487268325294676584298555351747858563601188767395837954465442192857285379574771493123092228919873916884166306862531652310009514314415120691784134021142796097749862687638449041975098701611979740032894851683503282589516219485770812013927227118670431135119241382778970360331460236590513914141297296282774869923578490984237012254254730703459237453987890632852039295006778812854031830964398837265763385784909125504757521265717689656411308487735231209891615286992457154980994630477431087006450461229635856835413730630691223953819873322132340679215321149299685850897906265004246094755519799183311127669747822201361408902086159438758878637161915426942386800654523523271343804882945306549770284904566116468801302302145640053982555913430456399245609856250135350232310517672657923448760301791044437417553602305794234669714276163568341943233156065343865035068878510976465894181871115192299386287308818676135823273332757237750610930750788143070299662649337629698170023813601392592553914276357548455037042030740373132860533403686803122063983491924933547627187546312742264596033666318115742166072729521711723224606270259905062122003241989283921525646903325998366647128639159332620889259492001901979639621273678424812098382377008804836815202468705523534672088002082294614449071807642539745261003090551148299808574602712021596136733185881645000650796091986250594019331412667141664665129548369501963243568561438517433517505067656078035267380020174830413371690618868442401163009990906685859836387295737815312958981902458410215709547776421064273285458883260862137051791677610073821102130262374903471586483902015667489230754981818978571415652061637175973270413617510181037171590615236689610568986906433706410861862160701881504130019347096060293951219619453190278593006939362912818382352210178401435389612633727985064622725057358041716677768724100365058720476856106636883707436210607042027169511760444366796168487525415704053042828360416495709919557170889087567330949552441101707950849390428337501307606948697187595169453809543837306976976417147305420908443946867531345232919780598712295768507583321434133056805585620808378492911642791724253437372518273530752025034118777235496, 426767448127044971223782940066610649331687434691223001715579293363944953268728364186264261508250452944844350604590273149579625492330619260240614165427362086311443323218680253278629362396002444569472074304751463036116727112112124939780479429458199076795478981676610500005338228956040837549294161507770538606468649457767614717178987447145166324372539039041859433999541863822012726334136842120591086899283707015600834223878132904135314457005332294529568899326616692596321452397471622991298547054572551141097735094814476616698291612325485086440182753582202362942883725747840061695718360964449342931912303151527838670656958860070015145573885285128632634081679051776084074675601891628970032209461360767582846352549456260296821068177926162761881429748981087574978265066436868131463694968754997162674211440343629603695254710290322696476621322188540559396794420123765429139846770402983421469995358603597689635741203161647798748273950532781605813488226197272259447175421371761566769629026931791332206109716326085468155279771616371413462319253052456299345964688097816793190383933539344273905938108159349998679015596032197952185376393877196399889100255755051443436445205050121561114131829021108345249746221432926740830981642709708962774939493028849560812191695984223318029737536115381841749360833243277222934275046678997886128817061834356075653438416488761218436097229679587096106762034312444586669671507541375999826175648069046608625416595046865982828616803285390318385693396708869774653543039265778481828281076921149786118463713972433273125949511135778841391664761480332077167980091121997582839182229717468824125562741202624456198285019491473429931682979673158300364669300626500786661507687829178638818239188143299592987165471589611466246143096166600764112118341116921732553485642614250688568572996432224654622830049506671155883311778831042803128494191193213609811840577346859885303931614398414800215734758744956461729271748166830056884703169274864434880932502433239730240796163391082708433834212524099169112746183384106628984738162252856186884719068920393195271145728252018962448701897420339276061787614719402190433970048473458609411685598027873166373232243497085339168588513309446508233739974698002459501898318644440487600399659551039440221421910588899622966038450075894090213633615397106142744737333901997775523622611132975252238418336675736613838729877531279609072610192290665279167796958876693118270282781654651743736592502895185819032382316101597532762099142642208534958⟩

def stA10 : BF := ⟨136848570637012834342997206076593506108369327873728277671992961416529511803503958716824657993195400977409284111791130552203322832884860616205732872717261702018463662183045906, 485976479026179624439087679891700944623822509581643636005897269151894959071787551450514091101993154006584997992885020080869986880742783579000548319899013973307673977244619182004992419638905189441432591288781931206080217834349430485426493454235129236840708242573888140760393122595683865686317357688585230292514473577614493541906417063573377803251607001269818617643671488629066832863892086971826054180390831667784081095129010451128137093962124215253159599322894864659793055227261052128070113838190990365121522699225890333209146092190290071493120697743446885873976022938044673544662713837180245944222611567670278580212766635833670264072113842345613233156086687068115397218537124476622564477602376356470263242101877828627070718150749022609921421023539752982517563093700551749287580641375530829484957520043130107630084213149442797951475153407429628834988732323792030572713363925463960666554411839535681804147005011336724293193399177880049745635918200065282924214458617900453885152689563361698294936847184091754768119765833191390623438046815938643225922899981748691681079452973321363115336453711680097278823103552263408628141048898327238152825809713111393127670629145990235809423819245143905828341871897553445230936417130325915144318118102757311873304174424132684351065435897180246924158243562972982891558997343838789308125762615690040951555514238713348998192850358754205511405241061205794713607217706593637393707083160850550599649714609743464812161376975069727210073597066667311197197278193192228061191773804132966886261940778342449624146342163742102638403561877813670550646981003593588816939228735779722558699203837331129931103264941143994718124142206761443041174309549886559880907140023815922460967267016506884397549233006798891192953598821073293521451372347486997071025836637372470610637030437007509976850818034460765757253925489306851504236430992143364168607761224691958026895948532628448565784224691113387860029529448761406150183929923347749964322994678637901784946659105974618615913206458431050514218040724125464656264421843422256088814921826103413606752013880038707718225872285011434898572082074410342708531473333222984704087689174106620351429440818552655165615582221312297385531641219821449759103756334173496212864663610212100463708879486231861998574853631256645363337513702977988911114944680043514380486739384142161095993814431102889680101476565523851422242284491323378051438436673018641031188375573035948521147825654469863002135498313171840543824069736886103858, 293783521114334300179929689794785056715579347163462618208080960152248859450502008892576528583410031289608727628787931916453381558313851311735075498695676434718819520024177187038469526804423255391570808060823133021029246650438677250230045165684231881549442826718046180278509705560781549425878264414269882168665098578903520152787886779191131828745033583999457866567976635978334952506038948623101453271333250614490695074087757646406778761963751660516526512992525960876513896098005975761622021675629551812914305279958900737940095669476184824030201997437661629785176327297817390440984107472060148000664380412448477004353043555322310211066139971982026949671113316945826474863544221221780246412100238922885003867469827064102171708374068347997294242949729536963245875460118142886762628833808232184886039893634545687448465394677732557249874746659528111307184932017206005659687093610598908433345264153465511999727082889976127293360731679335104063015102242821320765972595260477269789538812939625583034791800731797423386881785298683684288387488569742999291743998681973328437428766789291291387649592420844549278436796863796362094157169378618368918064262821954808835012032955654173063844701769931682375535646020775808140915411033952603718755264648851068006078610223476825489169537664703052325059077284576843406892466113222486197793338485195312504424521268737734551742181160016606066125494414779090547679401893139452035763403168938378482583578564222028631611282961130574796305071110727555554862285647256093063363409827374919367525422745082712320030100646955861138193901218762441511040440122124009161024661353248404798239144692320466105774778611057143436674019402688009548787177276580222695911307907263731425797436508994772082570828243470969703125303681388285038136573203453918983856485362003808803357386828328014675151167856565446827354654672676395969117402086805381924383859948349424492495028539305988225007047440174593194932351936783672190481915666788659248859889663172386857462594100691912764316232238463491886485649714553219230484626204219054483106639546437004113371661144823909470759129386393701495041618326039027435871881558996446318170075644480133644760904488709411737914924839199288857432211983434581968703636603134288698270737850683876946179041242726769218983328748009747790536624597872848299176392258562115088765698495462056961243175694173317504382433261826246036744812479618360069585916526233753070273217753720455600009054522500604495036323827199470982147655771177232100, 1033882237170923166412084690209900794356808271612028563649077989347756011539524137132147584349459039238594193097379691078577442433354201834345816070633866117281059186997204204541614459083207810608340397666324364315371360964047400408431453712334748499249507428369733845256598611068990430785973984537845046428577445269392985070213436510920786610084307987587620726210479579914219551046952629859755781932079195830513008108153559052180910888425108179396396762858235063505799439802584190085205432518137018250135519053424911583691584203355287434614724539693491658250136518398596724809382782019432817346552241559127880737687730383128683544792306646816859998284116707961896909762540353694418842406142058622521074664328166430602567892091204843259701703378444999463340754560889288380747011945001551590138165447703325670388700778603483122547593994894277389296259210356747794739198470101251707367153658696141717857589544379228616157714540402783746660292018067263281172546974967280709405857140396604623959489030938143412043050174940675053492056414600377592472496711746846643592446359617831293208980646337008704778504040437277164444313813573671958352568415394995388231646130242097312580260274562673984483935814181437769759019946307031849892662494376913928402107335682459237939660859927243504162064402209806645739848486216524345585240672659270705182729457138742289422269299092152957473992646300242116292333524725965709016165237981208959741929549022262229304270902098784764945789646249538713549769030045151038542857933008845381526489362102607779499501375197615788264033092914518693157655135101333287767843921364998618080033171447568164292863922957612316553128908859919943003657175491078063618263554719789764292886786860247872304310801579940207097014171452340797504278597265231891403821707628393772118014662492299725401060928540325251099201820623724111240528588311342008706054268046819588255710355216666238170127560988599815414502405506008825788367123118679711500820184470241460566735096805305421177589024522677514499205572096835572584628299889514157449265579987781463933174554784113423813014563293708130877171274899514196114409485039118642422626832790699750606455630617169675765902913912711580780856053817277102558065983507540487276859937696892771326523345399725324664725773528149512394434054774801564206808332617114563892307032077822467334625104074115173241860111089936599471908203135221766765587899438621641626874158278033822397261447876253747674541163617391809692148303786466400216, 1599598295952783992381472524564610262759999173553114993775454595603465173718359349963641143277605533637129575465836962562295866688438520058453052159281863328524124514768561179577539985604810693651271113357496937559264295155560756202937470897879492314739731870803486868089086629065711771262465349797688077468201638378865599714742491644247331395131691646695776060011809592870181638419323448416075903539602742105290074440455555665140357266686908779477230168398039425580037716325740313873419050795600107906793952483090845102560090684490166866143894386160701018988597023539384547809216305905410303726555791235044363955597003174830105725099007207439870895902313945923666473697926924203160139669781017062644937264966875333028717367109061477814078531772867015671501802103133729989863784628661763387533508483334581285317009285983401019054633199505945425729480463171913219535417829259266888411267762459486122019378623945437400105670851522083391291912360509117502682162111866763576299704626200557355298691160059122106990823599720574273952645505840556634440714330287565923090910971258033289505719147645626092566531991192702476132630554237374635378049431760152662352934967544562610676931625529925645350855692669978018345069890579949700481263811763916192287569893090598342000430547400290274210388523571951044387798220093036939997961051733788054162317182628735577809953498662053149256912344177319609560425995672483192045430773960678812499061578538767675374144483494335314550310386704608507028204043563152004538103181818626559441633171211088157208330785253268762132067345236535724324745288516326420654969414441588972474869370180462967672330904070793604071032992378058853132503000853026394479626267525592959427148811809515470583042756509864740880915936177081209260482466629819104305299604159135179592462575716298622457953863430868927195976517007324549914443498033839870107827632400476154266879976962877446987894305631579841738142378298693649736302249980146980694835679336582823936885541585649072572797127306779001492092728647569812152480330445175930285068201639189957760079758670496733650908995513890061637095807324413059572989126619913708376057306365586654044825822374187166486096153765888573014669111955663643635745233955633847513426320113459257398714394107156634352407405728072306574240765361603840738107157027862515657610387446003166188466892455154938564646751874127924881242489936117912738765206820722502456245282431827323689256552748669110480193386141460505262781578777339262⟩

def stA11 : BF := ⟨109257619651412978236647122889165784863184055190998804326954521506699226767499245758459994023848011257380612139158985246091072615537766743389180425828018423256761923201687943, 886851315319893215062521185395852475422749368448912985475162973644837241191595753809909328292414129507053942371912868869933700490183206375301134184635895412992151934543946765212409637474402330460985881988046045742451935359764484943274673975546390766978502488077984576766508061656576651805990293391949089607137479715572040247337308297846729217612553134895689702580176814231254863451401998001909758826304232741753408951493246178850257524644268097256063019585519918543936961759610230064209871990859986045691747231912791368049907829365118097413773602037587362110839309491045144339576504063678683120956197669658822368262092031213150024073505509433609733954948782318442795724532458152838360371054161717258534446206831595041703014282483678325889751304781126329473422165149752311794716699437771253599388903234237759464801741459509385915434161607637250165929942755553029544322762280321507459796363262209213663276825782598398131969575633514920339249669401664216817166680801281222639869153569421764023450174253662654127564790932529481471819865552161227514399925122752332184345057486237099769399898864819017479460207359217629680855090222565504075445054418131227892730721031683881283426363875576817056679690094777931263584881300059178131849190048440250067614856880554154824900131604954545466460722578200586697439619269917088405354645058956866470529941311947878496435243097533641306249175092957586705051483705308889128750989471598701231795908369624655832219575700153120974108438615845654005930114462344580927466702674755249813805788988763737160188719116547531554741011968288078512786418542250158885341988777251366319774828699660127428328167887206090430888135969312134046948199242588223692551620986468214316706902291151155069301430036772700393521968506222411041439340638148465707178158226509146910652041238179908215323238781887820965638730110536029238210954218726148432491508332728891442447450479956095899968557118552597943217570770182248513644793980492504538014306502119058544682177679005899909285680373210140925019917188501352714390284819110115353699716864605967674426518632865221897952963970582603126724671833853050281658402684967542952680939614836010163650330116168999353005324307467678484289639221317685414181429501245558034040016505348102821438518105498989538414318351505693032174194598345407514059313773970116680105855591553291975289984858759318026808086532592189531842813589919846385299668970024796759827892860108068576135251414740795001817730716060258631451283043367741259, 692701035001557550545401501899675730502676779107777187304424787926073568030913852926017889404724458592877887423425041538574320873652087235918833821883736651823318780507688849948502214011916172429254063282360787733590593106750821244491177816193640828557136732059789940276988252445185902745237403242310921603946440021547545103944803023968813495332037421063002058589727087429326249772399183632315093242590121388298462902940195775665694571646088864844491763688964047109995018643092372487866896738673354674844406865543329463221478126030541009776793434598052435826250432960211686764666750589610684219376642674986056738740255923014734339056269982971421507877529103290242908803459410152725188700766035871487894104110356209018786022821235342579056937581566807287831764852547717504826175683175083020310410396756673201701895841632440542782967050825682065057022795505668606895279562221317261951892627507082570934464255364067315730898125284409474913940718781479494428158350900436113463542777107432218183176201551140755548565135715230072501095542187508094207398827842205831734037606655074697870916158587204080643656368083762483825249696353405475249075139968620433598173278542517383298021121857777962104589488045601198997805346657535615264740016783253233009866678664688179456047479502922001775888144614644365944795046422445235268740825967215507351852322363829786899058830569249822898437720725903404613080611952460533535362406581456857406530060355384008447949843732015643069607909306159374417586184389440129960807904424723498850946889608442466707870536639813196689552461592804404011994511178344504121630927253776576732153222960259118629589712179236712350681834019095227256204806784829940158322488657597992242177002946776538305397049976020599416619079245594844885670732459086600570938947151648721022024820171442685800774524453641468978898463854596563002011252065874224880156524981753317031625516016555269817526550101896266840917438224255185627287145413627661251336367734049103919720657173939044145358787285788477082197976018022495671698015220014228345849366438929721354138809660558871158716222273768894447970803335366559930258352934483692600538290429167166899560206260436954434162724395225214229912617322839835784360245233781708549394237498919706306490036305880767259372539444397783747084637135849217329826182597170216968633384713739342367091170242404696401039933622374334519960090631854890867864721405502890806138368751294117081730084544543472526454142910162123801380619035158724351, 376180097458878986087054795576058127685891914641388862473637100471708197946085710171521744996376959386132223487121650486459143676569826707594176929811535435447298284153411030935798777046540488881876493103957095001878651553195802874263657287841949519807757291741497114994321695684289215776255434502955154502450010611952420835114011920950943723450997540160053751675966398737540527379565228415449479820833339469685286443484121727751108116380056323865871273632396304421296753012333999162850123031226919613373274353286171258897175613877400719026529456300146635529558804088082747488493621469768007612204019701310992319412423719566522814989832851714237832888947701875294889890184334114570158645947751757611264887877213543668863871318390188957129861212667655518405508073340773374736211546094748153597541784435888526251918411987524886459973370393231174082881092560495491448638323361199144683410058712305223452255521698680402110259521718930343630777284033809710156729384282896801674026251318309716540116578900813859775024064040406988107885626705761514304018010877460829820195275744210923992073983998212695924967691958366785715263878855835378260896436622000719113470868261279441120780454277449808145014709236445425911175030422492200775133100098130125008640521491854693780197604217247415169912304136801115257843694488885121412178952481313653871973951642609906899903592800741261189682016447054221665053385235234587203171504330665298921424341403146635215333235081218104608841162922747369560138117128420666687935631065034391887448523095348927601203855627978644896576852758358196235732072093695431944097096976823399049946799034893592814732907640605967876683440675319908662589891071874074774905605621737906419493777959327219557624471445877918681122275588083371859180756499552550212440922328498510596811539609726312103872150308629592881787772421312332849174664894499831993463828218311248156591045475236866020399726492977047044116317634486956530946702003304952874758266946060023853210118540253616518847165646621301210158137355249192528380071175244895069400091788428795883407403318693411639953175553722900633505794086182994861996271956097169128616605364248869937713149101827599356028447215383119144244388784532174037722390202806789419866825827074815040231259658505432414517891736699839035084554338416415172341085898355259355821369147202681907279436646844131000714254363870152712526775424074812877463666297285941099294967912389968645039496817290942919016755947432773485887362573506922141, 872287747929519233024584617441284045554530629066010790975076996214005372079721591492311005986889174158776262447852222775582353839200641636639281398181614237557704882099979954335885631281425917299284938765357228541871799800088392525129723226434068784169540457493304656788379079308753436036644221485676318573709591191459741815605373952551646030531849922339614658439486254555944830719523839498538652071035478095364469925986404463625298339965008698614352101638812754158769218939558881809055480061091610893706281271342186044657645436059196771502865639491411873912340134843924638675194525388750979795789574938189332986235335672579314797371063663696805785743432513887041156626239228323899779632224721780278849473275452213300775492940636479136417940961924888346478610427993173440434353754630498851377148421571853045356720708139451794429696909826784355168514489968291273671951666616100242167631197600870374407307204246586185552934914225477645378677938961811843135053117035571784203875180033797534177577993521815426936123076356805618124578147617268052440543309775548825242037055264744143767589332257016769892710253553791226524713794082295999836393424696645853216751711619240484381541582887842133033131837614008482187167915594640473190692917223124309368084313492756452808812318770309632400317851853313870487577240264461878017228520464454444742388808760996508541163402671974045294369692613346154095370932588157108973839502435189332047045301153390173869436159713794547651150527410969150199699574802074375631365524507403619465541577893456384817400809937148919257442221450049051626512007096130635381804786089217867650982093840742366536599383664793592437905554103294489789078411012098264011555442552464641329453737330733785363766782100995455607926229367358137035630229631506334385876024801462364672798420313832740175420479358842901285294002612497802355011902361512744891740376444107495546847055398830904243071015028948109657227575508603025059839825739181094504586530479521149297434904732831011290540272061306014415377915742446164280683829477631667380866601857800328391562555665039392380880048729278128869330378492461056053897246954157326903433660442830291518100832921433493411731918706256956955415731106285104810392814501169297205750512893278940910876843718525061143553246935904559878382867850752763901390736565841557278030251155211971769486402068676692791140753039170113765219509486498912909784104402392983510117335171321688270283717896915063417487498975023709571807475777154128701⟩

def stA12 : BF := ⟨131438355077370355489778386549324097014636888620979410825659429521875421479244279650216379830257641520230315415487865271633990923949562842441338802378044193772521841238576281, 172100690672119151707029116104738143131480049730741686599034108956780507262600562362530947431271950975148044198593512131292414808737187829428494278564733341262360625876604295195286063249088212059510646396268465013814818294429418186626226300252398762022787307220242322938175895297954859581453852621422771339170027264580714541500816733662839192628345309371653170279977536525802459337356459414439308751141048425729223386963363059611091723648496334945536307966709088933638987274684329503156131843950582244495171409349438978115408230783033565664236524177361452076728749797996802115651339496088699425662600534602632010632741505511963801970912355126909909703152850065417227721488683796938897082214756777652413869962484318312198005455283226166218894091321526538017697282702672179541586793163200222248504597034891062107912071494413619565023098210160909998724053779301211662866115667933374891295044787225249919097884143389567455995381398913259574599431603632305975127369876387782102450695148394633330604751886488956392306341723446516275349048848706659131795498771956316845005296833146525373949452609256212313870689112165713970354912116865692716077672608579466371782563165969827360745940967661347788658080130117544935713479509788042618357517834980067977501380466605386238552720439138311726741647526289435011817025034519634889131944021314846508866735327822107323114138378931303316416307813208054162919714429911584503788005118827578214740851416338044514325159140058324509894583718305612051027489815767000935850570502812719544975730076820708662024057730435796577467165168916314186062788776969497451718969243808529615462447332592272608923792693457886661226087681522790713073240234238334289606729793104328032775436469417531813977600599458482884103989927159643907573574386348514852905192195246232418525040673385045104236707065314754989788731752227782387875136666097579947139923924468399478074597028855207666727290769524112306412952948402886551072759541611544649054204642935237655576359484271747724784740146234035151543960867115012122515569808907860217703586089846715597158352404671929534852851995730716399986658122470980565640760596664109602219420782263231740349854566908499843284066788384059624632111795637121317412750779061651148063563302543607370828971302453743454046787257657468955302290226845003895807827164220103107918533802294394887940375194389529898572285458846979601860327456634899687883019241476946560326142572495568349096599327331694243893291719102954097692707165257654664, 947387889684652197808637899447030508748219076597146368305451603354872440832432319136961016407426454215817305578950782213945989869598170668544707719396556823754539837761318089669697547232797004387593518622755779303446312409482587816346259320624677269579974679927561992121875737007334498070356309747396969892089657590706826852779892379151134692783433229424533932676675240494957555057107730259771894587618778944304981749022682206142767115637030813860380964718256512986481462822543714632581921395268590800495391261772495821598726091947851974088885056161260355094232258389674108857915339671507999597554349095462500588415292683550695584267339952095936113396231913284868311779787209262060822230180775059796474870630663436103026974253113664701105577511430653634279342444022223044334038447883883297888574940664970768933602804520991852055637368380316972001091091381813408280502397572741039292108895833024109340809477646246092060385419197645351095204973693960717062507283818479531246396729076657924392680739754052472473321227040090328469113190120537595950090930215847612108569770656539310439363452363737759332081921556876630281696808497040575101691372075940606614858696886478454494100743947154200804016229667275012668484692013629626336940776998128889923988304407222029446190275513933316086829863558022717472242328062897963666499452567499092771476731906256561069498556694218894677860234044769792702259550779252731937492951459149342047355671265871617195015829580906036936686025359532734138904798400052613634715373985154145131533428949454926465966110765461051868485612607852289333844901061063554842475420981522894146074321550480852213600427453231424059172231120068299661529004946830595216624937232431266308473397934929582592509794317429515519576293843423314527675882834047516925731985102545966023464058670616135259109657435633384868847669548081870401536508498398193646634916094271003378598931362077390939905189156200620626324206647652629985399359626021054597218771400579284957502394412032454848158114704247550435752107566922884402453745797923298410758111083997409498808612459173584722289149268628168904175033681574151212559944612520226427894329778147471149902031659071226984953597625722802315767067770215093023611789829720105247355330842068653631070946471020551624468565307807224802514773298884232177081187535465071579349636390655210798750802586616094382174737678886807890733284171577813698177557663778921350307396815705047444638231429241786873288110701162258392924266120643608118, 787519556143793635643164923482396035215967644026977304242519090686798423607130620064565910448369367984483768392666140340921962248555505519283737195993436043457663487696002416078500137459197396568038037158014962919848638347918129677647984518018789827210691183650867441361328242290703027047773825920780541127735862756896726030103715641640290218254474249049672103314778284373291359500537980195821638382708591221534560383639004328799517690071484613661136439806135191150848829868938406568815935664052755901109136214709955904114716419227161701023500579041355404620144041999515836806929179682287185724427259283588021257585540171101473288897595539497706135450201433744821168045732935410952386904086512156664581132092776423812846138485384392347248977549745315446290432215188393070574020136528299686108388343315231270994803261234706838965811036551579873408029260313725782864249665193457457979955653158455186386980005386797538944719066090418597634982844495554588771891715749322407907122153893685371546025673525777430988929454638786198447719901473169977493892066670889784445446527987601679011417483926829975632193790377429553094473393936490992485703001320183717514835035242708107787175998463891076232201568235378268408018551867270498454990613566167775939029229026999802388548440115724802619572160143380093431962390062217107561623976964814028198367666928290796135928294757993773242338846646353771573170645364728826112536071561330346065381765956469854749254568281917362945977872063991293012916452544984631395365655687519362783014636345893182324888401896636518434701319917241340213886183777039594988199796003218941522547185468923245802524970026500745970023774812904094615459425949163727373763419302052543680172512086190369754772059883533420333261411838260714066256427290472456143093899907470650349525946625775133935276843312081102427021104592265947111758677720547312706513860891213253394603205912569181362491900845370272246037159550376572853075231286363203641330082499951975688594225213673691258920746392142301839879496576185709425017416538792940758944322272235430469312612010553358929418030413741552324556629359007797247392306748610407340813762655415552602845390960861122958306698194174890889395257990355132734714640836284312111784199924656150837281754275242148699010738926032564648930819521161793949183889124277873525179963539267366170077662304409326038573042573885173904029506096990958091631039373964682259446556840834928296176192954261283091823501695796867265571606056546538855, 688518302168771649985067877396929617639041656870676354096347520168148985773722930354197310501573926458047341474881589202198799928798909852458065305465469775295799387454444462654454760451158014070653389609939920262502631909078567811843505305745954920268630833388102822592696258607302711011221037835727013006900374783970629842666412788557421053260701615749560373759242403262949902693082754504287047901849267588109523812086476434822999914388888074397184784254967321627813146621723465639203168973960111747257495269842448786488563157657674380121363882697445822703226714203617389258550203500394774379339773343959512806261074095025598748790484647390326259331708408818398079595103689057073595329574349660501142461027074935784459615005159333664541066621208289830183616919125981455460792495111736570932990164399296014923652446425603707934558785123869304604760985187534947491648385551454562161454798418784322492020943721471273346085921635727815857907389583464886503150739391981722279178825184101027027342454486475693269210072966314050977487637430767049895548038293861470937190909556551303055466728094683774835799091440938388144511805373654211621321440899594229193745224189492339514251772882671165866072114772445430874822562305326302564557159595616186665733036143022293052131149379808449250012171974477514191110972901834304609388205606296325322611024689127474660832806731922205908886258532181361200594663306435123314262778084733644961921801654459136018852560160318851545486258143526235898089928202842600160972663677626311655257825851897000561822606251700701632153960213260753755262480248865523188863398036202793645276155008182743633633026498946104742461872143968858319187050691539196099854706813424631542082861218745535535363789671758979968700078535857146067062731753542877114955221612039689814851795169367233918956433165293974205133265721121061118817418491300816871773791182218137573227336436451526471748868610351317528801138431017952914173980863356165019525307855579857758450287369781019657145625025859534918254614183920808807649260136171669941843189172766620427434969445234829602448734684687091965356591029142041346829282858629155217112146984904173225578560491346402216178716942492158814995023561436327514622557466422088984811227240986350677339122691162830117136440007549997596459616994834530742912184400606661008258499176396833882524970594894994671748475067693617475930166235328052823714846931421172224015021404144850432395051246516158316523512712124820950544016885544567710⟩

def stA13 : BF := ⟨211371612464406183535669364200067569052635269404077168410219587964393460739217135347395181036995281206422103627309676127037474706758524082301919243979727277041536021218660121, 530866227217755979139990928924795704998966388930623906500660952503121460369122441283023932757567477279470890164076271112876369718150132317438577588119355152455140261671306513241139891247554081134411957256433916074194575997825056597326675084392455230580412648871491804087853818376369288353386856764615073250818490179085260077851460710231536995223260737417611503358087059430437074802796707313965759084716419177143513381654227200703617880081629254209756919245505252563070701259100512509604606668875581077901073732281371466034289518902152109289066234494243366038884770604194034063243487738551112355644394275547217513411832899737460077665357221686971150558780827613534841636394944052291200700657576957997917979435005448945522621796126877952430474888698040398634670860654335617277886221990425531456651799300511500762143859362066686285910105114825500161873162368912348206934059346942101658528452871577834676865899833532289828566878970006904660515117976463520302229592305551238032052127853244586081293001605888964373535942299906041511364810640094876831906683257330301172998230484958879675332229018066005304969791743191762518866956548763216383180276645570053671919166460870299053725596046904402245970859154601726579475007237586688782261851433514393937311211646536080466911315389766001341207111103332399573609650309793510561445683898641801442436494241365699178405958539327030827037524511813827385349050715046365000112028685641978945527340232806607308429675966540834506541615037163965205605977529511970623798668039152088708086341482944750145379641719418980626912455816393871830613073814156811458595781484775341294740863685001939879011447946801354459963603218897251266014562356299414601781747783595931824824993682038211126845292423845710191584575738638459348467134523756660379078067274990569650244796686623568873450226891902527270842674503284070926537520096561795143542714123836121125093391618500857567385990769567179128283773765221383311875872427735046191065087724071995399471342294709819080028072123605533833612791184266123438713474730813420342743579434902912366150756213914741618993103976030627768029330671966880293489161511127723005535179459538916342173612533661435082578073118072421777032292812636768053534076005209000082163947205146261621186443125971303270837500441699053490572816970600972669950222754830906395590701860787070475313845357137721029707648650215105871233313142869695316218267461751854554034867719074311952042262894178287206328823016181639837923841222373268015, 817471750907410046023484835693727991021814682110529059240817897717963227562590516956190859543874027809794367805018258339931888430840930815506842913833929718562267514717709798002898147118220758331703675906683647625063758433875429935315225310521165095221734355093473148562066012845983466134420837810913340826356375575008192590030130639211070781929514919350053398270410745053415866176640369027513164810027803742899009111105893159828958691258395136882200206911670507578093657921761364293460376009002290530138695909755385228484439942074427559935625064252127171365306597293547659340793573817435145984646183925327689070280566221854768880820204598706463031740003447183206531572049168005521075444646650051217737425182146105828509932958358272081896404166922406708533506711338862641809277773026715782026642830106179090501956010814288705109911513357649715776166068396135807496847147693702070322997847447825088456645015399843449453140301990492114427926952824842673737628753350098234427973929705185475907939308681696459038964414320496765091186273972936930651014570251803292146621752508512453976307612624683530627187852943035460595302335770028421143503303254845413961558353103247437474292191660313746420517214331228355492722402393186040213276479557214400506452795984952381195377530495984444966104704618647492540350299395090886155414207038178632298370303063410249460084956526183133006817498940319536467757515101954266563363912039762279357469294779375196558434978061575244109198447035835382383106518145083020289291079631847771762213372160227735636917011118397094861540129340224231856997954259665603523906689029608381160133989754840702487679749023283147585944338632079243907660937574340100819772146973961201328383257570315752036694400814815156009934842935254019503085260090768733206201774453723976236853620616834069127002577580221989290813356271373442760229241433615301326180469667613743558873901491176656432725783299108131244766029458922994664067773026725994581368105180639251618481595162731299732002140346107899011912945218368748872662178146537881667456072957473641340279982180469363396660753674781708238582251631007306028715336942329858309661225490316121083629691799181451569291215428905586788729569427846667786671068993350553195729339484097090429460833881712440491300647011169303529487654104902699893116786201893614722196011623178408753623243472189814860792245719304048738173589589742547524708465394854525154007093796192183932662072222550231371290187898744316778538999902324578575, 50865973115287403617605559784881728806153076743072080467966326693030505724364885876127989614183632835670112522016453647403120527583728816558591422314414963207057654972830736154948300198887002585544679831378330139187242555767235861899066397957696758390610140403560828737960867472788056074585700177854607550729221638231558235138177648385028381552793672044669678852653481260031275552500175147069765110641164354977957952743000231339410506893598082852888173272296806967240803588479420950167554462852661064493027438219894485181999624865659046036806452696876528903982459780889699741230053537208848624750538360437467117515924544132799158702573172159852523546180342982907170947367015522692346863605833389748388055120770896483728435731823826827606010107500079491494020973903930237040684341451409589734590060909282273917890965224346241099162139858788126118434908202432557439499416709013399091913388366698148228294675113602029859658141911359016714394910218078028577797765378287944050761236846601293635955005672783577159419065303190003519814778098756995004557802597328314345618030149116529120839217392932919265352661350420113904627192713852001318736160486133395436002994611416701047426438343611583208744940022398721184797008964425551767192359509050340316322105115888103646510545716871172373451041724268841446677513606685077585699148804379102432754816449265309590325972133134397539166518673786046277450907721490834985869862382378395423917379286114406070500977590493402035374407479095378790722606929527545409194893020682684683823613001545849638503309933388678517621833071388368931559861980467296453093630248990783343973088639316122506798819283270292670347048430148976756514365103147653883291081984944772609567314299942837109309211246797832425635680229975539718742049247666295234816326326438863901952943567099198119529605227812672196718226020521364577312166831934552186624282667599894580883340112199968738711616393961878637247998416277169294683538282655573372125693840745598538219578240558020585817551472827266583575067341938985148801786311257878300314621022687454643256979942669773593426833803420692233983569435795311867783634519119382641752903148053447481052095195541109991829472314291858692037420204445803421570567753173219597893730595504810409197962441923378812316637494162018696885175617056046558240889812523908032158935498718512616099618018999670704128992248595357213972055864382785080604163994918182528680175111668569274735208180797574466383772918847153169515574691383867255, 1090211420057280854116253307945555245776651218456431076962101481485053475297574081472397487390133530403910203834072111540581148682016912815358618404393917746976063714070058990882395046790400369183197592691697351419086111629579203571024112804368247065756741910044523378560189914203773298057769567615889296978000124598365984171387054549085683723632699007022914015388105190694054271260202431741276191700963171181022770465684048879850921354515825705033006124648820000710595739497117132298753173044177750297363538889705715692988320337226444371159374359212303801713447956330228028968355521883888459564430890656450708588296771534209852839553650522767088493479097723519701645526194209978917977600594023706762877847368727802319001396819510872156092413458559181877300551113339988620793698367230897298387441419105070803528370210798671240562628099862466503104978123132475111463166497248693124337635317317857842295321029514588417309535846377658363011454181925051050309277163199817467190800730123031707863802328361913915769711612108023622958073069802139757673045244191891891574966107240665122580432292575268679241069537384430588218343780171725236615456782610115726226974133002868016035417031863259598616632070175803489644878374025512196288169212499104460947428965953750701120231271163860547303295309094891514779580607804511493845962934669698152706793116958030568776232193338438300680297999080421605675320353950927281314098588419445142162577685358476459121452283387157444449365747150061413860633493648839545518135145655788592002151858704532478348733146050216473779899639746037013757458299169087092145645836829758535644205701032656122697067885147727702207433653618618882918788381435131127771153012671878470153045051726801044651259294687493084527637410425318202199567432302912932144125244669020965332426222122825006369250590362875468387965521951887164149153759955866840726930699574164724467339258922415498221890827795079580104718113408448554070682521644451242272561887352693101361001374151601130360444338501019681524089925898122497659569824682732352514301103863344861206473643823137172862391212350016751571087553572334672548968340720186763816991357340642109517006358814824221198825775810822676921660668508850325261955965128090399825770591786106941267220559048575383264549267042336879521692843595002305244378958922503067402440784313439865840271787805839985187323598071246966460222616536437927999976209256859252325033898416635393571605144454009877651419327444537173492333373429738727163⟩

def stA14 : BF := ⟨175791533463111319667721031778598788674614686941748050304440984327025309150358796917953437623859133194567156640155902878212809970175506436605785163165936819738916696072714380, 728589714230683313519845830208008739181350426978907949714761166213527182379190386036601639879262980430666322818991473607333763175688862387524690724526492311868651505978341378565580810312659193537370149611624326182305599851602641900330978855756939122637978752667383123659221737690583987203820450179912513857813689289808598702592836325837247899952084529739151478127303961158077628031997512631451590167982401800324579176227991794122934752611695517343631403876296895118147520425405702608489853639028848478849064112543802860413332945277782197446308344751461654302545401702491016994504267158230525980061487954435982572832768084061298098447414424872803655335866827405644517178014838341018805792040912273679683725404622265921947795251496892866727390758627669873855996826022099251319156185941475444976116727031323036536556834890383977336139175530858422068248167777504829235799563975060069508611017394115228951059657443306088765277823459419907657259514861884923790212249897017554277785479787337095798824499187975094153894529128328087822336061218663597636829247269191910385353924864454177570616074644863410764072433810741061767714951459359447191518909875281340438526229016690056712891938394730862995734994095775742297978571198777880562326522696232675070016284457938939167021480286115740279548559729753640424141332029349630461196897839238146369871496892958433699777232849111134457408673321617555889557401078208972641889452129214373486297142756024186623463378119168048694423977847016614503916893608967353696648247209498003276169926507340241055335934311560990979900127712772771717075425823596515173159776703396760327144091539734725801775151011736156472985801248554428091572953363778012800610812714657898378052864718038165919119444980413028174295310208255399344445437506059990003406281940897962192277862154010406982324811221783740217564886435060667167950254375058168108915683915241917702810647842800429576535267465581048932768882999732891624352043545780598122394904699642192577452560619304374104911346135667631885135988802763653131462201490780229632461761153166740617169108794174775057861617085273694538982144692479563510552158059008431049172357604693478381753048623525528427377351704079249575433858898866020761325055121763756293369130311581961550115919857903603909421715952875934366170590759450162336548988335643293302587357955863440197138385243850806608993166546935940296394627457178112397125161665450217295388539661042048982056204427047696508928498128524313313037802558443364657, 585832458005379589607081865336487202932913553839888957512723681729113811266152360863495527015370493324563319854785457721919365037184830716763420626823103893638314987966019669651353498887288638849196869311633384620773533092629362841069102942097767164335265229236200639901023397384247509320277556729262227831579697415596548152765637265692520728076346785775453106302910572210874747164679854040854397942300513553366758621633317023941788197955293679020590812286868313993408144002131186259267976132412789493800331204408820021645859713713420642262580174632072186715889505182129040900131433798205298641427061640133308804896359713820097319128724902732464718298034690776638252853842321136302623450187463890006580572209466349278813342154250383110602057592232097387068103475471314884026723984648850435397810480911412565670542018814857961310325146493807192485568727000061216622466283630446122227692747194215193463961197651605474650006609354764712566449747709429129276210743482285021146469435927574056281373755583882139366280827914457522060841886010281779370460811062907920825428064625272914625791569984134213214736203756943989934556575293705624090904566962264225536068835666254016707766557398651159881008900663555293182073428804470566316008062249542799014139149884733267010405109276396674962800460214023999440948261985601687140202304088944166086211125423448606699893517296861266373430409853166759834651764701175393057138923406379379494050112638031709295056633910183763289676121617797301283900478803567732791112323333094302298302238638375646188723950150640836138817934126515982621625528267201964627085511610335450121590656979703199337226526610227367341260997283591376978673678665704113942357924645090322567854094550034807472453629987604646301910690496631034275537473606762764254111912814778844491098351393000991563197301594660649333470986051371219784304361137882142134850584532427544597193576981039896007158569136176282645420022125614394923376235666275875744238757841067735701812929057043484964784368042070907583955498439813425428111119505079953999632240739710070194118156987151653935020008310900612071744021277984207532325737627506283599847957962934367528169990837999193706307225615409554681887125190227173427024623460184576400943068591043690159668643557040434242244999907290429730319796032432521519392825730193309020880920906837851398625497625808220285055092923581400673286534155545159322637125592988043384928203329602615537985334407903807154690310492542580006144237452824636004, 392268873165565934706396084852148779171121678510764898263235416143672730816529566151678996581887210423082000389335234716479036794975605670846636278805160513999811512538236403492503489617247606172818092238649013251561020770513777192108446931117755741357688443518817385240558291235829491080432621407100460689733672156648318396590997850670001207976799608140108543082479730961653108399543322071481212667273878624859207811952387191968412240829373786578967374467504933136915843587732705998201660874494802787474947743652952090223937766592554647847121384508747179123556202270070817571317674223569585410086335456674048490230055642338234161700479999074959089422647566028374832254469434644918899816496102916070078747301461501955665968680112025436721222393970852545209538176307124444051652562739782859407441655991844280577914210564540689645317235491866327490885369775085823126589422427834536485057068551256535232339968332678826124973320517675725625114535037835176383669230849996167309485422019296284292373405975020636147192202706243968932635527114196157800763111678006457219284785040641278279158196723277534012564363159482764614576453854419746433532761907059931284351309426657772929036723901700049532556320723210371147838622334665107420788508893620059287265696082473540351417677067324762209112686095096609919526265805059554972862731465749161565729879211689265157040185387717108149732707967536648205838144458460287280820811360497616832503293358728812229336178474047763418709221208717000276175103627218428701401086438353580733819001021764035206303848476800319132421396588430509556779057737082212581156962019871971788457905394118205645713973162107556577456423332276994786304050614583873653427682290865692889121333510110773883470543534692079507752409540916365578851006503182564079701672157938405749276248748325749272704729255460483190622009358818899236885882615665115215309414968641798474044198617243065465732522880336311779390296691236225676389590140116728237699357694525487708771244170092336011443344863844064405348674010312736456712256413506241095475737378628517584306603805223613690270704621437275181358961872970377703995400204565998313606806992510984350653307536757336979022810900061807082775862253932004657160976057208933849807242313596119869745932061185384174209603629037899085159346252801880739044704265581460509831889179259079376388609828354792810494306975392244058918899026351784328893655514122216088647968457711922069393561490937913861619066177735833619895052614158298866, 179924917527946526574548139767152749636826852215308957491195730137834797738074731544448072872853419964970085031331424438056149149671686537475593954770419710068049451194494281075948013683307156271942755682901852919999524001890802161872968196112872503340878674716253902742700413534937719602575990939733238032018743838026735648036450400301327764221368251554385998177821812278889676575382590993347735534374481353061639296951963710786167774919268286541018505981520656471640457800658694899680461946747480625435031507545637401467417869141367805963799520995926917153121092177618648124055001127709786728272288426642310914062294533293132349232777697740443400981346811476010983717835348370182169562815271750824584679155069076197909572946227280151819224192193556236729601012783067843292417159124726428999101340860861052041875207210209383105115764661554548485641509993091568089805898242829648878820214985492277292509498288249048460575294163133760229202377522903067216268480866523226092828156164912647761277873902382173272726291686095287815875409174259557470706861692817559059657185027729184916771328305272398027541480940712728695712268873951392837487709783715618313048721129347793049720719100600333609355409035406243875820802557731781224033959233280308285835226344013921226532846081177681118594125845808191308051520508090377950579454306425090455065592890272789202433597393094469746960654723692507528310817097161640137587076266201172951335281030876827385813946482781255050678611583975092706759240860044592875640133684809639046201855501461587116114009544743222073000490741250383464773012927330846224761371406759254982083329931765123668976064481016225439986955610432996667412889495455042476727235938984567335290472354804195574412875929422011638929024505946313244147105801468366965918336991263382165757654901539234164060098206281993495775548362245186385602059344859002318573709445383442664159815200434080625736114379290024980125357748239867488362748513241932043654923943646415379713636173904145556799202175120692245556337324891169541974935131947031402398507564307235279643930594497217164271111785557961418156329523428748285918481748579064707473098387997479492657790589439687980527619571046599902417656068295827827451729643332895907729494195279477348237358581930436865076903506286293158267010646743037701448016927386454911744336350044548836537689477584255963542293939695636769379370493455543558885254114228366183987183296086772162998211763963961152792894719246100265161925722227671595⟩

def stA15 : BF := ⟨184198158465770566180398835322495773479166840739144861364774980414779810545216771098279968851517370260102079128347058807754686948168987584879501001602671134277974251091517157, 313603325005741997270230932699677696686292843954570837273233323387391631568517451790653485878821729243225844948496813473078669361982088150274941663870551828326682958222307285055331962581355168820332204092630854082352346920451440425764376854519455917678707597048028618091327302950068087398605623777048650620754033311636070468958666142304617674781966398316286464982634238570965736872093136101061145229428333416785107507028933490063865945882355524737941247293427082044981341804882047155774419940470029299828084818340500033411855834808009671472319015569466084339353506716466844601507909789893384936557237678921620052198510100652222453837123444434867485876393097412009244473835196002747804232948526312144371962900524292467800418437810606870843325787925212142878188642163446268603114585064924516437203625115296133456981247927469670435993432472879921255255273158047414977573422526154071760986808640381686995568639623165708572850417320852475855925278917974597347426115938056898714265674198528348087858423132076545959605442602510529050013015589547146770447910932320232363994336895661401810397954178806082667547955460831731996727851483806008170097030484070893001224600294096667542126720928280631628597131283403502887927185492864833256433698773046281336731886076631097167216889807026776550805302997691285885176907653899666768782590640959215546094821939960977015023367902193206395686289996896580937514483528240429614390312246635908252021953104951296211727101619342011380334822994479045318193052947893396934392607355554528380828832169318886687666335825953305925836867396596375014681674974874165099158127159278512182135800278408729029416269621717300972715445028768581996937452942880843977480934523253918941755443210665322968748675012875724856962695375416358981315339744711925114845889017015494635474629254225061868327905847475921472691894402149926479943924669130628169936720534769851697196870051393688434920893667420501798110731556397817967792201752454015004018892117166514095086309854158722675467222899193067262791300056783310882862585549818206786326408216609555663437901496705552351638983513798483368486035451556194191211379619963510315167836775869698948212972278048981511252883740503024297981325081366086983069274097665569793532225283543161128985768190364308265413176918135286170566242681039362609237685469089489694000467792545621736755897381826858424005694724296879599575155901804526923290566997697891683615555560433871207763532559095227797654442701032104696118491131865949475, 44611615630444353495893094674490109787386452688705183664947902262542294440636827039502537795689202212133632091998816822357659515158201090646525321973955399289879415820326040151964468462962470356417632141553872431568815149249099647486263348478860791251547977618547006467364137418802264084358546260570613611567946298278337512094874313331867198344839809604524018638855609104288378988702569752165348345106865634303914224969809726674635127457643607330771333188208411423927591697289937149594365874631578797382275353592683035875020194352504368804203297316940592122761359986780333055494658150153890290741033287636147963478437184279802047964449785864614214266718599752874519898918421186215191068611939766107321274130102925843116793098735907123650391006803810436759052744510542959245763521348083063167200900670178971532805684589697062845809728686788081332572676874922443305400329647252609763786250407697799280965465840889340829610876021245424897630345609328840243927129330957080247093258064107647115841795452230721026909708443741995744533020507298995530708207757782646405849987401337396873728148329331536965351967396398884634782139630921984302463725914348431688793774705822165577788046222502899024926372798916124133580512843554367362903195387612460011232262088716816716506454068769311733553977034920486230332032555706386784633915828112948040440929852008673905915536911840925764766953862372270262885014259240978346247772947214260200287885762047605145851446268947726715267174176035999100418561205699566823307798606579745074718387047527051304299676440703560705645910002726075361182174724805064371491922715899273323406784760738562413462522388460417281711454899084443769701592197588311199155839553946336649533989570222411428755868186736557241597860449480919124287643186767378332674749247396488079523536654050913169758654896483584380643869097871166628814084623302906985798204125108389020157770773671985420850693329607066128377133266849877869005882021327634545934837066163461998735089881470442654348278566554993566271528729165702050629485088639861486408149194220030358962662572030148912032186512056033860641806041216787732132936425480147102142153856539493925676303075985937830196050332406715475806289647566038003577331035262916460646651829343851151321220616146386939815386619432021355909282268208041120291356394297107925009781048931055304769052065146241806033992892060373409773744661259788130474487129347306076510306636594215022229969812399963097910343218168054452134988451968105550, 992863748968204706700459354496624552093686875226576159600147938712137050174030943693363694582739269866412846175612725835146614561037476864524549696726079109236585984740554047695803141831374742423030959846402380710862332230329590171246039400166209497504618754777839920114295023755122638437789357875558646384107701041269101884938432632365037210947599407434009287614702848806170534351366455622100000894087103594559697962621507924299068719023757026696669148237623357544356597955228766085808849347210860861437943421283115661887581966563025539138103762510942004770797338012066516583300866491219274025114497296877695191154226088421918132117663055467056192046667245674743172292904834005637894440332532589756376352234724003416626635700523550491420331416730458733596392112430803828340455320411230668332318386227056755274281016229541320063674184707070980033867288933922553621218498160654341941196752660671061634359566677491671839173298962729049622151640161105491143032693760309619417307358535505376460981874866078269661944328411452770314526873871170842436238118815198689572686544269137362590014665705249695773758307897760060124056070353290758350417792238145610150857809416733265450924857525904662010549440942186135817069004129438615532311024518153843996312028985249195815630184693258552604502199412433535556239271794545648256082437121589563516374839036616305555698221048676304675452137945686257712159255476993288426687241005730894203286815097177299812364543969991250582497669222500692059302137291291282650485355627570199238947274082862106537635516924324194437195129037413934023984609802401745928544864272154733597693458454757018482988933435348755250930870628434779483134768869244688224822781807154657904738418039271306066173020746337896183820827266458019788956590872688600042374875195480431335035355922635920610978819321680664562091469075896456152690625386418226706465690502649993885673702018582477046556089584335210181251253098420245277767421460368748170276784331188710121930951602803640157040474227509571323367947484181455825626270074070280288867589801485478367415395944913309802027816500495240253729203989680651696637481358304265900238683733807923303208009467321002219666027479000626195300343651143951951232845057324771785508809507168361816258854849978008978824818925446860801292901437828886242014251637502480137133103233056467120138200367895845078909470101268131586428351287532135601300232123423224188480942752043602361633010975529682549566844226552629459359231532003485822, 568802884831994444142188697985744819611080986987377911813001025868943638460269928479327159927631288727944613652208747582715639856162628459851145566479400136951309655430181235594951646546207708173844735628901342073979259033142924258329870715922162526239464422113011082156395970844476526399602107782476439749273484042286413694177673071001488531885164869479526201789901069021295789540578664681378728162767903856915479023463577604242640452735862645378366459574307529013603506677829020234485734079615936638936133305545679291275303070288985138668192598635638162722648729252553836654255374670695555454592154200309383697493560708703461272453927639383631442937951981662415928722174577560018865540025516481190941680640815433750735842686453474016681095912270607623918856253298713014979266661969530674118333859254646076967459866425561331887494192717607610804809727800981097073267785163304726964146392975400949576969018179623934654212060128333667329481628211094135291508946029011135649011015806959198406882965017078259378862386959119673398137905281132172749457232388483700627289976167965532391463113644396998152535707502003422401047513660616991931793262644193044737506988495311551022633093072088650962155207657128120854208674714221772095278848179615682713544329110367351949791921246138497753801341972491698318072195024443394528685664788241927027840589075777778672939486408628354472616197477519576663566576048233793298256823630105650300116509160594500984260994514820580788511787668841886790665255233879700755610506363404936571369617464638433477074531418721756435625637023554066250986637403946672038937224994218661722077799831028295238795869294508179669125650999765408645200125103212926784753882828283516897413373611401740462972500434261534600434528588492622903514484864472891473059392227509510757735816362639518039419117780732361228218233354121239146426300344970589339277549784138161929083749918349086330035853629684817866733489018338874580576546792985993053079797137145344423169629199831579224878526102566495635478871725212292876097970929514513497322525703913820448505747318135905298727232984530917013778406467603639393295195432390280958115061264044135226576003146712226563825573276024449001659767884319561131862106627112763212091322457504412131756353158140272607460323716664563476700012796308666557088627241691806122008867744895689866200123711848277663718060038229882797897387661026834481928362986774921756465270924193677126106023318092581917972199680564766647807504230864982548⟩

def stA16 : BF := ⟨125428365407917176663962478261245978963346170170919324609261545780707947685271123461657127986423935891780403622934827433992218255811306105722065452279839461208055756370053418, 227616309869034159698235684829480826403052473092003471250232819540320986488013416739144749321401761993488835663623679614961925751671997184882336958652818931658410767021306881040720263165955144214392427315571564905693225710378162823883270033496289908522494188671456364405754086596560510120068972099736267707666605937175007423014811587256080104690266216348331799268850490691601139685988289102546688923377789723219781892170098435151350538962816023765262666990762761765348676172392779678324876860241129570674219107446015267406513352626675137889195188406719301015281185477345974182408177155175981874090529526359390461084526446748740054273268143271341651442984899477853836083155940247366867243427096931635412145333105189931836820462432758838832115152633622364244408976066544321834192117513511571967672550445858222884665458837086969733373188454341041301760669603555650310779402281674971053845434945748359301891817548061308882562501441339728425452354683788098181255320916810620276457344966410782475393999069137499875846934933273957379503496884910703475183953596567781144761195230378494643309570716704535229491102833241045090961499569427499452737810962376682340797371772494523574070701813408303862575843201203726713041082913590401014666521380565917134902345524592018108469624168391977728415073115285151139241964345752539887931153435414721314566618354874360243895034312041411930374685440432145109150685864388894546758129127005199610854963973914153830299193255905711506434649906244906076787032431579018795775809880359035573823192757773021646055429345526514403299557329419463233299070364939669179848219293354475579333140280388635100236975259896256531041136154548057506827802069305489963243743777947992722353193382890728893269976597496626104830739116658209989413500695307333126179092059368047730799543914987084666085560368908826267168398895769217607054028611277275386903722175724605019750753318299275167086851818120516618957181505653923818697096656979652397608330297195036728805170415547586794992468453094409815167253718043100848290321639789196188167339569019139299259255879708926079229962378553533133453222973749008806535731793551073870954402315531821432579292458020020862122077048640829375509000952198004548098512651306155105637542217822608896811435749268372607360451779624358456959471936406825215432291288762758485004135656136885160937636381152894978579491868544569346468859846815251596813888840345495592673609232058741688542064562415115212573476630990851397549860782974470249, 870016032410992795982907876814252865676582368437048202375432112357334145028180598672419122453681076137024717561861701358192835039387846028268871230998457691372872395293899414065992251642967409028217026739208454679983451868446745298576838448674772697418801528938117718609550275818149012115551678321182208962366056962041976191642835461119713605853248393493725081883023745198368140826275715790498271928806504100851876017270546874444145259162692849517849409320694824924870166204383339745654305869597648475267270030930694497240854702840685309762166421678471267320297018994595008794608294793001700931172662333476959737315538257438288746696046950201915813649993885474891119679944663236785932072031774905357839030063643027397882231538372062352444668055231912647595275453045914514008155043920231971393584128941259201306799344005294142294862267027389207817147853488925586887254052439769911358220211294836047331568902385768888235337966554113081703288085397787101067082671848464041770549095048881751840631386147329749662793265279536370213087962164228522151939758641054160851913404503144987037374833132729715206309662130069881027792699540528337359307726928176971469716865419511370961925577098624690043148457112612973853978359211887262420649596799767692983883517159974144560556056356498410835344215453277523605406202627738855132025982127206826445388858652194846457012494287032560349575785294194405589663274995835635588332267825813480733263760630987254797510430327607185185979255748040891739580058480365546125619171835170044070434366749157196103307255467171993011393465429508004933543718576521121108781437543982690751888961339853395541909986531939578897083667321114769834570348167502688518070144102829117976846216475347812931085338040678423078499023858109053522129195099718288507315617498328766484066338119440118774699283337247015418962840895756756705832778686488211333631639471982476534227358703602184067604840366341240213784172426680722761214990115615875082383377517365826353567689637612396978591785201668404570498841784089452393066406286656991463293234480514720953586999134652160492038831494475228068713329744530953799496761301276614296229727293818913630378759657180244600898022499216878160269406270805760430558918299346636079290901584580743426089084167281499928159681629687195590395570949932653686491079497107345330653634670532281435382063485812689640297029792316857515178942862371859644434685104882286488145454128625439002100628275987954795505833356341303429812047894217532021, 13320849467843139398954654012090553962550212503142674204387603692637605263191491864075727888210212833517451460186729379036937721686603230352013782096693156448966575592940330296181089664075224420880053808144362981199936117991233666031477932272593382941007605582258345031945698025561199904071737258288291090974338645899867598611574642941992371325388148937099843226498789411758722406014359826646359550455408120965161420131938232747825257845787913116518763825813780035121257684819767762385943466439510696583210998705181771578662583482312762937203065772944774519390080020442058167490075792000147317690115773239656544321750516077497046157355775608156103999758010234054933904679704654861491204998775124308948382362625909336495741570510880101236908539260564164900895503229428316112156892730946980412729018980341549726645271803698499626145667120719013106419704598747466784862391270145190438885279048990510486466973929944801083692143153727976319645953557353410640958045108318958427507597502294336580009969650124446981479735268437817519852992946805551376925467070425966919893697394823378149455281267030151258366349858301976367572688695329595963951353369565357580819565262939681587738600427860191894175352371079453097279723014069310629269814052066402250828008130870844307607051417485796791453671400160618981340354149008642117075428154199251537042703359107097886515733335071399117861128159026806400618073047417754904055162444687453358310229869576388484053813102716511238484213370476124015074255177185936925721862986660733844295667590606345319539755275679886472309404327517839791718214421024502091519055045309261248520211320217540596130741389127449349459179234712117786998176338647591087848414885284548309468309429292072305242762183009612169417420227926989552976907177130508326956502903612784588730374956584924124516177971531047301155294565330441082724484309917370015694730855226257887016269231356578128145805812106716520358168227110847305216561950755213311643372212640838173180506969372295175693936500075104869474919305742727776313441215964626056261607804870647638755925223217168074105132234429556899897926959891936384468456195190158467437136580418159938279510346329349832387345641942025584704305612290606645172173042898129819488931219397811186282195962284943334223910924637981002209240739274178677498760648806490227820666849746183225238545457267090928032800628473517317938486924137872305138501412143623924749110200874596768917291220372352557538279844773500288510553973730128615, 133591475631639029392254154457767305780317151050485929495661953701584686598903803854379517501616112298825339480823090406188204260987710137769440799898896873000642423843178534877037702302865253747368478653842128686329259226657711525880076390456520635465236456613172158411030967170644161152674905506067631079714078570469368650661287668081856605108821164047093031733809692825593721107223238759339617319831818370779620914917718822305431709342856778857068428959223585369147946209508541349647400629841303134750997848068835236075116879450399085695115215982385998539372068743551517840073538539178264968831049446879585130301177867227339404763729970760161333454338864270355742653560608787328924128858953735107484301582707446799362408333944668101656487797081094385471671205029971736706818753661534561967108235359089048464707827826795216356032608312298257878300878541154819525333756638906314556517887852410935459434066753587462091552277454421417173913306664450962231579053689593532804443219236336743366706380027523529660743770987668791435738909298874082446952711911426359162604023052932693629399107295825555929782300146919766585561993665831955724225279350963991199649601808672823571836648101232788446877856912857882796100820266429173714942113887651868735973073707115954879500750701461000378178877395491600378520362987049925654456210981325227049871120259922605389413783502493923197636809042537922039853133545776816452790384401157035542625805977065507488940443555793907463227744325675548077516895775565371042899406859789249839234935651324806696343570285851951181649620720712869887161248509358038026881874004221136489713123317602191207356257004765498243259122452755628143280420003409261475452626469808145423034713029329467420464003106838331886704774819187576614846854377820461187539611744594092095429091506129799251943372795092634432942576718917165818426215145836586373489601900719674760455178190465688233125047809130181089157202455379977757434675639128266448648984286693712519111729173500936263079534275396811211819226394574104528239563205157019373138051248820410770236766107233594210826214705184301037228971642563739268934046430459985170191605225050332492628610121899049569381313209409359676189844599540456734433847449557405672289666336436045468507854267360979565752485657856293238898449321986097776324468048487915010881969200820322866203088520977663989805600861460831791367716196767175607843790312157598538273059066731227044872708929679295788781846931383971008316281610464190572⟩

theorem saltedExpA : bcSaltedExpandKey bfInit 0 0 = stA0 := by
  decide!

theorem chunkA1 : bhashLoop 0 0 4 stA0 = stA1 := by
  decide!

theorem chunkA2 : bhashLoop 0 0 4 stA1 = stA2 := by
  decide!

theorem chunkA3 : bhashLoop 0 0 4 stA2 = stA3 := by
  decide!

theorem chunkA4 : bhashLoop 0 0 4 stA3 = stA4 := by
  decide!

theorem chunkA5 : bhashLoop 0 0 4 stA4 = stA5 := by
  decide!

theorem chunkA6 : bhashLoop 0 0 4 stA5 = stA6 := by
  decide!

theorem chunkA7 : bhashLoop 0 0 4 stA6 = stA7 := by
  decide!

theorem chunkA8 : bhashLoop 0 0 4 stA7 = stA8 := by
  decide!

theorem chunkA9 : bhashLoop 0 0 4 stA8 = stA9 := by
  decide!

theorem chunkA10 : bhashLoop 0 0 4 stA9 = stA10 := by
  decide!

theorem chunkA11 : bhashLoop 0 0 4 stA10 = stA11 := by
  decide!

theorem chunkA12 : bhashLoop 0 0 4 stA11 = stA12 := by
  decide!

theorem chunkA13 : bhashLoop 0 0 4 stA12 = stA13 := by
  decide!

theorem chunkA14 : bhashLoop 0 0 4 stA13 = stA14 := by
  decide!

theorem chunkA15 : bhashLoop 0 0 4 stA14 = stA15 := by
  decide!

theorem chunkA16 : bhashLoop 0 0 4 stA15 = stA16 := by
  decide!

theorem finishA :
    bhashFinish stA16.p stA16.s0 stA16.s1 stA16.s2 stA16.s3 =
      [0x46, 0x02, 0x86, 0xe9, 0x72, 0xfa, 0x83, 0x3f, 0x8b, 0x12, 0x83, 0xad, 0x8f, 0xa9, 0x19, 0xfa, 0x29, 0xbd, 0xe2, 0x0e, 0x23, 0x32, 0x9e, 0x77, 0x4d, 0x84, 0x22, 0xba, 0xc0, 0xa7, 0x92, 0x6c] := by
  decide!

theorem loopA : bhashLoop 0 0 64 stA0 = stA16 := by
  have h0 := bhashLoop_add 0 0 4 60 stA0
  rw [chunkA1] at h0
  norm_num at h0
  have h1 := bhashLoop_add 0 0 4 56 stA1
  rw [chunkA2] at h1
  norm_num at h1
  have h2 := bhashLoop_add 0 0 4 52 stA2
  rw [chunkA3] at h2
  norm_num at h2
  have h3 := bhashLoop_add 0 0 4 48 stA3
  rw [chunkA4] at h3
  norm_num at h3
  have h4 := bhashLoop_add 0 0 4 44 stA4
  rw [chunkA5] at h4
  norm_num at h4
  have h5 := bhashLoop_add 0 0 4 40 stA5
  rw [chunkA6] at h5
  norm_num at h5
  have h6 := bhashLoop_add 0 0 4 36 stA6
  rw [chunkA7] at h6
  norm_num at h6
  have h7 := bhashLoop_add 0 0 4 32 stA7
  rw [chunkA8] at h7
  norm_num at h7
  have h8 := bhashLoop_add 0 0 4 28 stA8
  rw [chunkA9] at h8
  norm_num at h8
  have h9 := bhashLoop_add 0 0 4 24 stA9
  rw [chunkA10] at h9
  norm_num at h9
  have h10 := bhashLoop_add 0 0 4 20 stA10
  rw [chunkA11] at h10
  norm_num at h10
  have h11 := bhashLoop_add 0 0 4 16 stA11
  rw [chunkA12] at h11
  norm_num at h11
  have h12 := bhashLoop_add 0 0 4 12 stA12
  rw [chunkA13] at h12
  norm_num at h12
  have h13 := bhashLoop_add 0 0 4 8 stA13
  rw [chunkA14] at h13
  norm_num at h13
  have h14 := bhashLoop_add 0 0 4 4 stA14
  rw [chunkA15] at h14
  norm_num at h14
  rw [h0, h1, h2, h3, h4, h5, h6, h7, h8, h9, h10, h11, h12, h13, h14]
  exact chunkA16

def stB0 : BF := ⟨15626778095255014021106479618769335377658721381153729291375516660070241082600821308995433114670666663582512120720808628011204120995617913149661681866723982265539438802289630, 537179841542993191098339641157923180803953160565394408945046611584896090823003114985286906276062572183924040787728779389172194211334796375458790150143412407670985543535198644365612577172801851004421048629925169632514478561141096844939019434776359523152487067537916957481298348117112604329746002259610026828086393788350633624852150596146169169831156903725141502934539680578842759150871254360232070516803067385783570365681244159647429590291436388741003759989334001358943489881557377980210379381481831483202708286458968912836250483023358394904672494011890055172968866355504899268176366062776266234022642461888537311060730203872391077639643197579607874777709849763675307052693803551214137582251915218491180711801563636564719644683930625767596293705145257336209800302977549611401764301783367254272896694450648076928844520940240856996391166370524064762783556137155542463701403150888945266116138796577357543501441227174446935673375064716243596673986542391677795276536005624261065065583255725535916000295799971848336556409957314639473936315368198264613607602931945428618895787584382677156987307118844335889133055651397484019273872066987949222214275060031532188821897610107430941837252028550392514695590424350155399111088201954904391980249976912442737989097527267651342871016595705570900412252175360449464612674933409772529851698365219478629214473670401043337127864069875158848577316594283487228161553171374116820603683973387871069605175183527013315640598375365220789548283325752706370452406842504220837213595567547562868230952842513637115451959443447776774806100545553521170770228043882916774116176642593987387914963078936708210379390896626804005780633427516623543527690447823247016809883064145871335790432510461693881091716018211613055261127846757229546155973372124735083944402678428512058154946565460300839213757819358098684269810025890281107932233086434958786126467508639537280921588588872424783821063210095850565701945029610040246088471638193308025762836863522232157740805970564768257615859410404942811219415931823320047769584250667291767212565962237191514508032119279173157299120190383868890228657426103013382417606882561914384000693547752756545395847941761745256317641652916944320756752949912213167011809112599859519768506871034094812381009267912034195433994300030797702795757468812279050060920435950952353168251575227998742766571811420077310499731933480703353259743704711911113226446542397879411571916727926792275651237867848966594152136180536138064507228531075909178, 935026915088717848844205397502105278323579296304587317201350127219556432691950994597037386302117724941145602362540402282680676945023630939880768169317174460070065136999877928792246954073408847272873283923287158175234520010658120049152365751709311461650786058793865553074753131277134608748256456909096674539168832118689313916902754984766610468186028104277756382315564558974151352420674141723444598240973070676669167393339648755013588212056060017800278277752055322554084345998649099682124757428204677065358907391057517286901142354577330005546726789890436900288029629058714562832828997706305117185653621676581183310057803888013179896139892363139210854033027875353397051828108178426129100113254518682271768621466380330515921615361899254301691133360972076533940307787800196434192573047673115653065365884644306374055186072370264327554981334914714491721081896204962446489023865474431918201738142151543943684504214943157034066446747696430881629537050726858261826662150521991356154162723695824948738286664897936286872474298787822886245107129550048642057030595772222620515759834017379042833122197075660888247316292245244479485493272324328218416843579265747146125958330684632042574779304643103483547154265584095864213135062350122101770552148541621966299612763626139115086969232551120600919965264085167010122109769074333286960460669385904050895974641954573964098922056181441795923879115418968711492764138419692797605832281822192207697625689094133001584137495061313556897355865022613561381673275333009408589769676035080050427639828094634635574175782743200905829066261975521668025782034217545822318020284608652300771419206799344223589091653270628185799992377565175843687761134807703840407190723891994183832665331966088370860899421585434243732890941490236376973479591500857338862858654906799427813241577505885801355178599839965103896529667434617637316470395450456577101130960426199504795822209637327593673025472355235399519092851139253475543768955246820776330490201234269930294721944020327159405464283695506491681408293327062017599129824311976849480408810867390418207105498595661247021670745328623685704595614880865302594907884404582703176264850032684568517428435094480588462464544620728408114856696399629141066709537073420829643182392147937732405989262327452814598496606163231929638643271050873654165285991176928828275191492186389109872006904266510852382607527855249388056337739730398688267654208835920170696805524350574973055377366209508375695985037650701259799647213488021199980, 1038574933195459614114817035206773817943616351030349777644838813016738404235273613809602617517469314706581464206866025775272941148914181022145458851068565968545044827280511956524654625005103562689235276715955489849454139198973100967403919320561142997820344747771555314755420683573209307343138306521255231128238082356178592011113324955277504464865103345083455987453189704075729690582042466702910443063731463137652431946879714708550036325069749862535277848737738302096296165516215695770925626990520784719391470675724517779267593991680141673715203587709312853117920095612287691094870963701901502454431608441513499905319012447006381795768970668586942799235794267380494683686206778176316950699317410106861521835003323918355310757772536433269065431430192698740957560719433546598699852852070541242796840252150006727764071397105483277988958389954118283734055565576663844211830290857584798079938634875836062423090963504408325066194920435845573762771596840753192154555083950810193156206154958847121795115767484085097057821193118926949582921759141141777903518131953053243810613038634437206485176652313638272408277107271636587429053249483750704058107262411215594655691807597254519591826426307097163508907044412643741998830213994700181723148943806947796485479381371207907363826153858103099867178356682796208668023459817558993556682109082179275116944045462790526534731816481951818428824828814385492954158145034495274497576872648134197524302616392971002754031634575650089034219963791863721596584357131838078011468740911921188747371340780962821763845396273429265869184368346852771839369808381091225337856161172706302732316111116811472142629314574672717944941505229248349758947004535054467920773382124022833132046026778548715513633932388945764202409256645102115473539404328312233293201381007310490002124728980694349488522128894436149311449564188892780367908018457356303892930359566319696848108953795715449255327535564621208864208401420368903262676101785218235793101310463851020715624318953393503916889849513731721250178025952076798538741991031265210418431616878285932884297521670720229790065140552518908491252118164236747656114920791195110205144557268093488582295902651903803620308240979327484789899709360696534580640007823382144213618749832246209064234696425375424643163622483362510188722781336967210919882487449393826706356855438105467858278606306724438185287872578988810306398131270384045211217462633601681377842055496677248719300758729707709133212368208736955222798338629398771448, 896135142420650456932793018925487832390026227419395489658984605576900088395542575229837704102157229427251165968220576988943939526816968774569727010728347857696336977665419177449907752802329920613597162864559838964286766486271456057109927987257914421845599914357262702488436075155737820938097300828696514936535337963881402514489804966063535705713069856519243896573195642338499795303587595489962045297416122273967059389418828429425783088255429973803683739606010307566380400585362547530731107211217135271081496837323718470929329805778260287968501170257196533606920131211288047807457047881004706948403080929118588757031065421150979123896505957379921133227599951094772915400327092832364522210401343730679493894736612155246772311954457541360679330414259931296491927431805185128975630180899068046007207410828670425499445372190899340021012829050165646055328249078857421625657229762980166327453476392126319012894364008862253408583390276544631628182667067373990603907486767471084296759270409708445140977542986091296909246239708603777973971679725887275373549028210579066045972005541078603942940326934127782287478842641391151219795649457275225404111204723616109541571791206333100652122483277259310080399130276617451881362278183787770263601061262821570287806366639611247515539390651112711526459523459863453668901992987979823019784607688170624287677727295872402604265238790911006157416892536701631405896257277861698393332409630734400378350888517794656046459253359526215536386169096804813594456615507970544577926558768494923628710727818578227111846827929058031392730159350488964251402965209825084978806897017607926760099218046998971784551089106066881758673138316851417093981565134443937821863752687757976203818440756565396314065521481614616927631555631565503564998919397996980943268187803101250854165370297296123644238697265108220102746709452138693227925344754820354855680883453782167795976087221827755636700165658026566766735658994371689826466546631382849249661876692903978150862221124501450447045898633770437716103878769633482479542157040550947858507663514858570375795105850660211220485828928162187772253199559457191882862856630589512268085387408421896422908366744711596408829090587926892099908670453809278548075840317847741238838306737861397057544520206745415352966788447955869700412786303965830454606183641764728388897143706884942626266468976577846377710658285867577080554970666824574544080634069464256651725339086052851045392916503516815433722827029108434045724717138467647478⟩

def stB1 : BF := ⟨172815157722715714434446401390790801005153712281366674442983234428131237726175588965938696389863679317412768561448741064157624316121367415696868134193752673073407973336286228, 1040641176616759926013824010771324697948855310686959435061450396260959956886067552501779774288391316238685840146235370775983109778223632543194951832793734421289914309125871844568254622625089974959471526034954890704616631908362694335161981608231690738125089339085104601882689375442840512275761001536308511721163565220378312820759711004278866069307135215256122801046361020028168616953311296907218378320886073183309380574179047945631423873957667325418738743307412420840484306582124359098908086473683540213928183078626561119642639194705442330085133226072451744958786599800951359434033902902647777010578132687002413567603080026156996772721882922915176765241120943185486657105964873033862332290084037976639425721672838203651257752000489674955451342464536334126632206573333799217351589846085730377105361677830690098751922773363708180534965954264710307953856335414924533021689322298240874252590021303357498397928750155503971402204156581063489852302388317400695818226731739045555410029342208600038548135136278258474749420261813446495978834117729713438229001731130185780228958984270205785954565219349551392526341818005687555825949499218366738941099250341375085035249778973891442928890268418327516451619993887596443252957845146624614940896072733100600150395282715058882444188105866528763877965518283118981375893691864444093976050312902149919196642360357674827456123783783441293343055356129175419231969033629564899772806900897432328630354540752644474026325924738404470511507581072813572801627445644216355601390639150898296934513777365018542472069059742133264329334053292355702374558888674377444987440698148918948408559741934467342701367162898333630050140579262372589611896810185715088961779554768203084415717008231382898808792265684481246387126302913920642152483071424435314301574204952777103421637681327194239599186890921961539776806365457069368957102984052895030682455666508646333816036053393421714564746657865177012999831185203393069720171988670701903560303055483803501395307689543750533109601578931328661876839035043198785212192805768391961042825910456237860132116911923385554177465119795730626827846455140009215737334691313832603318106251152723997170427161633694095128185689972762124942455620634643922685827611610027062249586086861037683592455102914967691093375066847292546259326021187611647423802768953151798734862323341002484873055285440571836208765701597195682479993092902067421401067504223985622479358719947465041089970340209382919262651523112391611671322376059380657878, 586064527674212835027245330261939678635265752865265038853250612772362799422751828490315450171216739575156097219688541994268891740076563784776836514098236024418259978956653837599361709400225080426609846778112719578152619060641536708993885560870769247369068119063634534420284795103322126224457307049023094839708147785122006215779251584073937446880862944717814410164716415190086685737234014995575390441491229461509182565945413975946221679607249737300772817471917893032312735497797628654292314245066227202218641780160653647963973286652969690618492847628748572147477158155078187399721454168280401704928739137629621166774726922057239172565178372650414689312097470532363304790512089813660937165383835958763571958956619381620499554090931119153641872591920628722502206516840298051850649657638686330501369930402049580868513587191518463712714370623971088821512833816759909099764830814570530788919408907813772607127747084920648784107209041778463895693282712862269678932641104528574037468884511946609054132598200011583225213386116225070670569492846189130913375102021905872617673229097531955156129020203371694742845557691778983741001073782638299598930166595649695957422437059698762706830389915634410303610403493313813285377228673057544694023960876070100820926915330946781851093679301140580333479756617395242970232564373625376873035786966395341576953646091266807006255070943494659342134143179417619536625794684821208489558189804602618774891563946635971206333275378402459155789414192716552301359090886751187258483615805326570674632299521215110813676487264390199072038165562420301033543374909583179251201634756703841030448388662633719681433008623402057581713045159795057280699297429067783224919290089174947240133365790675439630613168378546941133559225425899854015401425907632562798073204864108420006885530542837080356735185885313878285551568785061212719417821333795235692273976011687872713838865325126727300779305786214626436530418200408971938053692655191743844160699511469804690514080307770605431047774901036401035954830752811059088781589585943031380502779585881866320032776488526430628154569230512777994311422576953866264882440029345402913736790530465848184796987013684160495523281756615038361662583081303209580759020180396718396227212631992495788484380143245698972317028112739555954036989934808184625107888219414552144114956698304548046346919794358037095103557120673001737084398676924096597765847134437153462933121212789090504755516437642482445149746616141472703617511116801297560, 640951511417085177600598812810997615442587200228867448760428097215242939121576924598869067845578332308921903285224879005854870915449728099311384282851925538473072179813512898973579252889288428053544938984584439528853825357595244910366308259790284027824563783276954868545937780132417522813174213412551709473976914442241424302897367641243584825893445216983554751604589603582775877896589033796449740096715491519496502130800246166830521975291245755997788227499752128963927636497384358803392008491597674403000600217864029665618990680508337119372620602877612545871894046660932394734202598886382560296844671603986455599105233819217735959545438760679675584349696676880397205548939478051619928746146337087987297980566997839390671768528690148956944511201075442299500141578931651209012513759690338223958337440905025653491356502042307812742923917249325385861934161102293402226709893857969815305270500137720407455019271273524329980695495698438202954297213190547979920368548847736289028688790432215302182360606383762246024136497972850011769862533881607780221796250330683327311657735428641944841980236645160794584084530682877121029026816508894666922550485953068838815565411505087788446585518192178310274888213441132003386609643561739769159803771487310527164280152708547043138727975680222054636906589112636230099283743116139463176199240691479193000348906547362438977154960935042009338079516298585537139712586830494065475801071791375220597540809673664200407660387747845410389254643961177785451752933938077623552277398046890094254006901904082053112574637556582327471465107181332320236449867760855757117458723495574146805031950758108797063047072550747907412835820280207887792743869446175007052970958187739936182811443689654578246495250728365457221453527391389383920345080768941527467431947342918608886628993641719581904849722791675637858880077725136406191702546706767939001324141218597985442350605624591228076881321836126742505226970407837254633155783247546225613095277916396633381830179146323825325884326994469156076135961720260890701355628034757570922034633412642137916415704517124691662476263224238076733991755953161123404331776416304718682256408848675303447187462121430093841700446710603167824577094489361683745537786542254736035347913400649748657578472337051354025906416512088899357629294513933994657514053258142899124917110033827234339072965972576524807132756118236609438862600395117612026665904333402949635626036108868199535118708595097361638466359742831992644545988295087251802, 769108927170217870157620011181803533681966719370135314782357962257900123003359400603250102917083223101463797171813832090634444859952653811439497077863426076926808651312087054063855838744453739586571625971923779145726226474718611002399328752626609252956841396875928694717489881799878098437010157426093357000766563604673109339508401446861693751381053938201810953569359587111749949253985134188357974719613234529237954739064626271172665981374500782245984012625005011123772937381320126316975755229531908585196012076160583754364976656965747511563727263363609927391170553318773943133083480745265876144403464051364834357818519752642264469493344285974623908158000393914504724270429579163205223314899796537988776967018873137124043915287191893456309919429521330226209019240825496805350210431763199165554544037389426041656805763198952624315767013021398669932520398877985954356047141427717493468148258269228521508334709780766075906286058688226650175552073868026099960819458397476896671738635424641751751068899343915936519055341006470804010870204778355390180566404441382063040449392036184872722536379514572875007716246634975397713810724791067162830816346941402119580995389448351284519225163633070312846780317634581625205999609030565082408806564239263500425394831483761430320087301906320277168377999248040756528554998574299944374728309366815484907426158142839284690483935299775758196054936923207186041841317726947749297031546444858519101055748810413559760480728391112022130949101208890834195339590656120158023782619673101343177904483697210966835857411405514119297834781870565602884565513358345660496234237514542783569775928999510645844726609696386930056224812356671679540797742095826375002000088961330139323418120225198444354721892208700449620765779005146263504923765800704537723919210776703995634761642883890894240345950858089802909132608576474682513837705762622958310907689845361243024842596751387126416291838327608479559118834848059692661010482226134526588868440644634876493086227350290480460636412199606929755380703850516846407711214302184526320769057480451202229330979255531186103048335150453054094692340861125921557875215934030350652314085203875931153962057659220493574541895432183670263172313172928936114041698206025595357207098503372522171881586369969206851205202858916763217812242005284328746290497049982184016412310908607484372762681509255889010787648323415457653120341497686686062392243342915989972182689987572915547066680298827309565857754101575110666049022541060690310⟩

def stB2 : BF := ⟨179585490638577464020400329985055875284134978898239334773132841495553218259165290506582091294089418776250392696234686835012771322382273995536409428350865919566067423478935004, 709597923968548963930332095236163026826050655915098824699442347605059181451067467721626559911693885808513518571262168188393805928971404578613600664408771478713754548930602416613232536937529653890682240757133131150797490626947012218113754081277120112643873794099755947447624787415702249560504778846367647794360489084801288300079506393786628214481127211551013498683757633339830041881509990879409344976666256174058380187878780833025535921751836564410513957807840216024078286649122529616794942174617613294991338303705405977141827023771702287539164455953487696239361133928822921384623579372262857158922861496292073982485580212515941343053292133425684378218267683343471824790061952870473736904602761343149688735286979314058420165105693051834336006024437280081280780094276876264993262352653992717435468569647940373369441962417456047085153514619918432228378884658923123872736263368227503637427293471007699782413627146833057288425525309262304329969639832784930612318623856310732599390823065207169077576340668582115869088584306858428995622662533686680944428404485853533089625750908197510616249220321583083393366533914380466627317720041132033219238925835476633600541150470601899625533749872209442071128644231054606435190551284425640188414453847876874983911867634872234639322003912236945506918813127547356841879973080941439811020318268908621146161901915367730284473656417075070887505032798308845339795694375021271020399535613643643814489011392247154638980676093186994434133654458740340900856393742399616008379848008723914114855734822557625073160153679227435297551600106792165131521475733678264837996515030273006636360890729712155945010006349299784485216228948198429449175609417194428080150941641814968992421187421852819321009026574583960212144874978206395172274363123119008077126166712190202903341333463085525287104627939163413972303776102794499554637423697698223221667553235249329934839175695893518415159557526097523845925745360923037857008047669600247229922410456607166418918742772981385600412368846280926579935961139313143689160189583009178375292227952248408343518666798368897978928625504493381437994998004806520446575595589104727627367728667106918113160863502746935426341756191817234674686949191961196260068861697494425841569525674387141531225909718147598455834163700186716520403769975153628621715323512473250323402460864722395972281582933350762564856561875929873547273300746631791528139960257056908684718311904100273978743129700273152561938205308091623889967353451693405973, 40167237933692671802275673610308471387763555604280169729715401536726225270831900859694942602853255122154874078006111851203455632554063384636748370841718769806499865340763924058521818177731050309528159791234106529327843825509845644386506658513437567684385169466657559195305097418889734534781316289698354557037483672431350736218798915084476019844720798998597415270776833521851452795145074839090132835250421383400492948194436770004417559291534055605392901284781473934516947754413285027138162416578127760976143942622333905164751802971975577488055713782868695729100457392392611860367283139767944401788766982592682849415478007135789182475778109218945681890534403763203531375642118727699555560997041678431871213930174550273310520444818628979069865051481192760258596426038213694456404143426686979528631605784806543948128601979247494338232266530885219887393863101135364052253319393815285646270474278685281334776142008457787936476556218646463866765076545257162024104385938187774934040431371085096851492490748172318358177236683918825151257241345185142592288241404271163970534279594089311693475693193565896215060559341234477033876900825706233008292713821921567846420049751491566873193290922011706697593893620859469231210576864584939408455176356888058708079525798236885828285030063508064738485389763302500157366384898479110631763178712885952936909261271201033103323279219533947621325685871742698575308344922409455600574642524558514032207884287043867753976175843722658662135481670437371373925924130756430204037893024879510362799031148660514359723392711848447840159851457103609530334083788523611703364142597027505065772373311227933051365730003381591780703667670265640417454941449858257297818129930404711602392563497028823073339964208766125302080214434383645270541739874148473589419804165519129571018369606604083636500541579119626980344904806020578479744363983182839601863091667206144789145143765321570623607870350828176272529399182970390227776457792964846657502305387723717514633441660332176780023242813193141746291055025799336223951612952798613897894180202303177060986394827067382946347575509460185405475367830641912558023614634583237673777613749455451704234895262213839999335479674518383154960415280478248493185246075333294280485246591051126735650636517156515384517852913980466508546398206219343372244691350375910092701097329151802642135777897534547696702845079743594716771610498864143982458071073688862181773739936765404158579350706331289700476487316953200957253055358645466786, 175827452242336216926321650443569637289166470514212910862148199785823389701664837836045053779569280555336451935394144293876220518468176298237129726147405583844582651886884528024800300925707300005870112446876118265516138551838008969172625461015214807351425050853241970202511655570141212274052300405357592741716031992248459042830483454627045809395915290496778816225891364124324729167507352284892247340811720176259367287085006416195578501647145218629656568386374672100753596880566889889746397413783688842351652185482412052298356120477026693908693133038486303986066363495789363622712870554376209742746952580290617729937178318070497357745753228801192178086246344840406048914257998971740607061355531164947056612642397185651920459192634315605527103781401626479933969304720006945505267048290613050482319211902971260092271249435513268858218200320672580418430409682626717047696668453972864669852517392173217631920576328344415183196595311139317453233160182275482378782163492730199090958314515251596561038746998959119956726474206907118789594963721552979702713726600288634474761148261810537587377012315857404911309719109457741512170142864876159004989292534631220861904732445887827771545447640294743739786135380162699923407616500829742410602487687390750115939248347787752828672270858361735591945379810913687335370201887194554220341380817488583826842537730785882078038927620764881977652735751041639944350133637702045888653433498848068567248305156731298721277733174962221553339092729923476926666215870233832520152348384654450021086822879229457103025634127114307573504287200902353907436599669152599597894960411181119121926743012870202937745023820643646402171434203905142414132704833107358573382642898441897437500921611817763526706562857201935086615951475952285473938626898934847251515454788436448642370339138872060820801010925288186323017947039628362103958057100099349165640976226562860273589895160638376698305314126613806652115592958928640687529886177125310024501864462074197599034519465465367969915162655559883748393455922562737012946392319412428946164485898631327917826714664638807293567745175266284467787796265542379970687840368275223267683607654676516332865744281772751644567260271924830769295755815996079431158560690485965722239851099431483843256212733971805905721129425970863758145638494622880386146587747295580248703958031342599312544633761932764197340581421234840490031955094999609922675570310016952465759891628215483365713363995743029733016241497501893487783649318019078410, 384367981604255395325806837618274203381300865251760018087077829030520264438955624211183384834329166725688217652546815739576264868596156660313039013520584364029408539803699099281874692633181335936767571710246313464370628828955537866810700615357535750266353376679597096123566094368357926858145869031022597896671708410185495202157779286610637620244393708582336884180936502185301043729195620842408539374566149305153705258846552969180138036956159146472935748008062165932913168104374887135586780491312006772639450166048637339532728704520409112618171642883583148091862796672552825542087260863040549327047790678914304331244631166846400319880853264543363958149816682291170802481700624451834630845655510678042010285135068406988900549422547118576100435979226440171608686046914608162215934239051710462093778865941624910189251100775985825525706032474584194067863995236217785799185086705943197381063187970959254284451811458117551785945262081901832281270162219370962480920828505541783360169322446572641506543502628756096465187219028350544131939973298077713192612823607512518851896330088470466202039441973241610134130808689989453767050512867568758837650463578252423017886022664276911894841061695348343716680125153031311033737680745961380422873353932614334056168212170820241479553488382644848373006009728700795361631048546141883758010574280457594807126131339435497291499337052634773775795985236064783913820177345020220005499229041774139337328916626907699386276799260103237852183764177793693917078180458403155089681594244298825638807152022940635761628144930611374583710080155400616121785975427999717390977585507194896786301485805422926326116159702721528619995209461460101755947683935250993334548017549910876794624399352872738314804301056754366172015738923965967720321860814615698108968089195414821504204926301797544689248749725615955453441603178623376507924663300957656626049888394250642962454868519375371053195871142850959237061121941023107885302350715424022221762897026813957192496315637868670761286529264781471499064698282209558995158857081139922008145898494785702618037498940108127522308223342958497161080208624938200508079812713306214837591623888497284959007126061951371686370097916888481120863880861555993073514355832428710113083298114442362657412709167208980956067627182312485283820582395844816985538430378810280573300414451024107206587006304642335740355240014222677595442408897513575588742098905975794688191356180475084948294390461183808750843101833242882768948151473592045623⟩

def stB3 : BF := ⟨241577225232126622817250686630979429686254834119328189434589114876661946239380188050211716635765410571909861319081940553959926877377253484528010999874933303947635351240370389, 422963911157319695116072744060045657626019650889258657298736831680968075815884569714010384441593926413435410593848321131721741939920687680695784725306328765804779166294223926891896676300554683707629602468250489436549887884320506069615285578908639441231094115212489219111004863775003200689113862798312842508889214538113328082015937174763585806692556525465435201898883276769513687863635764445132055377963763638773021622852459004993547635811028624240740339650523838209081763516799334256361938910531081442844676939578873562205149046777232849754464471548532372369700354775820696141239296518680324176905299442851259765868104678872744849248774856113028793498993032675572321063983278918661782716296385033002825362523351226909759158261205475567481931084425547112145048103150785445204575112808863734286996423865436116486478479127558415861536847278278348647074975396978732051031819880442844452379963993661716174332287449227718603410768501503110482184593163776878652347210975136454236296066368228896993832507553109200782071596071042812999426633172628238134752145737924284562648860417095654657779186925036205833180450758509867661347453978437775309827314895543714263912061801646481320804046763553460946277788238347113776440691426958487527111769737451370856278667762688919033941758903601838497699753218023023774702123918948603910648963396681962839365350597842095642505094506555116822337603866577355644805028396773329624464126362170783046375991942125642185246172048228504363823053164289800088952208306432657843041087531863573330580642880000606842825012746524639633871709177842982271738216293095057721944998561386467094467851866665881495104753251514743965405578694359804751561886744009409221907931050024317512339747472255758251804853777013632307986494146815794085422253670288866411980480125236905791082089977013861429951230487918608475521372558256274693214847666806038422632014633999319564575371059499549215839485753012134342523594525047968407663681122435095291825870477263854190132820032321618827287817594840833209341507290343867412794674443116218181569895959698976315749788891337196871993607553491609868354900486381300612775744930993545680265176092742685429589375170573086698981941489016771577405198534474082410136447257165566684122778725608837681068921745367295591329295640010603711029576395825788571177087162751403615661988462254794607001989986291439105238910637823048271240455892391482153797668148974362223888021520925231633999183298926051281926621851413593549353090340949549734, 200543820372726703677397131921376082250830024650340485066011389832193159413458051231255258736036976703456939459523176967078594173564266872751763623046972590173347154923390952777132781992079228216859821713376576796372187231258906389391403356293149060603960780335208149895279954745969762148927145429797417374551720056267107869517286060211479545452131300541593372668501065048388174533662591219639549537497555896053951158812787477442030509676376459740503330686540113576634812154007317568622950503040377681941078665695381257533602751641469402012253201954139578054547774379023762942377842004032158239969314330658102574580026769198768277802665244254971035542197072644374397199338577900574478644252673609187280838409651206661216785651068322388372992720757003717281789222445183044476832628087246029161357106603580234868749710051478847274308984820936652717009570966505613719228464066613811608756517049090727526223818861621708637157561744032339840916720267433736966284200083027551694134472678165628131128264548653229602770991712744210168871825941671807582290763969287065821921943465866567033179973336523089238733855712979077923633843452862083181727920485475366047653510789458787945282479790566434718457685434430127800723758896875442182851413018754000134862017264434601528274875849498227286137014594479171417233376864535675440696989629891440303836787494646862926572007754456258519824043024526495030232616934280696849169296508418397868319556058691047668310642928065224410081242652851814858294704132639146599095504627330632602702121293001080963119631882111894961712151183995936673432654280172561023861762842254464668175174202629620848783594652239110429724545999744096502020822351977836845134605562171265246670142783468304122882188173405648414242357246025192094212394043646785362018514584482050893124189438126228095373425718761180420094075230430329695547178494644898191703586086244113017198039818667494038283552070378775513866656321612727707640395958364385952320093108336855121302241440945632518035798635620265497028466596996631459884434049360232011070172067191951888756685640607437762550496088625848843641893077434502885250633917496118955280243129027751520825092916373137236889589136977838680759224682509871511054892027779693420375091078600473275864460836073162921614594927997340763408828487645025446487997348890519984898833960615307637892401298375071218748448208551641395040916941119640850779600425795326665929803014158088243650623631757576044223256184011281450759945908280476464, 358835652501238421212810884037832416801886513240398919862314491369471502824881909956655674384165070736089835203365653626536585164775057947589490664138263876865489930848067686395328355940934029684091390337644878277066925732624427042772465971228979866829966865199742993577703591274030216132638090881671108138433917624570717520556573468818767397814362412902295389035460611298728022066986278192978513863672550313404172981001945397358131533720423764778719512562579683466230744603341666457416033684640721849067193096112047903123015858761478042015805409774133948342521341742187387718465367538667612436329014833268570180140015254262330976784524275190847831145155485845312284333955986530824778252970247559409451365806702516273407190795717488969188025011646131275947453958187781019356466708261096242943321880139757096963526592846503358896052904217783658121340477263367954318955904724684142882427205655593167757104145840710366010466107547618349525977568644677272896023288365154173306875449800331158318345799296352156921160299775519550355277938128927305250638820542112794169512459239530048130312288893986692865951371414860127300809000599065778596658816160012586228491292643395128474250514800635991586274586167476992116143575003886850337245694432559897456117634719872721970440755034622369544614852185241837712060019348592360438592662390216896020157404212630353710387142039343536998917233023131624653110446098326364154198131328179179987327689438634980512621302526143760106474789961376242322678931701647431158453228298630543156356123814810128411373288317861462153854402426580913081037344136755781897573186943122396917043894920642829349473926201363506903158456147806947514381821811719598663275763252762273995784838041212505951492180286410495221115942739956641246581883976483971061546706767705256906929925779109946317198482302736350099580480917458705597631655304666816690394012434975189394331884443189920115152051620968254935219370406478737017397082412674475958525430231553549812108474395269785261231305153970282193551758775273717844713390894830453038069481577916879853071550106228734362089920761196971240938580401516345321149732048112992485838823655008972079595448199460705447782572767270955783251987043351796541201877970917917523603976938675800687163460427651943205294456317943293279367012593657837081842698073480371429375089891176032956263521964437890245650762738747785465123677510155610945405084552026630359062411701620758831563778496599655047671306601154655427751239077913810717, 635809100230579875782024076923694509765060926901267914044679239895204494180634803965844783668801470268104477826666314325663922531178536780319295065619213813348594648148509125865576791340177615831931864314073335638122529514164320918923517047581592518012474761483632679175687002982310457371299501195212983375401601055040875159460017459048644784415615440150804376989651160486250517691973834838864688299872889421180731071935295134938160736463503619560619862933662843378036636395770266889136844449928634539114032100553329633372141014584081437970115209808404551171191483060637568517710869002380321490355760592659395341558685183467135781543480092854246929029901943363916108119834858640387344979923668858337779440342195833990567728816200510259080486989175457375729711039449864276373017846785789257389378439666323125009061835321294377235575374075664373335687860799692221307833722744472052666633584616446196676338267621900654634915111016485083882222478397088483470898345029655804763454773281895608534175203343532421946264925779689219927403726368409873527098489620906364505090949465978610573043190607871688463790899405358541906876721480419629374381239102407962776133855484591713462596007419631005629354362274192929048737066879597302751705271004830970232887841380487277348708089177950892741792305140111599442531102090235421518459166359559347627567881371130880949624125168716356225801052272845488073457930267773312212702869229254456418223694594523474947276662319722196310365337338250424676929958175884533803300425548515063298817236465050922468648024036374925746646165137495683985361926813852053708903896125116314057144994037792430909437143252350093867833862903699878225097550133844703692159337178868375131691256596896382849219465500389767055027128502189392502779296534057568474942529405524041377473502584526290421808005814155218954895633786592692675091160355470324583976613038581588944442296918828512798709591599957008407156165563526018620219392194666708851390027729866640204328320692550649892819720080235486587065085046216538832400915418680603410257531769746360187256745863029360183274514731949560942277149893216106457071442477245835867210934193820824023843437184475955852687212591989169799336112977603653444519501490959275934740119360095246196917948718357035630031891310078124511238460739165366600659758172228182536504260104017459309044794144891645675735028334915813505398548683474441359737091026630280380123766019818110350994443728299692011290259760432516958665610438323261884⟩

def stB4 : BF := ⟨152117829211907300916353204104104302417279730619679885577519511875916085740339937783254661496148856352293819433769983702520059992837888171917682402541883224802989997986625965, 811919444337561916073273979961875139808512908027488622127419391143443748051629095140245801391544508870626022440120314645288642364525515881949428120402427514196160762445210437123101885915252678064513545107817893528550439315053433235595752211551451781711325600938488364994561802446294278463413733753891952727594479058721799802276173903884047495011332406871832824748996352320780788767644640077541652014880750543860762743006422862264973183124664110907723638977916447248829739597500521834597595935964888824558695191790575237734821670463824924074023468344265710075329201973450166678218870428885689610899394491823087017837278632501203404003163147661565508211988188144802390816843389985438846075776382135146529340842228910050023618151667135436314538503097190246569777838537777490559068341583390979061273426845331550427441040695459323113922138274086929645073027788900772565459483141391323676031687042824967061993956103926106029653498147059648570961190049360550557818377399812797310701919478001736373895705915903020133004461675742242633429005814240706272506849065908951317551767692928196238659724632295850910647821617905316148621419543259430649121902516368274366707946852929373868060349124410909643310726414804234698896654012154216492830820913476075062611315344156028209427390393214950477662461396699847187992078190792890169884372392006774277811646595965360321078294566368560223408465225577903017819049315466149491873558497417982637767763736530272338880589696671816332447814272691189097355038342828599599681233078493792946347270964902542920986532910674455435846900241124561742066065355552201594705589759496987562756496124739363603291961852919118000007549355822967380611176133682600367014769129935311402218090358657860757238685030482408366314159129605486029715709094551177793108414115896916393011212726769038594505213818875633985839146624952862602772990626592172620435644533528678149552570568756632253678445141612994632248221362653747665559595673266976825336844145603844394363959501712880101037205969533243004692620376196669458268740063011664285283561637376826579934879614472946713914176923571108183666520973124828136416736439471660527260057812302424812224687398319244264835662242562504905978700718383937027014213970601900526531401264721169956434277069855120455166172148121687387580990348268731302384767100896568686741268026838050284793362993046969584736044261602748787276043073587036502149226676416923727055879213011476061615967340408391995126183010351647675573561070974516900, 209948797011308488677398825375876965778360181886325834410864005680332560928942688255941518534653882411482436819995744700899254330766741221994723972668385491196613126017426865054295334310405825833623375562036277333836700306609897731422283840902019639284364929235282665537335769082186332682923858073958415070354372980118097578963222718259955540563897646199858613999850345008681429355358381147181771317648660893876173969389247337847694232123229740956734206977289200433795978666304162185312684579847498784323382852492086939958690391101353019706197568915994008944342655807873627171588019856570793548310652351794089463343118380300733814589675721023727709485467502607343183335168006964533264145792354846313150986713907869753438109194308018641388536473625593925429496549381967879161849292198812446661464261404415442344751433086446313230872187460525162136449730596155224955059869488318642608421762572347902336918150769376437570277304767393218333612293586165035527761225893122797848283692987815235403928556203931951658073346398327541404519559808639446018390923998800007467444139268200974451729353916375741119451038719108168690114893195777081066762626556520518347533107054374637514237627529880425248590963588425056275589962951749639283139952697866483537304360200853126945099635286719267237062477257082125994824702519642663344120694903366782666583953553854820272161758332620805827282676288203220169073482003254901885554757207718326185552460062872811555099714657518729793020693976145488421671141943746144831744927736418623814198587618072316961981404028507625664227523263401403682348737819019163815223585445348965949524280241485285769710751390429704989293922202012529206533915328018011827592941799762737142448687062237343462822481108330394682987167223922986406583938256966351198957130261917970917544182701241000863918530917765687809105603673499319870579702071690476657968629822947546787230448819735706398927421743317374620631921086992622356843827703101918762136091930576602429473594638917271089872718332296579387204210803089900281454372265307132051396819965131391920494438344327410914781256977122700532865801249096353071139130364732798644881431194016327802412458130298989732170777890012800819554623411869623141927157136545271092730107955769999255468806184704421334775996159756487584591398965001125132625928667067748339043231435869969867483391481473487145726924999764332946764301580658531429226340343996084145772419682120110135288677958004886530968287661719210812797534828004421824, 401247031773648563068997506133255912467155697251476465846048548172407185165230597292741597883914845986437332677640453434664477977033880575624166788958875426210012282835303894204672023425907998551193018600206185133651836938848583729986297501488146216780277330547146286110391686419679709247898111706708005066618226135579734913507585276914627123204042700698918410561182560363673001347634694404126001778442706673981984562580902950659810710978036351170022911366705511059654538265202470978851400471922352299190508387011793407439524490599413842371414965812683623446860290588146386692091036745532568089929815211347634248773950789047255088671941276643738898220115101587927063188706262371802397424407444519527904120173472578154823476960765628598841925248835077412918486816143574265656840209780214604115735619332732757459021686917444739373933395290991144328686032218408455557221354311426863960257936693387525718518188223667755182111801303001704853075696144288504405896160883532381367953363401635009080380843188826760257394170696658508434325578671855120078263579651181785965327451397424926177228311989307979708372380684413895658920958660050787463599625114183437493518517790968495843746904340283634360415896717045727830903244251313475299678224510791574036779560543798472966166451623796090009455140773166682389166899786875170648740046850354515335853354178445220902845897625255961921038001330772243241552179496678129753724789689450964003777548531308199969144525787713701490850031609412932005678794503205799421059021358084794233546917070709679683694923705743775526100497893718044337791002979064426661764178531234464310240254280281542922912486933928031725184070386543951198154236909254554758703794382040079366562871403620407976089092058883662107143417085731340507710955832254050914989869916058700732431930999373228843895291929168410824882470707010068986247576872182836327299151958031959385917239343773842704097977406630671985504049244076580293042416468612423813643160848295237487513136437254557376402084991870303142245493740718645471958552290198550039469053367124016860991529020539599548273707317909798935241277073598871478500231733808486010461961259643214413618450373304126680926565994426975847994996386219220577144599313954200304658991763607743862665751278441870892612310506287793712726846996599381587509013354641412236921648655460750276060824174612611845832461212991761484208213985480727483734776204854793737491320982289240247239471121373753821849372538188178788596698298158434092, 635257314354051832286672285386886275114909469756691862189141033391492982150547491316604458393572198449319787996436255948093634215131437437481162294538885144766804897815044250265680912137911404305939314941073151685772112551122398014789672978570240061198495735146539833308245020997407486308769267641016867644280794513698674655781463024560253962663117518184988306467411332049080337205020834241119180484805740531033932926063986832462223295201084576983772960133091901620795916229777354379872412551936407877526347094164534206327772574705640400258816956913742462490946629341642521767911161907441418585655874934446770909048256933351966768629608215040784760064295123593071125591524064650855420205846850761364869584612979492575749724626245486660531424202605130808696771478026953209656020900891274380832806054490581823941778847050082587410641805054002056208915606790721607650477886889175068806393805330070473716698467117851010825748345083942270925488397837031874151424480541181974217512682444861830150191753047594838580810683493850506061439846652138522558933902276203321418852065383344220611713902697997676327461978694374984349841154817270111149081554575627997933313385682073661071837903905070581904910064427406966607380070104285504920330291170366926992596796657554016466570144285749124556284659456317807318323825831668633044464804547350889090749195522390972818989061704903859997300551184461400747150423603995001199544823481263792911215378472005305012310605617126953475190515567508830809822626899416487362631424062181226235301412960183454288630958419160859826622888461704479702486056296026314849884534663911409393760748207089626507719297014386790092525677326887168814407276847125077446269874412944234663023630778486703959748955128965403320417785362404270548141114592861983898490016270370504012750560657979297215357238807495738987129073925868613321226319725874153390361523738375621568232637458572399726772047741089981336635419331715999845723898526886193627304971127033282112225913550810540521504133148250461756655166179147583996655724552443337927177372209715350732191972247542803523743569401866953177758229097133769701142803453667199056599039979323091839963242655647426400533952169762127355114971255225468803719333651553116256776450891140875596876683679863752584662408932498266604370415502154845155098180367085838952597365777735363121828450815633180760056845561201391332024288322480178972060665268554181759569497379851904709519036647097872237711680911716681030524464865947611530⟩

def stB5 : BF := ⟨232021595450857014707602159197928076933846547255776085168538494333782965039449570534339223698910184086704487962702899121753978867512439891532488721241402493551893521853650960, 830033692617721326795050401668808863108478673103359095748472038411126799226062674531288391973634945897803496094287816557765936048789211329379816619038572231115379009445902643880646588259021908411845762746355310950865207720162617835319956032082270613635656332028970124846525545428481551406174765854887898554769808080991781338364172112556303167400804093294480036004451274203832028550111315465586476577624822518920981673818333104957180109382679508477149923257156428162744012080680030137830554466062030189186641874823513468439047820280213364269394959858895067985358206302471125912494869414432564577137212558862883082898666154276656880140048422137964624192280708170602961244299488191658154900710804278856442270886664410506495082997291398414986875206564457947019118642453592522769496098895779548268701780419140437759087115561353127851604302543758393700496553585478973837974992418971027982179421917740742559547271371458237593688456828679484588815818022655678131906974425968992561291541439454593347245864561172703689852479488217545331080908624591144134740061576762227323195414298543623014137991428019630685507521805293009988229525017155707106422284056550438949032232088419057615115495669523873667465969512251042280724718476437070459496661102674657946316593206771382163778796546397326060838202186554083240130269197856267778867033167898386368611673684930272330129587474547226431009066178924912297762277203622780547522150879996557181037303772056324898597317647852866424103811508456235533159282414225125352631494931511273258007841428405374178788744412826082127947410237564425423574340278109294206408631441138310143685820462089012954899791049985099904148058300194758510828071892216394926428053039071172042153734774720364079643986735044352973503862224216543997924072350891703495332388985588560485458149233873243777555037002774861777815324697323094651660806257605917541476555000029437676830370929560295438907398186677022618587272147317255947331027624446062911364408302479756349304019754759517726899720487075931000461281464362960913789835941104844632970228139398362526787831855883880881667426317532952639556335561635690660127280855455656962603575250570041692359562049528621677490242701330065203615167132513026823232331206294113713869516316056075963222243903151042315191749424203985638620755114959199484361925059536508641198061750271039295749110653944815212688840898239424821414588316930403076926973076049158538015872135098082434243208326049148309299547602096454017892499226982814630, 299542941892353338571736299139169559128608536429137573751089529745888795423324601648339968515510160013029224219537701697719047231350115770602371230486751714406675437570373329406284782178293221150580069771873279181955524514820164077528992385502534250410127261729219238759939067392791968833326205696712968774683695370613176667306442865722788435289079514172161421845706182642201393179964680252842841611984516351388999277953348927834510716691335602026814101031956093377684931174486240974462064632370991254557895749948041692553986999919677143100487188421611259370341336288833294639830405184319895327057018998123939534986864075983088901118608688734307795169924293507414929930836579384232371047089336753489334266174332001614179870300609491099711336625608307200696885882242413130826649698391487770403111490229810617328027924387698402571252734593978191098788018463999704426893394321440399112322976931100574676523702508264845267304603909956412992024387896751916188725480056187829328552519499557922658247041680921973670992825778088401414390060686287919915488244240038897810297597903953047088316051247493542891749133190586783267733216584009320907852722619726493322428049509020849687299948461134198888523540960368132345089256999609282961913936030618164455058847466563525466174621971065168740697731634072062627658961006466307094816519448710813176883189568892234415427658170452345889908543140547485535461465958711056687746863107225539216254533304258043662400336121073537161987619483659028906141439727154721678326292699283043525236205700771120755435284720518881584392112832611132110487807893900685481122287590310932059701251467245181386788267503593319798654415367799388100399283554355140855118657226643931130653706838309422661869024804779962340575893915207447510350680057586270047169597145203155145740802215498449869749725706878725268043193787650176249416300164817674368469213384337830630051511629530450071329426241218268960132161392397569765914798028223156535350512390404621591830180999000590808410650040216055162903045193317510325745016888022233386881913730099923307985382255738180562342585298865757146110656002016525691705145694631924303762383111752037316280120196483338555117327155656044258169931280844806163447176858657038313664489876026712796009093185092646520599739039151463014499989225281919302941138281088301495966868681848600811007454623207216356609295448865149955675890653248166919827739333250542840892385878962130320340800741174655383720541364642627235540636532430826243, 1031274044890857317423517555547207116797789534158159312960137005760301261421788735824891609525487294524562109374856169970234123548149317856389136705626027845405423289999072597856952804172028106559552320150011430986343975372420138221976156062118249520324831555290451120003391336976006149834041766242518925770239079815884661839547667177246088237740735805530098772207328712896493902980991675176820082369056737101469715269828564111158013624711457140634133069820578524254296444397407294815191499074113223195269828714198803948588877375743480287323607029312620351104838856845553308604323609532720778640165946524915373304115351728126869270965259755134247216660409418056462212842856497393057091203355881483390047051008262461267425020660289380742023716235162286734219547932484253252471427169547035608172427518656602806926882626768307957397169040587260972836100983116715622868847937831881070938303405679437648016294269801795639252713114497602743103231968702587699876641064380575545916705384565518520410069456172927171457940400420266953544739721422557014172070060905940071380616604247848450323608556725445353565014480913749948955738106702981166193354806608714304434808413920487810736489466582261707119121507918719422099137146201611189430531853168767698379852388098485667903321528036548098906543510578633493725176813569022933522925785827675538184567255502740004092841761890228789417030873299647029968644399013881662936322921051537364792750272711152554795365386711516195680877916474920043813785942473321969574216618075413117684274455630602264279579783210530851159835202307549472379358794981673744159438522042917981783394982829466397618493347032642348393600939716931756715156181958113132257777376959847026723851956336029719416997574508454075174047224196199935548738853899165529005746158745866752452404267573386303305286401874507556155326860576771851702436434261576672540149273256159249335433862072795033917863969935708175616564435195105121145941253091082057105326591009938832620398030964464855025256641457134578911964983634028731365941232130727943286931987330037439611982423231055020325146700861561999137793494271745453778250808468958283219090217063069232688897095417785780044243297556491966352035734663654619933586757283537252844607055310622396811834203021877581128115704748899166797749791610239297059847870675967070988745413694220319761946302904170176691970773928644011310354174657017664843852432521589038111556999379244917467174320041693326050005556283666209873093049819576931040, 824999732679084003989957177746264130971489101501313250733457801784717788983227226064415302269006374644125084768931268426012399309303562810436371645418656589783343203554270850659955180893354299168498161839597914376432184072244939282629579027101876429566010040865157419939765705544922474279473094809659215654147842799642130591206549956524567018933897210320408403134653236751088453846181937909572968196124602170380315092991758763516280743667778979170303407839615086064566995337025006336539040213409025472770865948879182184072664486109271454123960735510997776678223825098903055085516529338487034235608900318004857796836798742247141782066162689684009991828004636836481193542635459186004903350979587111940510751453291076931253353307324085656435960550051061811050768327170781000107004737218685750078584544931729101505601481978733925168551478676685950375445191213681369905382188518367219209987303309344718544598161838978452591961154041650645835234989956679208316489157375734714065367668572989437862104525309778884287867561778650406210386503137687660405995637801229236254166404762738942614147598066841197223481722667246249096136957314288574389382268690544379105126729871857152968425556079806275237906715042428248577621094050362318129245562892071943160668043412559930338477626555223638078937211786868926308380622993740190888475090556768713629688060523066664106654313242450315216392965818953226304877463242673844149754591274275583474298421212268414422602493286599355678843675702846684046996449291569808121413423356089869767767364661357259436854134956472999452286733634933438628777790986578693923510546639715499578462504578752061565366447623602126764804749592363105703940526193668796989543846796780157132720447779031409143976352064161886877570799698914834280989194234083796547225930568276118794429088715740045239154903989343555306197122508394841744902511134566124015183578871950018332494127932291006699821605949539877852486139648032359355010694593839289788648432195059702911687878365621841506723967121026702696281288622293846524582939293669530459467081857885737092622442059657492265761751791683251805373668361419267152776353249000219194893903041293982443181146303751092106415980869075010223237615585760597517022295105762262493866921263093408215236504744667745029557857646128167283251367570994408877039397668415365645528291923532645268069648972588797480942162352999434421116095477494423511531674265523355013803833067114852025354125241926814443671772715580846400650327081881433014⟩

def stB6 : BF := ⟨142542510062212824709063858403921458842317723381477201172782498230005595390006789244373980120406658014939281906425885208698940591857305536163448451032952161975188333357026905, 77063076638245877740149822457975785916247551474505233998788468546967192676162416753525883854619547586674558250296775600172790047156532318740997216126072050010823859509385570919831074005227922986173382729072560469242537744236456035102933590118404972694123020991185925651379555388132650577630502837373351934871235656735561771884534358667053235045329580352363219847682665393453813496301990358349169496579333947787557075523329577883689508138820310901433981962729609764427528483617575154675769815897326381022258763624115141303631537276678698737437696006264354804269880718496330909484834219122546454892130696311542317839231261381117884886568013785067137550361099801676792712779807532961810230695135748909738144161250187746088949419628565602217551271206694403189989593728565836331446842068004853820838912961332133855908571810577771751028286360823355376738366624495044279521585891741384498870484596297966413995081975655015965189976068166221294010121504102933549594773528458701143618624019752422491538160581729871434182731070728312997432860151077732751981063485294647199387581070579481475174165361346234985928402757729593615045222351872276209796093358083391155184637282878630428760908193380842398044010058861377018461445139708431551240614510732105121098310391592428001193256733406274677180125554887667080389071397203989835352106439083281609014832157984285922938529479297369288868243476117483436690762197559579743968932326322349086997359440055320455474952891861209202591801653651426149040399504886473809182298144311153973116998927286924574385412529943883014788362964549084931409918245286288943711496826846344725451854442713860995477329815632378411790573813963978661564875159188442668742171191441422558626608733479277270505730453007499230529033803946640510119267438426999043751537768753096901134201726129076175801209282156562141353581368657466123331168011488258433774272007747134338672410693627865674493541029233850084217014219425943439215342810726293039258670549819234326611834927210939408361627556761466324837652434910447207984738291465877718052911778644102936214671766795539911722951155322394747788855166032160815103300017965013006418437435074035996239801103976299796862729462987203992056257566829507353820162231182582415440450222146858005998150769850784794971750016243279370840461899761420595998006976957413300999771621214635811178068195495364069488010091132405177443633131679504722297051436596059634755707714469350651043763525201663955196092345264281968713123010415626793, 464104272554835970593907233590231288983756200214648511393777174184856723251189534781891898419288300784322143202137743834133144067586132645879219019802641203311468804924395077977447476534430404583568063328178924072796394572170401966536438061582970204796728302094433873362807251270571338548378803287975273459581406766871615612761664631755738004953739672089258971406505127786167011085853862489542278639195462551400576380494704970228254546418234177393943311859718857252393264939591318710607744314724113002745668380098562322027581811879402223041262471772047724565413156784792506303099502647168168185842201039575584704494439509458500594975245766101247918680290624155354684820363782746913225312641586964058979268978559595778199444128017984893004451309494596634755476992317330016905370407209198786046718922839599431761357041246217401135347281250954975594029404107831728567002037554581901315733940363428939068544658465734416946606864727577897477313109715953705735464627904669138851660419581731986638111599667818550601342538612666326112770264227251160604030308620514141460148508450793119656601917381586622330576919770131769416660056291890608334881805327891503144605806115421356137566768518223504497690246515967562556656470181235995218533816574660484460942809926580677788671778112516312975858193675262934975792088807975028782860667675436696766401834009549578738716978415494044465005028250789979947208786126824248771330585778806153007448543951616914962008599154188785760275708438633864978090824025462810616929148450366126010469960077927421321239105871116265676482572889656006911069118914991694354556014266628544521976076869142150788974896797351191569711933863435092615794362084096620927702527265127158181837830242925799963462831799276809967308413786596037939580804539590292933436301111685404172130852547070005218903498344453429736863341354512305996140874728984339882248477971629644050757071628415711693446977951690549980215948073687582017146193034814137487959139528201291839179384153639383454204274170020922184201084943520916480541567609196873835059845384491854442355152367592198043236369161845748455439785163952676692320238739460191808437777627051774646172341710954201609988277879635921033990954359934593828906839319139428057073656649608666536840007467204544308704825963148453831978301633705316588972099412642334676331931099770081459255979643742260422450845979192113089180042147197446831829487577350826394939747355260745029714270602510656560705486113979708366526618978526819482, 348086113236705669725569379659971335128726113813207642456347599490779473648513422873116406497412416993892525009734168225984453925794399251447654940850633036115597934481130197807314168178939773011740660334264526687180287535519830851140451919168591938507425570343279336548219956280695113311839926223972663299571740546909351863711303153455705501608316697014968436554289140818668848874060143876272807528942178724434480055604885043472860350195944685349241890169616125226384186973445832266987427009431891844887283934299138223995827358512807413079502452571178087289607070421007077494731552136097338665594698050047939530901396055496660495457350508857509286806130378455129606295337153635916584526377895920584130504832944784935189651838188661364970604766185062760784666932215192377668997669128384394299369741464485394203819232149236248262331427435786716422657345843546498150085182023612783068709874697618062405931276122867091356170732897489017194140265303859147040232605308180573032940856395360105054496876536879478691217000030752562812962198318537898737386253247502741967079420241745341874173780587547049779534472101316244096832788509544932635919755486489279163925867711843676854523222847033130074634636116486304352733169923042784611809693092930695779703996280593175823184506487392522125126695498831983896666963146049910456981223520590849011739717788960873250035151951444737639073014144868779001820111069041763502355438944616836629453480405855657167564762534891479095455591490771713303122122401462777571227033768513980998303723225565830861403566199336056217581781324088614875641249404337077235990353810044224253617307313015650367778619463377351826385483905567807023533420382076818439773367831974498441087807005939782490875515184388554989477165471773378560104384646954792570098386724300010112644786538432208055603556122794560573272313514297122404525380684195388006110724671610648745585954646553051778425989074355166981989483573549103471228215821535146590177016412288942107926195398563636132385586786391634473184406726837727749155352179697252425797479356238082684064028072864270176041300699560701216148528093810984965891998802615656167959370432740203391821597011694734109656650975882767944864273329282888588107911470903692004989166949659529379254388448116987352949880654134000964116714800222829620916977897504426887469634166141374280270431684037077149094953622450873078980922976365775849424620925828944247291567157532587742521651242259970716385052306259255158277484095873322479, 97053879536243809443738551979930157342028100096761814966334305972523520061845701938992403064013686686718036243634699144226009696652266666854519856754321932790666135106193932787187818372127359695748627399014026202278171976155104451440537713804808552690746698067444440010088281448357575467221051422220678341218194449339120920362777005002402803575319410379865606970497472098704513668305124909231200856529426595181348340500708298959182884522113287986664464040636338717210944161189221969269165309813896881861114568049004875697433324709488838734171942628144085857439806480774145744791884318893519554922563562223259550904795320927859226044791958041592393771240171403875381076191878613276699177538384151501504156760464298723573447005453443961758891952290913172676250241945792961072756794581983743636596384164881006949276562757927930849542503258627067133837140636711207311534706984230769951006181248874099120523929412890912041450812877625952827455198326222813519444456042307683886821806936778898969833744317296335796369999204405153711268742159508325853685103249623606287603716347908798964444129788623736867733656829466464696244970014809883627791906940514713330202119606180666501710454456864581251580141838401453107637920565198901817575024957653502958627352943196437221415041296254201869909895195867953175450887481932117237457747066877622996762759350301016160931666383782663643593647067997472898432864942156122743448399870247377523693064777262588852221293125751481229950095233976499754322990038309926594665757621433363381923971585622084539604355739653356462309756490824308336506425791584122628058766206634026233291886310947131534285226410898618808255621222203829963547461970248664777468716198172852824937776449415073206817257996490429552207107484060261643294194029485910433513184883728882830298539766312947419206718017625063819739273519646298113271647644980605824661930119216778391671563812117571667113560569391156193159501957202507703856456157519021028416560995202063369613381609961039449782270184404461340290843874444988585697360360398972705849312349589683625283119541352690720815039497691778083615750334476710448429904491155560697448740918233720997098636818819157030346240961819718111160824338889347775194199061636531326240204548176352813377750038343455637277119031619194154895650963521323014834663539334204753632821307319865751372238676317879595987211971490130990459658721706902536941652485503634448430389649455282956714253153261589306189163417667481440066438495641221334⟩

def stB7 : BF := ⟨31943518982810909690727427284205728110824031642575908772918465709426516951838984403924404315727604849991506789828039153743928400753642386234381276389929419642002264710959461, 39289988447512767686156436604061433114187975424097634634853968793741434688791395794275567588433694815740432725823985426061212032680829326256148955253186945927636303268671234217684544468593868754785557577275715633156380555843260457952417998813604843747135731165201773645800658206883557453430011668468980310034905224810635242907133525586226462099837801131223009111118437557133777419400410079219383057440236411684245331281138749843036561261315720784530651288121761678457340910606010378043657516626970133677137726431129417686434170071768983413664821734194234718415306967116592806510566135444626775629792462291579798015812689891199565249485078970513660277571518458823160597652027517869444035144971304770757392821050296717787120930494631830078172435399241952766328328484715464331674050241431764306806528094610608061926835787823826671887315641147697238126020470557946482620383258933306684533995324262091033071674188873684237159701042401942199825135101427002107189305996262306630989052388503790165221207646563415724159572749224059565954272980741925120211428687586125926938745087590576633188043518542223172336499892281840129260107662234764112266464767153104394490035895462637866253448892159874238165920560966499608288971041027413242297623229645220733428895549659514678449546773195107391861029273051018997087967241109301795107770389029826074050317266881001714704276375127333001462912575836808348962007020346673632826663272365322910039845467988875585604855093756457456154707394230677376598600860688343070063732599394100800814388085888690990339056549308060099752409624500813949960456853291224301304352510341118082265969336237233930713245597105009759123007140483125932672355168702179646399847592126936012348762234907120477649392529778879232183046235053173714428182006402607109653773552181731527416001338745687773306432632902338761059964026174776282041567420015954283502210252876589037134468884435780457616247275122347226308397003625554403332488591018733705878010951205932036736616156110814462110994361982483958862775295186955435443092169060230478839340662598458709440170395088184208678996568043490696985133500642915140423388751061454693936819069090025538121037032912512336927443848870106022935301025442176286187767915727726590621372257474846593953647593057162801163151743573154563110353658575338197324079671450074317029653036191424116325525080218953455740308816582783836651708933402388925801802101177489357858293469515136759721747679813863891390254082929482793201855932145059847, 774127853344120950458662645014012710240091726828057725030031785161744885296384165084694595824880912795723578288252448736253527687109311669313173000639113882474989166647499430661231251936320892169540337888924365044156817865329795840814040070649796677601057343032703766516192098657233806823915464507868280020832769441633305354609577142181011419089752105874251347243936562232041162061741678564702072324070446534862746410423766514234246500958216396938479763045468295335019930966686181349306326808295148027553475561407450806030724980345377385985185684087785894029968876792514344263008827686268268442827995260430259615835018558255270078801268126081578540854409283239187650707864214037574839556874134672265382342899719526093739775745223153362928102460876277754261316208701563177624605387223169559461245158960892249638563798835239108847171328879822278319983514382351837565274752343667332863986206746600177865607327464183413839140227873916523554059065730907769978187079541492608285813975702264715874836821446363779895611682992853405133513686763148142067783761804935108214728719855073757601539799873920730446383755790363108192306076368444315867285294874918771637453998497823990738056723402077874808064184754354443596795868634439555677118783398356201343583116238987814840501650546970400119191021726077106367083999141623328409231810422847748063289020257565984333899792146895532645037890713189064403972513850545586959964918125721070604013798814647732197864130482020159524394553208192309234231702076243158496377060624739789925112809133955965302345387352359855343096069406049841960810392467487482947969965701917416411877239215042661648591521539424359850262659278831269531755446291756433392282689990345729325890575059890577002924072943659279521595242866284066267312510512325297723670363330740426000630256712186082208243686653583844091101391894528841232927974748698512707655884857763518330241204759653775310197080239617489815517131595095261686645130394102345058168515100726730894695273156417201065777481653748154175837576514511278001451549745693801492420908318748882837918404941680532840075918747892923563747422063243077765574439307646436276130896738382910417083771033304529627628162492194002778160457722656391435417442013935785348636512973078815368273290324351016496273451505875988213489853024965791813892628046196403870679543931179304094468498279883445832695392932995587600830870197641362303182059744548435178259310147168831063165835299606479641485812492754136220271496062264036217, 1055638330378217461014943532241724281188144574235226955500732232797257005284330202694156800741557834566621484551106063609054215135356942987576418308149048240021120079570163752860826079730325013899007242848917231854765221143917160352442819978280834482465798207105730760455495039574168062138880035850111542231853865977688219609846958891071833864762509101169996921160962797051457450614613529357973982074414529717783803703023678982224038055142907295205984462078475722164221310657988230824424358592276655083069896016000317416333602479089947508936278460366345961655411035409166288735525529010447288536916387214262520850049084466999698660249783797024697233200036152937733865306519788000945797549858214709126954936952809266410139441581727108488864094577365054574443310482532453859191132745585667150656243595780081363130561768699201599056600025140342518482345191155937448373272087736594596404546117287092627451411356843827204850008407875150541064075923562235101518982344090996407724905455027320200389702791361361042018319839884714455138684974136645645068259851343619371251020655109563988431671462121108320510668980417060057687635363513805308488498989470332685333191147417298695276035059766771640132888024741806230882498155365298980003434890875779810390729716777651007404011662744801845460229168124857239474237847743365521939189144504189170147738341282129774066588806256908761712859337482903374088736158966093989704754149168679263640728632209228694431858576219382893196036629595802235796628003399852862583749308188555819073794553957636483423991768633926577968756476175383084048597666953177035242034127623676833879832371637669977571517834856428823893600597308579899345101543078945772579350449298883651110134139247112293980318034309638046306719237378523398739577277263861871576481506896760522007718207421163855727418166414889829379438165297098061378338907311475873827682297270510622104204072090278047390423701767043897469676298319739366701152715335613881084135699467057358934899614399706225157577281845187405222745622556530305548551443332529213349228639998384543018584904032544487489605193287461196509802616302671167016118581840375582111980881517767109717134355774132651870545210004562867312003033584094424661484039808269269200042761641943427977254670269281413743176312185036286308573617629838912505813854074140132418557582619268172372209655621833779992554457361911903650305248262751280462911214130123290030689636685216965276559469403998535217582664388068903547158656716278571028, 70289705335751713630029508619239288771951753220882741439721160575952160732206266475446393544839801787359813733888800770594530239888779321981960460686183788768839660317219634426867423762928138513536363198745115036774438025075808111829077523149999774005012828915881740657837078455996320157686172503584178179649496564003577655506517550208917135372722191314989524128409120315749215734717677080516737418154066573099906625906968985641807562653145462879974156684075086211720004391530325104636147020507328080088607341627210910871222400288298877405982734751988543284818539571219713641174918941405683829960255762372963353794040802418302373695083022658763408159660926396011520814019687400138873787475068245062648574692004564359819262865945489116669364815119040505930772871910618507254177574530266192097825242168093286584123251779236225285484992137997771778098642850497231196786417478469515261575952299413414841978520978885650316734409439651480192086965326148093074520271388529124954272859022393690705138435867928464371561654327627671622009921024397865572484590385073657820074003510537738413573192622357964999002689637021064142670632225402522076636996014493395352996033694020297531196667503983492995339499175130719307346485718726692435066509035059407099278208889394068881465211547464159731541924061133453401912571870257206095766844999951639548054943019223083782438586102441250117844461944854387114304507233872785633595396416724646629091847042092292842586687024683470081290632979070544220104893290736243316440402811189494482215695793626149709787966901010051304819258326461595079369056743371502103701032773432916549012806253713226009209969162285005400154090951776186587069347286584739319227360231477465861804511639231730522257993742680629821889964727299241804384261520194668487880873340476722548247203828913438526175480382029813428558600229353388149601587411725107856959024031451726689970849496228565523514538811490106403965630812220461629500888406688298593347723870739320038198267580480359656168650301327798012298698729583541013518241390141905974114472649436090485449386453906743775433274292792116331198481925659129720108014616221256016166916434469325017743865544707321079261825465412611372859795809635262851127750160245820925431700302436868152519276490309744662661823956306136918031031000692840481447078383590449853346695760114491926221973226268277939514875563753623199028483683064345884974642901031888279269057852547589354853434703730344930738500371267329544874203470034000129⟩

def stB8 : BF := ⟨45214360352540165918154895739894918018563430133870603060324329286634572151586367168968002418765112055330389736824186511539589371445451889893981702330950288725731913397502443, 991252806252669326335511426572645013455093501836862659280781085306612757868424279766446940496437488790169985692224934918501599615802511242360199111935717952177086594523001933290822963663753653037836633039354818738639996929187625669044015479967706037588170673001530951356190092210665296017403904534720131156604214703638873684007403755638039658643382689713920674415325360979915458043885157902640310681248415996076259991332379696793825434289010734734358867164873389818634159026814303719905686050262727321207024975626287898716048639180915910987712137828718395489150166544884541173339441700226391821526131334696754939243819725766048732194110756524418503757771726310413855658250943151597534265122528738608892670804457649843060032712805817861187160506083748754449893240917649967183963503345754435272600063205897996242053518320898005090404316880928962749658343005315656799969625618421829371373010036487271052097067998664202509804162682883384322864377686299260271315734196575041203030483470489738126218378733159584065829009148919653171207341526205413772305200347526218030199839663280234115976087399517356875875643192925713086807125258379073605989139883526997342597711351477814039948833132916406408880327230084306316276757804442200562410125929688825698052519295580197626486198508086157426703518560987472520164546460930439606172433028753139299794818046546037165358112409217513282335375182528463139721957440527255901215360557792644173652790787089729300449034916442182435385795530121157016530443043064334516821529668837392308675651222970691315131056235486196341543211650296715834517808157260630696566793398625570200321855974894571269218993352380587489405907671506153345924007960360935321943635178434580658380845711253606006974341113615234830613755127576667856184408900179803937387737431140865632678794658327212972801839716406694089264752873840557065465780366987973190169702265657018241351872520584495173357104758539349332856010052353978928921096043842362709611880866290105261969187311912938962891501823241436099754183967090148086867911025936589331250408754974352445222228384677486938879011782375854970251992841037014605232355221574117900737438234293105366549681026347011500503962432308661216236938760042349702624085973663521062616901505309197297070331868569866480908335818121139654198242610434848875295388631153256131750220178625980006285610919792960957560051221775568349390094343356972912268457196353285247201359946220604322337886846254772623486825641574858691525701890766017335, 656656506639160162342230517975353315693300345710372104787007528842861211950070350494369617884833800006229991791980745674212755886744833424654837001796767580063586743184608994347345266668972244339354429280220390853242813764511703005017905175232799932185904259906445612859073482067409814357602722462067693931668949617524361798379166826974522529929090314082659769800892163638282367052963474873999472359394972550360777647597687153588743817481230683282939578887744233806158787377058522857651129952084539074129675756046597888428835638565594137726385613808538163774098747727894911245758132376140161355797005009312933617032903011946179108340862174009849721381151716054341688071009607002573255514670483736123437776081432261436692835359436804372598193037036769786398327145311484939169898227685980667359795064615677308782816152867928156020321484473330473763320788264878585019243952706287830269578928240338412288595601358355222930822364731171118692284719249021797165901182915058385769152596800696657493848018169777709020479678418702529818394983202636966611576092783874511110852619224564601792740647547655983006754229808065862973677277222248620940927389889629848143341171124835357791933832645536338445817782276750321854707899237856463042580380126830292361184455130045723607779618260148233167764702274815186746117211110628557320795425306343478820388069972726408545892451972919376689769411092133036092127135049995080647780619119577300072937320517832454810292078335283837774376611183562623222587806548421221299941072086250597356546637219068294315739551691902213353847275536782363689776318739462149600264720745814334833926012475728647017859821075899384378717982474279452446483155360659607773274547796361917386786818109357701706841235605630637045337263161286851131198205593429405824597130213873080601740167455578467483635423674224625368661988708529055852262053098687334250133886281705349064166965390657104587470929835493935056281869344768213973451891836246435690433282937939560397078904471840913521894213439344769723239225111678427270356733848077494076860940380441416198485315494880965461959987148823348019020471674863912821307358001462962798872756510886662066259713231500091995712832019615439697873998768210358955678531971111810979557804612266181062363533684731339153946159847378518033271888681157756702926149467592487804770794140361101683196537931108364088605010314089045562994056218558249353697002806873164868793371766718469136521478156190845591420345064404767003518604445542264352, 486542358153333377341939599619555324733058718070166560774350466055622726964652653868942027438082035331797256788175308582475983433653054123407374585798277673836814784948728217315768018044423109329335076969483582589100870405278068623965991443746383356451439705684996195337589622713776047395735736250209365401906259210477611221469343924014205699764936175481870977119726910925669672178485397055503141273783278618380017458161179632065512888276248797559160174253691358277138386987156073287158842172792509201508033268144673081769418334365577716466440307637802253602430061690616797804284010412565444534999558470669522265327918732818068508479827759111814729580878963327089105715009281286172313768179192958975559314352957667084225417699399594700606634751517614860790098443368437140443300193654431710705401822496548180759064203884660033077199570274850279404701235451613297412771368527521501807494988372163811849973385784580134574189838502301055806813184214108237276705298584781505321816515071875177241453505545512707844779821559982638939246014842756046662222448287828641255744329877716337060403998716434816532374917316998705317068191363884642513851796389917151181383465649309952594577258317985572624755405613299918934710221848719865337879340903938556382897297137597750229532112683918140745529328906227052028790780340667792907360185491559076125426431520885438268472856027521173716411102852159259814192569955912172752451312363937753794339165771543254842239906147267069756895715424906248246569027947352304048856278504980600880041060472084456367936806492706822296969136795769573823886598511698973426849148338481957691288352486710033645074507515250021404273232629520126608710080899719507616449018831759146585545646544101767292950203117571005580610208992977597265217381159565726700975932010539775209281219059618401463851868109610171636896974523927639743350446497558936159837092405211119913417631692001471018637266343042994264411916758864789422627700231485064669645251755847592194055851837974731689368543120973213876554409502846766297195062762097620403908345736218134166719115381861637571207420332088611421704138154600125374946967778990952376950573824895635341337876124056624350420608134724749916625848889633981636086188855806634255734187607614676297681890462774850167585888826705500488667969814840229154367326576700019140174018928026484419356447634512706996535957968772681314148902461381422162900900478283890471292575370000129486752445108818736653813829315077464036243115989347620232, 289590263957528776462354613072591952782974067207444976119079163373974983871335789791089406273050656890511377704838080509397825118436623825577496379135826563740444078440884471227888657058543864100453573925138742781195937724161554670666915134190611759917234937059509191205199553259974004726389529886874765457249851034985418566392183428240185774856741105725913551907634719701650984494350262526893175954586787965450863137371894484030569267578867750738616577156172881120039450747577019342876223373451824844148451737162925483364023017154882167826210933122095254871680257328749511630852278351202732830028654787252242306921789429799054904428001547201037448236558840848337216456023117186778526867118038365537192892005275285309910891165408372781421256150933804084865196235333950791230615441970057523734719817284446773305057827019158979064130402249760603629111129522805503432678712110689825744924021505744810857554438163755892891233633737864741448055007524048659980017253671274924879485367172900101290621811383260415159003460922344906473666333460783496737752415610854857483315700348032629716045068710087977858121089403626959807886529977050085512030581526198726620451808291962292810340508042708472285095281222835324033415884979707230417178423462862676815463342445075083080193256162608153405156623663409025795995599232535614894192381677079844574118837319388112366608033732761861563897711883712664448623550883553209477854502688540878395528253338792779362213623632646835176819956934602235126292865167242358256621933871029511349849405434476564560648692553601397726608821944312332323298953041001138602465533345765383168026148573883642330909661574238398205427719813094132901313499375979704829604245041731980434667662520875755715215940980538569751909880248816994380500940147883411668380206047842582603671357138666276383012238500042494261700523548863795588857990573293348837112885894632259592296221630206551547722241368578837399337694787477455264475687862666346961470814228938084547853546053983401039728693107536200486729599585841097693594111072697905416654013724929695106124116271678377570040150848738984006974847513404053655405527146068524592275526909402410645653239631602257649790288298445437754958702096567839309654857323726651717136802131203036396329536103125452461247634994563213679738261696566936616432433212104556611569412212069439430497539026994734159899605179339650026747762728737115627158164874308479006707357188441142122959201967430588733299012934363402484781528309679985036⟩

def stB9 : BF := ⟨33941474179400898891868007835860423402242862693192013741596323347077252889976680292915657277821503377958139812691182740452860992800583718551683718848700051470771173779223571, 297666679438249396155625833800344689377635099102109344315683719473562164234469231895812441594716496337890209107776073089717733519748231180973048621082885085393819913843379925238914170169947944995243008539104738312519196670821396858629861266896110572672317777141164737158686745964465055837680411336780052639065241570117571441500028197185835090340303509072839234144344274580267847487121589506221928970930623446120130203239053889962573197726992810196411146107593015782355457119099243211837090987455481918989784523381714890338378185403761890586460191795423627604216260735668995315276782633223686570692457749273570688686170633184032467516672200292394413916983884909416954985064956360504745707678506688473934878868352541241909079995153255316014663484471581972428897817032047440995368227817860416772569189020791338597184261091692898000004547604228216493800375396520485838449949878900117834974881469816543454020575620766375952367478257644438441587128168130119191341924888951166491845562523695234558060149087839473138109662685746616283034896714979402041010949932879797402026640659664029350297230695639184119137401024000836064697532342289412275352654821707490314296453960014482857008229093207258694452334786755908609302546155039132063702031197198741546742397153466203433974859927918659009474393014430644295340677126449340515701088719128498316207895970452117621311734355491872837404327104755049038908289271910830396245949986178299455075767439138086473898027617139038463382955310361765910275018032807058144541487778777321155873202657789193829568194234349235037701386948775368632759389408644544408765840095245921144567580145947943946598097071134138189331285012043351324909386654887911269942073849451212603444254030463115969784320582721857658122652997524393961469432961317768573177881268936482883865524801487794640379150325020374296091753193051400898937706191158346682640191289764999699895892479824897529246539374950025367348469413230043148081462256420217943883235872486276629488511435005097146762707193323587882004621232039411169395262520994736593572466583570552417348670935068598527947792580605932931216574761310009525020784992476764073726474216551239508889278565074659364414146437654527001011980238431640885094090380553413570316416160458218514340477409786474750185923818879237346622097464509010760802379967690770675362059957005051306559462410857810767270852370645591468138489679010016118648865672641429046450784681220731478098382565268919388816818723190362692499152388042761397, 21966416847323008817110026123594847784611305315694216325892052501849739948797559593600099441118591696210645451035333549970752953517633027741132746262401940421072467174272660208286831838986388694659757017419853565768217517730063729856114969892009944454976297554611440312350904264592203208684186011362811395675967486196571921328355039312900214196792488387351468468022157677316622943996678420342337267664437946409358177410758248674168872309583703139582695018886546917094452015485186468142310184883940348744409349288261471229595260408947234221030035416808685616203796138730494629185700622483966686534686929246477861251583698681423232583479673595306189482451336990539934042925961433870809519120613266678376904874098956204557232075072004846811296819736407517343929985104626659346758964519051027907824354653884120076648585212063922700353146676467552912424421097694784038815917201046966901046140753970743408672270210545389525596325424505437394944623336525081770633224320398903852566495758751538542357180808515646495931906694850094673843159772701239148719479809604928100131171956638332935239941075484230111842264474047509534843030404333612899521246299782486263053967980618790399613952134365712797241901148914909058352385977783736325455195678246744802958899049655914748751333206564808554626418903664163039848170986555383163398654870333896245542054773450264506790254378077993521988876239166214765197767094388665317298086798393566550614481315157389901398898575157043248783795020249387864591023786872433178468115503090953387454289021122883890485842635582941862781757313608093831478869771019504565164371373165191838265542857892751967175330773346830393678428241239886704152484330897178695103453252107180977170659661198111462026201991125874501663551838708534106415438594076028343929768267986202947180514069974737879657532211842256339870049025267120360594369877216940431214737142765159728679955560467503063028820176795890508301954318747806491715280663465320632099661551552367887424630533947481684179013647229138850403068443346157845128776200705810451952903161632911890999549567252227495257234948591304070017950503610695640618158494611205962882854075148908193169038024168423105512070962127705526792689693009494540373515400478894576260619177225307792192845025589336039951263190105122198787722420001904964264148161657376488896657527712299248071243238060718317942250258083239590131373657269725191889623806386205187850777766860057961520940750983573473676824749572610756280263023890350785, 1065421285108394999792927603187918796327108796500637761785568219330500851831764433692025211252654597656263832045958504151448197432795620849245273593416965370636447933572589935280159852315843223585500515737271011543085027442350675697674057034816586502418810772628964572857342588872882085220248283410055216740202868324184257635444251910540188528803500891442541016801231857503048442012781895196726514439006111842685114632608017634217876386216519149436011806204036215093019722100839109181898260889603948001648067006704868514853847336126121314443046420122981358547761641560294780970487914913185376702504171424143593367203854745159534685172765741924489726008780224081784267853807780517474529657374752563893925157171743417440426102323704929774218994191211514830169855295661861579458828263936086052596349905950918640725623161240686218063491845076615539026026054485023453571269174849569067690785384624605690887709159856171152980085673633914878196710448590091792263459855161228947392588589179179469241723798245416107364103584038249673509719006499737582698280457780238508655045851206851147193001815731623736285079361788386904459102640639557588252313928846447144386044605696983824392012948225064951892472883749725748379706001142319978093879358056586540016832028484206097084418369849752602733061198353537817629305424863018904951730297440430550148771935194657033526487274267342698862073195101029401088075417926914797496221187010333471335004492749641233807185707221605841074334865001062504908517489692071192599619477859677800548458044577574074442842576503182668277888856500295064847821600055101455832305811820228223512423103317898952193865884291038546144936268201458000600455376342632491889097988614110466153394569602640534722226279744215857586573241406132251311713053445019987798833564057901110120035974886426659137200039926977074280454478808938434067873524892469705443645643735624090299415749790184179523929599962162316209781685435093830295992199391450249872152773769174328265507742647685381888348534716776508284330125877343510409219285196923236932027219808506595395206192378483525499662839624059486214546671038113580122815760543641819205243086437274758138908427816546728283900404393052659284749010972198779120414584788776554690371293586873381390999693471009622165128994165951464693897516846596223480390650520628576912673412413100855233738097117131049504660371320705015951139955169901331901992369117950327679915044094735755159659311110128668167894370316031293732786992495954402557, 448270470791817697870881246918951089675602616239460082333504699648142715415921927751353894492150805056009245968846264327702961184834929376012347200339516976865028325413661848794498118310777405438127554960052298298505667990076972964737944309555713376921609906206258361231928057585479329380317171118432813564496997887913510857383188076921528855871306144007740831290480918660520836462749222727708783997618159862350845147924131774055161432082326637161658751724901290563351135555966166077027879713111745273946169809960840077705202382697905323214778813075425931739008689759359172973097055830359455288313425885013304141244310625553288343397380321711532858160381118131994151541152850768619241745407630799676729564887093812545862925709454226151016663935345466624982113757643407386271739634908302371330977676788234143806064913113058890213887847085934239994085103662286203208736181347631997014874512072894950175785793905557180731411199848276615831392013587846871827285043823117688914255874508743406388234611343650017968491903182208712450663114566486024830772984981967216560985481147997298076540676536562620029840835833225296286808927108909232851260445922680310064408600027312675816433162282041002838500625697540753000553546715873813684335488878477960612192897047075706718379536359628433041068641849545698092319141190254798847052796519447144917665637883379782981754293086240264332307959652194800883401827586423800228447641406808625399496712478421661311043667465095554902573777310604297468992188748272182700274419603782248841949150664270604066904244673006478698460795548916015782638841275944573673036950981162130291736612086362940014950024310705042111059571788276510302517465061803731537366347855162473210812693388125176875067226342172280333547078147765867979849795988891078361460698144232138990959471579343189552523947633082571582430244527552394932448738914190893146468636878730126082763891727285528892969577860804046235645908055176503679072993295831946079859640309358572480329443374419770755800352533523346271965392631560604485199081251285569641380854637681769229293809512230559309908314083103509641192625368352851236880962927867668481814517471906247517357078571211795564639626106441109434435975342329333027429631401549973956476906312187501792850440671685519436749560651700025816294415869176414066949838180631715779450202518809608704493542283174475881447076479495466532534129620101847080775476809011918610684308861201895083074352304240467711723563783157965970947038542716953473⟩

def stB10 : BF := ⟨153535754527620374170797733417338172323875010698423721833628698278206282494809098011863097194968707037186255255736494869892659522324765271964555061681224898856240548092018624, 854859816581041344502174757157267778527604203795286685556916247271531352941942556242990243715395844220844504443723388655114971490058649388560551522005086619095408471072924226350046858513542004335966733433871233448558076351082910281193753372828921422283960601423333622146680414039103391758043686520634231649936036874232436737807361379776673155780670256115324755768704999323199513598916902286955420506406922815296492791422740448759300576662048216481682850987114126257887268022638974283289587750408397023171868135997312241856919629118088554126001934619540079358868673476477267037121370739041659256072157486589052180728922144657994211240156954537385202808373816565368036429537261835188813467733406222998534374772954092699523989430315395410114807779769542476468015622097521327404280878368920698970886000711406568025741018812407421045856293922945432127704748019812473242808999287066118880269351426024488339261138937369526455525306012055815310420760495347870506629244192301004453401824229526239877596196495252906746867706591746707139984195571799948853198834704955099735345705338874641384784679908781218880760151454001646056046728077637333734745509057589892008167333826426576615474737206715355152316322567127393813236674561902727838205737526337786329803298663703719499087472577118044418126217952590366505054350180638140106256127705131174656485715574858893731500918972092063473994274367010914187304472616867685887941450839568020849431751009305672731543297896419994821035079504327222185452606830768297426194535901595213766562972285353519947140226326271334068241233334974025554668679562831718825461582345214210819842193251015395307348057340404153670404646431255208057467597676370701351286901996416703697073509383507951572064494603645455032285476325278137173776909574531499263525945705269851936462740246076919522929568106265050408528558528833801925956468577818681215422991622048929202881528245095792113606864082506697054621600625321813521710461945521644122751020205972320735848615169283685266124297799368808960492712516613902238916829753970811286492893391190093901367596579571469894561308728549049893111185206241368678675637283961943760632642469266768161370209688880797454006422122456985991671386576408129617844942387404163788044165767677748974219876621721970483441331432186568997635625263020041008676556412301303372653960561354403749555156039289259063150463167621256787948415035599432578948861499148286365920372687902784863234035461702904133692869106106142066805903775453038024, 240734913089905661932225844310077661602577014109169378579368895688735900674093333092208924894460590219817191069070827318028956491452100588971985100191255054474407395495048141030702007252371048992116187524874351277912908569471859290316528265513824090008312572058186982809594482321380047272581253159101803866192476948128392159588601858989263332826830489027758113642471220842898618743865984032037921771206053738784507469638383937920813360031670872084235737703510125889511033850923153676806816403085050731819337343571829501161410248372149317954355876168278905876607217205958319303643621317890931499774016961298435319661497044015343936323876621787210171857021895896324312108922674526529739572245791742211227928339323548483449083636242063299252205233831769424675728815495104769298654956761256943293240788582953195336697388359751063978991823426258486400025144441481741061595692762569764753003147172761422379933255580755009456578211015467947924355180624045160461676095888665789857363942073769887437581660553918056688969133033853360977052690685638676442713721684974427769909510998031825048129109726170823293767971325408619115073950809728677299022237243928265850904416159736379294481318558209781176858812292493572565764607022391617976675024441582812078828506249453373025650061611026570532170772344619043633436371032028235724899678464973673371399676786288122088592504475243874156707746432311661024564094078105721192320707565237488610577062823760752845627963693096623226184466359774655756706007256319449126163150991013933748404138603914725153389093112256219568730965690929882752613249824171853804993643917611916224798893853493778457567615221879805099634221846285398734914492123877014769916431055594392381777826111004679788452704500171024679407474293959876183301881811094986995133776702935540988198591692661270952857282714033661952014046116215587490824424149486462638613784301857202384888457377342435753281117053052470254527920843137636136840760676311749071182207320036898686311071979335742907714974585388169303699566642806642984046310374849265896023536288378005016620067426851367606601480925631402277116326976081942383606549902611342774806165220692778447552165153735083812736423384179236013764599006552002270079808800818763039976452784814438249035539751761939659866295186622493772375165203749325762725089601276379569291237621582497100752139940217306861434941764579585161087192287002461492634422390994615464519681550591323175388917242847307199150596614551128560829326527170267977, 318595629980805735245720658538354634074928411089348970625382003772749319275264826588801117657217451753474733968909098113840406847911431388959766186812833975187020012599779810204027580875589541493318216552262940082252512903652838982322079193029665416018541187257469555054163176714366260305972405306132535464395701438229245663055021102376847879403749594136710219607013613860300415316139786600694114505533550578654911224485322078767797989183813138951763145611383181664880349054914998518673067294155495130258524065493425068685775070916476943963691971420181229862660844707748174187135518179789464965258378257130353018837532166270092584599338281056308515121516477048169331272973456799563090923377828125448094154689237261550834479227897733206104967137437159715965959017437900970441081923552115744463176341077324447021736986366711318791689161408384738233909401704335175340964512646951114321757419116377973577815891957864038779697659948308508320338273882507962302674342740526289912679654512321913375273995363941281307670203168489243338777816617952767328046668154644528997936823813626372220420781269809996113075189968338472166988847333159484355170018707208844635248265430935741747374758992973452145275342781807001998122082812599025011517288661691820832902547064878268738764901021377584271059881688126574544418833963316309648221832266908332828785560361789405614992696657608920220379294306212080340352810423799286565195187209522803917442356873837394825419927897817181427763301427041471644135697936032385203881107260990864181161810359238671351159082773675835583350953684177849858011816314335449778138070558216101907885882464532670645630675389719528715453611702990867088328263664810829371184697617226497692361512196524617298185388805976310406018823958041799370664181845565040521409199682055874304759345633660395438562267225234989846829524928210480513992928854451702470000796853582322980929453820498977705259190504138929839554269427852900754253238148174908198348656695299629914408684107971655144939754396010340724735911364276927492323933742766959271109420581906187604041439542736348730412225655904955775174063231172433247520937838478092253180094012691037507512904562125676337172055137908232862852778020194722416542127902067886786562921463899714873531938085435322475384507988256667293139863835683812667745406136418438810471473443743767874370956566718570393663848264150628704048446210321750769685612088720116979854763925656946229092567590533804401579467257501032507421378633753100761, 957002796888469232947961765923517471375370700939690501707377716418532300452890466943650672092802627464868681032887083151176140824236891060459792695750282142413089027927175653974939564176488854295352307673249277804257809899291505053141387532714779465058022887849836105665729021328590714210824884260563124411848575376430189940360340895879558464892000349299135927110211385288388612012674521859797392822213971160899284189000772442612679568063306288105506470138286102080840001970842078048722099304505453558743847513653525315554228093142007508112832817301119336909511502499577768352816323653067514003753587431200116086385392419307261129099208799105949214177575643099010227762710524010508658663181991719013051772203358778892024252530899266057966689641138989593967718123271264265096142747875184563201137056194895319650942355934190776792810331053860736141731325367928374529327215501542026035506280902681656344810170346063872624061340001876100763764532962031391642701794838750692322602876141813155343807235098753964070142367237811402225821135701948577658781183893441769392331259615628011400362450147469895394972377757350956337032658652219133326023902770368296427720946446575125144544736894225527020483435398818624073590048150817623334016888765888841090343351357945299030650913958230494238511429307394219582615591649039828467038617310354889309881301544045715042176494159058568592327979422977330698161091239067906612051639845676196263534198914961219306035216238799805288170110988654087323927713476322718933726965717397149772042550103532052991624215252150477729550835069449231635590559685499559561898811839316787397399982528691837569079332640175454014143907838140247490475433912710488493403813876148154167402253960646815269021404635175745006049693627392102662079878383957691624150807046549689354512654264138425157284980690491107428283080026289810543410730671171351024294583257418408864545590865466547965871442509991940024387944974331686402242949648879213861519947720076849886420017979747906713754268896176234453648190519604287418734459480393295894714614006972867214729930682714204005022314523319986759631515598265259722160429762641190115313182135929351005503657577503830790807096424291163777410879509425432619238911452326222635097351504548464851205616143879325806410175765866925055244859102759545046601537241161552274221467669541248530603341355365308530914446905920151383358580924265573645440826451643475337555510449898980265838829204270528662765377790224904452258537391546914394⟩

def stB11 : BF := ⟨118450743776187957337858011788646772755057844175434929740691144104035495907653284800511688185378148040792560025668769618863303090427199910002051386105252781576384769605578996, 973575866647818462554280226967580258143684462862466262634417070474406423464681707046900002923028007403336116621935006913746103002349115390604703471213402060389826695475093958156601218104629514556574274928756921638641636386060948254472483324221930154761341786471753821586527595844239350650443735361814083761610513536504599829684478536836197031988138306681432867671327348263454721438472466765444193191849852822389718557697720382045481640374526328851570925680817518531884067278226073166679701565853724378890822587152544342272074844532518578686527825932539595948088466477255456634425017897537866546018397373220258590495429929738559861954660490939146292206959589619942109751398603533408326308094280180332386582102896280988826557644645379810502765523075172648694777784849683569368613221730042634837140811644794024298859323364152909328783561913088478084410671765298529493849756406748139195565525580737899986252983634581844680353431894368177817551359372889202789196577581993762076863769567877353276205979642846285823650278494871335022459030870819581590427845035817792309000277019748586542450191115315206376167016484296354406448216895017497071947743619359125133980221179333660527057332136407355181780399402256845453307373685649397921242150512206816157648746147743964139306241361939435859454936405068198439961596240994799175952974397312145306634455900321844006636204921200293415730077451826080469272685586429424805257806266721860373955750435130305682985137346314929959699031014483728192388819935167349694677080304807378831433585344021078433912035422242298950252204512329628125857864540056900594917385764559946080010545030915603413746897943628037520301042045159946722513537036802625937801099433266548135391963709923296552404263339495913562011519919940695263823616642634203416320252347837768728431914273380234231747374454349928182642586500012626780554993734667160975248908705033233014013217661876131489188517969138229591125818958559299144318389674338610545153401009353625798459833519730824276542852823591646427023774607723849683684048878070794111014899386938205018737039430015549180301158442744189664979168514934644974013059761020694770611711269028597694635737131930018074493994686540458295037425999146265605403263095348976743571288918346358822030496276062368247185539546113370844266827225946605302193227530067591555171654466321821474956221276429699077725650742885829700541943193562621412951019924403768644175460393591740165654774434234634015988574940156067213821008109394595444, 606367329285643675601686726225052601119963747708007258116926861666897511552011357292302196303803866780884177790434900465124355765115036158868845116111975181151406439503204272023822988072583003677738413392612992420269055668379921524270451121095574205866642562244130276312879802207478942960103713889385977107850308318973806326820371969461782031792217568009621535443338623866843566028832789945958945792289234727790692684115867220789209883772998401726108323899859709838387349917289045874957126195530862622217831349497929404593081352396546745439602840729810478852133600616084226634295803051579786937358270951323762495756520474847726478111748733659414526420802894014610060688806136043814463974405978991562458989392486118797728748131914747270717283278777573873202797426706714442748348234369075642308803543072754452377989071795504628325965646779267766742176867611594659828246938712451075112822343356436060248923955300102963706263965163719240350165113563914011076700715680553604933673730152717177563184336661804397798117064175185235909113774787946298930484659299801342875807252538453364907575865123564647626624418770208911415372565190877794342321951602802263600469641648454456248746633915874404578563085335491848985810479479653960902448494430414762348342391798928235839800175726521508809445028273304580426662805670885436053308019657951848896466043375392386920149128445612046136231788968126260641006055984755256883666207892056329994847345880678721170244292292214266553000461733282005257727131394506450875164627776983149737902820675113448800187820472245503062999245785646229102074320040516698775182929397345644118254322342989218398140707467007315833088418654502831622875876924033859109319254378603263565087306068519484113905686940981418992604626297485500266271510664935890196326261196824705922439583938309939239377416535678224195606058140870730619602726021837348952173559146366395828067335381965316514577628917972315929920274330415156679177131308768003643094029918491057894147696058307369402004220184593303619921637078532848676073473311052731217100836446007815375624731600831194902861102146408082365922286894999250225345794631450005817327312786204067371301650927970149175801127690038487820807706097076821669293182885385060151852523406596349475543396163993160381209730968016522775893408937562847295254842814097834697818674205274533619163888288108282347472324762017357805928665887770538969285366187432392509869105718214549224807234686329742237938176383235156925086287757482810892, 639459443505721989049952948490400327078490551392126191752737680575652788358211820167605470752626044919333737973089367698616373497633684314943263484192143464343445794130555385998742868220001430835604280200683451347444558582453014935981964965910086823558938739131288707320215990147455677941856839234681092858492411430850515445130465363075732439847620251385281083794605110123102139666187522669673823825916435294406347388929579025716787658301769973901150202792592053277863394701739406574257831507230643882851892172060996104221822649667618150357241455348980730052538392264758199581691172078336634087504302886987129952189069032324536449690238411762792871273162780336362958402319930213842486203812909759089082447034251330879779743270084459470701920753911638719963814565258185703793807790258001250990570018743676100848316686709697452956791734362032542353238989511262030661927029894011807978032989663893533380615720211903771660108520370368586752785298211584465227785217127034808706124224091494441248952607224568275430702961829115573185505165159454197332057063533973069987879270666462498351017868688289936652006395072842976464051185623022062225530872281393102926934436407937516212191475603661866827719680140691068324702784520668876561919423290167653506936722357152885566400960065753593956442035419462955279805076001819315905796399353396685488602706162887101975942384990527753320244710860936287504931453207896441081541157538903816475549299298968836469998314674022200759751965819170222432937586555059187020953839052452767924719840315854505989480370082078375143754237491883474560818466363210013154331170908266605469258520438322185858590542504622558924342446469985866973105109923282528244533093252132914796506902171727149747279461091943599450074030672883252458672459270763042816854153472371926767813481552270163831974033240579944215829329989417715246981706394351076828163192845819225908474830006337689412214087155567023146883029508893366707718410074440437314844110319074272852986881258279930007040202021648940712831190353512233874863715656791156936232477803830949674432442699725074746874586889203778838472278708558517357846459075920086506390217364383308096023998368851868973021900032949148051043084336743741566992921724468917520028768610676595372518018838971116821003183472205380514298610410286978782050275059468240794724293564376464709949225122423325336767810583873566869576799646674165029784218655937921667173370073451102339909669809411421758966812808940073702566862579895215425, 253013880762689202649210042878422030995324815419501375386349723864752886240242962021994506997937920790352844178615743925294429719147650410568542354580746575375421690953279476058470778901914615111215232303748400783976587186238085397833123660500160582085983249238193792709370184790989406890126503512690049493960048273270888849141780150288173430547453318255110436753134901011143137700784058283854886665012852177662777297797854946066795036211615056955494264214719214503745157224446217939263545056017896713067228234765107228836535616743350099906693817648740330391264198054846851899227910255759501169479889443663021514033638965904904867756722527795228777798834200702550900641668409767440548909188535130011385147437154658620717634419708574660791823893561531272636867613864921666442524392153624373979374271059678268166136099962183371845431332581807544723297975222206729257795617480551033939757291996266426549085943754353681417992920651299684384194209402306622720942403471436969281693907575348143372480115967508005413232398886396360396273929711587879413111836933078044993230689502394753060505420116627981808286738665137987934887647636059194498479096944384151353023467163944440464649414769785352733209865639769240385791031076976279839274784197007131390103711748896958476782673954976331956442041826855566106798937579013298767363275864134010389852194399699110720581417013953851944506455418015200658610842027456384892407265390131729906901145177716597055943907998214581735455945544363191049981598013068730142776570564455715790148398146866838905181961771071005956675655270825729246760705449652292722042342977384850460371639418836337371903465615883054371549191326064883044146238535468554126596265620144862816148895197208838656461141314686007611817034798648357562064485621527451958027003108514677912480485937689064469932503336731596955502026289621384784755021740626142793327928387151367718590982540723123778223742979671893237074446561994463678079273775290181088077355122386861900199197651267208377947175309726139750247728752314688629733374091922783312683162655200206693370417740094307388722223671107911440823053637736729456049073146108767228279136619313005003044281323039539174909953461054670535717991213140795148244930338964024449781271206347184946304918599388833765997881958175306502260028660478969146626073867612013730568115866519220051589932971564559963507375501158577411692436939192634958043311633466864671195401306276932197480867677272653217420220802795485316177339170226737821⟩

def stB12 : BF := ⟨67038188141283332131080119890445042059949809922462563809271847849200205867868371302013397275565953298748775825740013688055179614833137250563329912889234798829790426671385567, 385344204511736988231279460860054486955905982509590283969848020510338123827124011340004483985962543059072249450512414252501101984992010692291188811272659299589908737322993355723061979650000745138165456983229783073744443799548441482179309697346327847679881986341684208697873341712514206786410435452340531008709900300683764492805169002149180134833956525619421580571762013716095468580390096106021303156608188364195827181811737463079200114439210569319245401544642792707120871004651957464715938449610458980314608876773723831034298427217218415116103210570474146869553335227987561773997963828740391832832013072045879115198245974061188338370701151832194109546923741204145649704786755870796740721789818729003912056150558009763487450966939013590623817410466865394165061958751111958837903600562380604436686601804798266905085555569679913130633859501136018761305888353191659766018224999827578170060948006971086049356525556174119249647459700583436467845782347490264204509905150322785670785245720064449427590882932201087799880073601690389232725964544942725326638112910576622415119988044911418827969541265943544233804072360689796926864502163523793675663901070303156955902025843780831079097862080561486706522627256533445020741851734910155451578903931751906969797853672047519778609783211637664239214331790570567834880498505978808150126313928379941862284920925432724504538816019940648516655954053021362841816701774447020064702726555161566149812008092230803729609525772681562335253987988155691072059250451023141370025423537214468677510409538316702022124567739159066920465188083918845007395867334697153586085671169625492551040089220526373482772032831631956639346713200188512753624597651586102027955704783534877265165495550269494252933064579568950503098299744171295538324504044284755838619436776917601686397986325194969894822789192302704533743393633502539836621076234608041474751807563328664160148540364196324358726328686832707489653069992257651633785758260255806589177775163535387106480696188898686642592721299481159999779580339737305632029571869631625008835927879661922260605418004714837738320610543691043313958949275704165936956694284798030113022165450574093895005396456699979191651475582507663478723349663298062400428774623733347495330869491840217838060492958382715603197150233724074337509628987417197032105820829355359381977978512017939335462153032685144716386548406264357254653019606983253213298242242287488203673679272625566928486576386800558230620875283091670782358981944231063257, 862343989464542039759734625552737787240039574691202309632492264526512043413632520756353368644998718234935883188447098355664076607815626117405924105258009318171872934232561605903113094634252829677842681401089361747513624537759927604646055020763962085757589198864727871684083730086422018702303280356440976164357927148290132820205592209722384106807213932013831176004131562943664040355358475456922249693578794192203277633286121260188116010071189821626099297071574316061895936742173365753944542154324447669862527563943121297964455870414577523183986570505516487888851273591117903575639635303106443026840359037943638563625348491388031055225821095843550964178055809644682981395803613033585181656889674534825736292913741963947367981327254306821134545006724979699740271267817482701026489422530620356406662741993497892841898788582657147770012197078563872603495433796396913985472358667538163765291871081359062424421662585819220209436288489981005344078620725491059772859060569019969211145388772816810363373743467323781487395368801507767202136938441024810999708931527296519066808464620514351903689376394111340640540533169303271381918018508701056289753208643974015189680293669646652161892885838349131670051280299111500551066961640709737138334286018983569284290725248708429493345200699248988878453965063931515610542864484540176186666276590588158180546593145681194435198057832613738979847246475452047651179656288325689471068912153837421869245769648955606581622115133950235445482776014178797778461843501519494309224411504630990849298950132491641806531897270805543849541612607693142454513148092241833101067518385558106538243501837633634372948055519954087563550984130417243527804424082548651919576529462280460780747453392309680570314514533088858118984763306117314326597015960141678484695029932277872835660301663615899925369903526357433564178832347841066753303290951389056823855047214172718210368875513395526886836672442807037079024134749595194929944457473703128473883568563381102711512277469734621354446995176994795856035169588488121307506519634984052944748931543802373140359441350958206428562292663857571030236587236026632055402411715090980291629516029494369554527493339429820802485347383052644074432741978505662039014488919529448944812345472133159292158181993190186410272724779229710032055480384203284742512949949554948488490882013027353766989000174579481351297629252043108967720079974875742391583043712585108783303155487603064785106819817620404687572157516180609406872073066770222109, 978626145805222979229983194484907525518321107762843005442047109404097528469576148010577371502474044483173822906085358575604623184560921687077024940793894361639578401676326923632667463467190095102548820251534686739180557822351228175326682819048022784340291321699311628700580765352792726347243492900469323547221782838694258469790933983737722107999608104938194760018342530881352053374343901545621730719329288016110483869753579636007988230862968801262624250066204547291498395146076139046271960099649798623798974749413288038585120910002316183943889920832045689996218542380719473824375870955411881980152300024463703982093815962478036234048620735495027157585779542293113284619850463734202655768507822058705586234948018704104204398950139016514021345119148076527845731200405353598458705187252623177057155326507567361396209524103831702624966526965589231630291746394351519683883688799763687240714348655988122489406388909995322564934751831363854601913858185332537913669844402316062337999737967237822180663580488149410680216775496295903564693292135142877759843059401767722749621286887439349200840057834349640976493599157537443685310445183727026356178313517098725363105748506522846436532161364988395360737677608220721473308853458454402759814863840896684195461791440365946262840593885436756290141143953131759574639051644478151620171611887894345753159257409713218575630771661349935215517054513218020647537201617870344447770383814186574051863922868287444771678076793455769515687043448426788307647799486926751816040631754478353177989366183508450915859796158504285905918373815787049077055508822553304639383271233245535607140266387887232583125246733301480678321178491698546162357416375929297201171084481648031189530644337753022463729241751281653222122759594876209306880161167715694203074639525081027821920584252590011568530475994440807771937505669580521493600337205712938184271806815490718363557713371012781133140322442523965676997622840846758090042432761911440052396647244516209484515477420308821026122488850973190513320251744293880111075130275939451800066692058518269149639617587502018535367282541377973456585892472353261356589500502364168387942431632817498193593127435196776142232599440116433566548945542724385113519271977185722872282719676727406817509962703501952353572126020069333994309203436374599571987132053090106888071201566564250381141490774695816956417164290878401961040073614181100274827502585419242042724784658847750696059774351769135026319118403962328753409053508103477906, 326681281905927697369955668231864086964139603361923215618850120850917077232638595120478716508985794373236425168518331616325440488453521437460388117072405375184455524904053792985241526049161702992255254321357721749988342477467221373502017990946203041485076656286835131613845009084286017860502927290540510928792793602531206295937809330428418509712136101084343798869723305920975684014566272454756581748366465774049248356159099325796634948874981346331265501826928622512858957219728870882846570043597760126954371896933422941887181247676180912027774775029367170340558447268322257731795048954394217841698253731084195512543598751178397280720737881666911400639386496259379524412263637211531719897239069361530976937720992937075763798673346073579770457767567739732682506582747609660081785974224610483736346250605294465445307364355406649718803041711273443209452741999547901771347404364897107465967329449387541037998822277748588850092753466293182380948173162395479578643882208619218397874182849650266077766659109164989653579582672337854250100654159844754116723410747568561249798559388640326522962577518853751313947574611130262474649078259847005826304386063034484852780909198938591898996266513144162865109736191003040497392049758016071400018114708433896419911785284338487753104758669585964921603394386550567418387807379603282783145130954856080605208110462760057963343004980824523796373791391696774280574850639140002185571498404218665708817539800830535793785368012773641136904779339274831562467456449589509129644833596750574165127639454668630433220358655882550868718050924057828725367883391849061374621460560186905248867994054904887283539536318998726109202091328983563399335110020462129261003435170761426009442234179579686321360694450589711663218706146915293412355269907804942803530305189164013412631644830267642126739251120424837396907969664470626988964550938236760144923516671469959921072193180001833573228117333287449343933673844972275862534930258427509479922654804078477333704744924013353549960308239641370526554201391797114619580008782714640044608481818023072816095007247410292883925422211702376596082701759668618898240980162355277814136533588730355475388184827069716156676453869253137554485468206895867760527599344471193977761202347274370124561945811812996065801084594133293880143731523779694802478280728354260569872146900879630303259779671502507069141651390395165594092794985346710116806242850390673825707460797369096057215176359269340142059169524596567902953850191178041629⟩

def stB13 : BF := ⟨48595689365063058271945974565430150731914410545622732534738623926026787308539505136608557407788882278512620625374507404595062064295865525638904790221220302190749009069022126, 962016325036558210543613859674759655110012044060108172672040240819477761371759345387655684116235112818212072333963509485058767908646877272798313049801574205815825152671784039274373284725950693343330968641018274486799854420616734648102223144359945987952151513797558633313397807109056917755293082247671647544603646844909927688011148193109631421553273780794352081807653380595770407372079293771867756976093200313635468877739429562843838522180236183504159819163133381694313857296519234318413396344157451574223732466770081248926505721236284718853817698664681575846345373161869715576851959108593285685278478976187768210730830245888506745168206764268233083199638406021979143097801414027891584489229834051227925512836344501674430252564049393115624577653986770503057467579192507988070184204149318297624473552260900065640054874350047611111575755360827576068991433331336963034118439896863870287880656331621869065003455150273371640417036615041841129985517430188834020872807157425421832788457241687194644047655793853386341586924874562852087101874142114042878629470122052970344574649468664247578902012067560763092544950428581539174446529084644568168774933679561175408368916451106316323954217355163678199117209802749891523655730053746162295737878923785620065282820186590940687362127946928844285067234487907387828830518167811522822313937406137334832519064480505415262462516853764970627529668102268876971826772252692901744940930231575797943534605797677350009130254204715257082845036759290717566693990654352821907624034401450693769713626609328407867983284244306440672308178366348341835117600036498312035945214250287578439067016069172182041394878447113277803913639518389706127439016761332099760215852309484099649529497574292147387599632306399883487095542778562771318666060604227220679953344788242543255481887705711039697517586619756043827025582387272685835422759629164431950876291065116507627609127807841950015865164630765855748719116715727644741699945279053983063191630563717077438767500632896761964873585824629579773489576286733058414676179366439330540856062852024174851949538144608899627547271039241699855908746906993719476086728609775913357758241167889745330609481596036677291997432293721754479561405644541971740045108584694849966660477227245233467294589442291552335548657496563984123459254350540022371146975968768942914565853980658521696079941763196709253631537314122809534932498339840883374008418244205992239250722402491254489075035009795663107452778345599922257034556608670268837, 112592769619112827726326602041401537585106901876733607982647931726568005723800189801616241329973030735720421481175879560218502587511667797648400759360666943175687335887395789890252384192599433471647058840004973562240642498975630828200547341510776191908405097957006342334354696063737519676472591433447700600331340226941795568029704387750826952647050154751564014159915518601945459903175900268415382601314829590857437945536782508637551587460683587996033932917133114043728627884862465834803525518032779699551497352548639153489577096035430407918410657374854677730429730001500563388907521768614883525116043159584657317766073316240383738198918494955355010783628435616564937697767371341399511317661010783081887153927202914325438760189639886885524463472715349656304974267399561948812506807414107666764427645307405964569876706846251839772307765472090530397505496482148071375827152767755245602190437660904583044986709023872430961097545826165487202661864598515715966783532717068210889184168824871652478642314916108150183322559677254913686969872159195057261745511524921126784277941346284850122808240296155916779604256264869819381075342310489319057404056224031867828687184547266945196549131194521026594538250669595386150466264249538998145824078962780471028274845494342998271873935586847474606056102194673118283904155856952475253465394235543745442497501712923387861274738939126640921221177796329297840045114540220732503088816039340838021658708256570118475536030525534512616119035211456720104453411500302701483681075585720176522205832091079397781011913703952615846539427372271318488060370057212757074735088735884569699199295361498990800011119427083764963066167728703378378376434618713055581180424045815227788937591408112364366836687630492414288247055477599655075095039651180107950685489057559109400120393588135631457217788252764905552735084853576574235170555272517452047006236449692272597790046333282945760681198305843939239317872378925967691435627666957810700939220317455755587146352252896248607828829011833815865378374565175883004886509680132032025815008585100262569751292780520111865335678965988234702492778505884286632609419382656148757300653604535316889498445016826593841048867425215087016370656023848932889869327043148329434225685183387697233643659628962555238917232082683231132939023765051479584684484356173131668105064801208495664473374239972563931755912106552758746303112816350056715222704337579925550556086313161847648188774156737675853449519389417962231561842043884032540, 896856514206025912333488383606225019201767893613251934875170173470425205854611474699700223204709276546358355393034009867763929211363531939173536414379463895680576398919048261060667164811074943404239371564904108992568795268608625095656720099073084114786684282589056420715353479735526369765867041471883424768521196949353855826057109308807928212252535913691677828832733844059684118574335548243799846185615998058104004316990411802466691657199688517291109600283571972083571540979600368960043483096252432272912361805964037139429072798817796170467687039157960483739886398104146940338304280195525099646626685024294250770714800808969698178717981577246010688164758235434764302128223459477014526733960349700450690064384831209637240505483330823360826560832771945658845132501411001985935445763132269175519857407496804934792530324692869297719084211526116018755555398071116570592848766009322618504871448722436074526245847140536546939018696019615658657716718687524659937059402722319738754825211451540541916591779974283852972668485868152705740557542331332254830709399909365387425430474865981322235069183087095358390671833798317925731148699194829553982056870805697238870206606720796316504775565939127011334297057298670390558895924541555742595503389474629098476962290625048840809668135264788514054290434206311818725194565761988197712666967587138949119973851030234664254454953192244315203388239516625451189624636809887347162777295701078374805764411949176839756519982789924487001831244599071697737312069228152307472255916539302265012394906273895829398909778403421323064912751428726902961017186858990568803067559332387126250262885933675317307208438123761081760506305783844875848572018624363009192254286191704553426452677384294362918335546569369253207943139511802821869313516570162929550104130645635669049490249119742282610498851438412911708024957093203630070895208938681143928251966555292126113257326369973878244684706114990475958331960835794743401486121010934158477942307183700188729356407699926626918240189199527301546554647889316019758011518238069398090084669385887232277226235819120841587039382470313632476361633740904809165526046356543915304473374186067799397261003550089701727599312996834136444599560127230715500310329832260511938848772750697222527635952907802707852754647991338479157857245893360756235114648243183866438090873472947843422769681212755624671210657527728891753485517391135557083641388895873931195673831751905678364448951513334115030124616319406337161754646037550718969, 49503169329281859988774004926706139087465695396860749544848032988724521573564230681093841340419143029108775558764397964544152775169470354737925695712759325554897325395144463474715689380567905011985112363437855648407022074936880252064406950572231099346880538030992191503249214993846866491902211258466657877774499362364745796691736976465471411005146340237658367048936667977229713252279662415039647408029027035781171197630785737230692191007210645509134901948565840174519127302276315555373276509714548043685606045759109807934249278346671295531565118267032172133242349885886027078670692153719889207646916520982987048797454130390519124678012811090143895891962807922426435444400064452927529996809581454655331760928040879777329644519399908440787644033805573659747254388080525375621809595078395233852954097863858560382937645277244481301133120696935761623342086644288383754103701342689015312449659302804601453874865242625547014037162612965482681460237658769948249151818041814328361898541980885323466954493181960860245544450264334185132243549342672740803336465460516981373874349917518329373416375155473535328947235647690831429969820622907439598014361581311101588827863113276193829674431798267582288353647006513463479302133605979041912494822763100753065860043534326120333993144793944508381553867621735023656577543649223825175443725737691316145410642532104349631617442258082878567950554120583591644071729051030359004103655642521768553470562806396947159270676019707575689224773447823630585287019009435341295033501518804245889760586727854913264165755658189669896006228148374661008077027561419225756632163915812920459960624303108799640573398274050346045962352302553706389409953710088676760906292053363548643021364243320536802215883727559562763671710535815862442046294058629940431091235429032279207336057314528194480905646348667230385510205229236231862945731805491981015165589230665463410861168574095849378524546416899711426554831873562352753469225369433716660616929972941512930912515442317485375439069847333428203041090689561501026361535772075163174752811734091235414695339086289250279513442382220975639758489660635160704569090881399935755814925013936006198320324451158934312172430515404636999749174329471586524178411693560922505454689271863950946553107327830572317309903027959709284140403689872636507006181081850774362816600849686099150698679921954048377975534820041518019380088066671813570789734134494079595583301610939102338464101996686036563491540337484606839133254367409719903⟩

def stB14 : BF := ⟨141907679400331425418642590559097557904465219967982058959444438609241801644974332659985129786542137645254907368090931930340365164548155478912533857161036618081832897402055540, 941348317671107063309880061135287717014198270227633696425204071627324986612542835119802662531109660006343472191751518813712490481426957574497530577509865171033115900152495940256303687647654333958315306364000765950634327325266792165478818478135667314053590340457973083221462629737134792644710291568973056462750459885900222349016324295964075636411617818751163519284420336412846007483940299221448343601789778246100667308480401500318422025669798858182756744257412593818338953469951343474539188089405458779623249781409259838196759517186919271253047794712296987097169542730142517439281618392397310976176538564890607097521144731049574240143191995034598425328981354693952720650229738051353964710254388027852551060369046657881636406752988859682821170425550019030326051545812103767777932897377646225040468216808345958205424715349135699928584180336347338844054248578274216059262550373114558123190373272218951050539233405738198740900698565595149960920628173148088713164811130749024266289395864298975640410021392670445973041334168632650496285176114402325496924008151508729984432726491591598161616157593377260414604115618055730079314243190682848568092385902448103772555088357018226233233856170886798016715275407617766743778857625293903087965404677943949792070769595313185280919947651115472330765792078875873009446541834613641848141343386131087732394033130067881080357236501429238309758626802872477710166967172121278589797371235983348169877896292618408967631924660454974564117081983382182346763741847760172156937661562886111867467509828346417661319701693874811830268608169411436752602126797383402369827642223393489643996760759773009114567344727574203441082968461441646590894902247755283530087595189323092371452962295939164752612878542929728481847874167341873706682239560345624582308339573215420890370949199905276610767453946832223694668214003533631798879351214466480300402274326989406775910705458179229992123893867434088691519855557121301720218608522735129697198490963885805327294050174827637502636586535105139941533992304937771993745387989659685802255278523391547924593139388187400081741412734156269137219780241264556970502188953970629707869196424523001786840036607001013274708216913623568208128907219345798572866590880761097795708983428657906686369698941124787674418978889366530489148779327639091118248998002169095327738844313589039569314117684045873831275118640008310349947021199037280639459795845107532587597861341874298990130337381641150687239424867087005398927508036363373582, 510398945214493413367731424909729342144217415592502957846635208347192571353025416927866431752987407370349467384524693451496314618497811751084474725266241664019138766503790888811734876900257889500263375182185681057419826928389607094810343926642135849853262267402860612509920569442942060577798588634440379607636911790043181933755008048960515052230973666803061155972482105544421506251753075421462824356505475914719480902407060120962337454682571936441384777861212250781782244031043147657903183945199168040802674994754550899024792852022125871445613120873185776842985478273917633567844710912965623696013925394198147222423061594344912215474250108741342999731062258994465914051409354744765638468441186623619544581350362625384270284770373952464872968274764709868872823348964825975253594332776353914386140729033663709836087537195771932690786917044724518590041522549849715689107450133322075525159067433476567073566256239843957441989320913754076386122797107607443386153336590960909113954498730984542210575477996998631597843628114249686393225985176540514934571662696205900572492034508065753195451509917981879956677016645040305429407115063558655783566681747987394442814626545545936547041666395374275219522408051929163592562334136124239536245462582111135154073286946512625584616707048810126618070231808995546889975981317730149080443327546428103144637918565586795897706926827557610080773991708968443011154370468112622819877287623182310042480973397032143265348206581544681494758936513493701252405530248546375109465088688659101423368803408200459404730132222878832553896977530949501725057296174167025121546730267098716769802491919488392877758941852090981826533169815523509386974335773583511544713027262059640661245148326177095605927846133559889797024649985181785683512966011187577922399731454661644007083899655551526543475291011274774911207013663876797038688412078677211974804166810105159274759541919567618482005835741472912965629249694943205899407713499089695069907745704953907455998883711100470451331240499503107642226037308014588814435204085121029143315821018635541289987514357552208539209617208169683176575604773300746108221180326393410925532048085973075990116203672401893516391150128353547898633442199412124275223408295039451813531485776404480917144436933964305281432356356046554322971982722739638222740651623165938272470485169137827418825547612311344878004322927095918730571157825229327056069718154094999163338139120528054034295986765386673257725219987057605880314396800120989323, 868161110477166412775390194566177475675203776814865709601299794006674739837411689693000618006789682132015316847199984374890182984542768071120292317470381170450760395772686433676466683311966550623614912653618621509475261525928923436340589369199185919505652270866754070519963854080430853560259056140270775102145675809309005965061849822670423331363443866417320628899851859799557114244598658122481347111414507502467414601362547781130894466175209324617220969279327535556649901040087987341472020369813040045228021541155059545623914273369979733130723633921581984415423005378286146138010783157151967498420485067363488206421463231485703874342195783209400128743129160822566676524771055207867274300369645878345485229300135378895755678021505881705763263416611666958912386897017539307094516591633645093525985556931706953801300814697467280368388053317511946941101981726362429495446531893506080194199905735554651275557048133901728720851186040711401627955892794915302479191324305252560624377723549850734410885469152671538772031898301251507875881086996190733438849006613621053128038463175109845514646888420011004221501080653541300133566970301806765951817285909737806894668527939229606522059705130753862465065676743710062219259048392596606589894440099420761198381525745687856476638075516450797559115942323100745369721675873557249482654169936785494589593212998056799928322137691676125616449905786018796727204400399196602212285264998866635291312155887676782318066902215992928995471374422205459489944687481954716578392037469470732624820170858147440763080166744942812070786617683918409176963819220023496720206699246175410351448414858626838198828397721135557818199398749255563711145492117339307019489170191715545721611471279163014996845956842991459145764871202071194733868048416917456813957675641313295687743802662018648895985032865369587051410589944239250345397346778407396054039880973830817008113881824052005092484522276633236075295513953658976769490154107370727160414088279316913562084603118096499374835697310629473207559641617772291779538401881483401157811360388549953699238708496321436812054353454657972833762824460110599644131819514598576991404048236879845152285482116415999057603934243324425009458979450194238391449327466296484755553567568347537706856876486983023173951881513045703747385369987293354454144014650349963124666289727380717498246134563172491128467329513920499162850598055315740393993409103815645737727219725527346037736440049000917957603586522559433592636148237762553050, 428758256968527452080101760170656828454420333667915003613220832992840044202458455838143700088192907847155325200293503695663350486717762017393752170166974890550323789372631872962948248058412636346280833640335180907896190974486658428778142795631709526277105406869172185124185147746172273161300309613708837840473364139884228487048959105867313102847821801440524547635966245764900617371493652875721877705204742816563321838062007817356075951737863889520252609394523922496116350450571662176598983917202992693976841833403954252945380369150878983261989635388516393013313593647933702696012596716418746922263450162104753367137303164705540513125759133606352116099688317573052359316222976193466751903657755220135938427464697734224737719625156613683545467898578825524394242714260465396181705077824712654240813607351623653952178884469018884336702590129928764606225383112075419749006108061218239163099079951600228574017352997202029963435563946172711874894167834753276574607447946887421096775614463149926733719077177788703105629286000104923187761373426016295763154275578065571504150760213247194807868930747087929068164209503208925367459492656651705751355933313884075422614415908350608488010020328447696552283807869942756606973186203851588472449563586974911566467193303751967257889134483848769096405194914044815835869954703533518004876340162964133239209131870685645199312999454527313191645966033999332583443376019026382633676337647260514232315962289500022411930905597408263481661057507765362095272897069047447643341969791164892491697166427991728477681399265341211281512023679673011996425078421763853482785837387943772932134737114439597475360582541344091537185492761920813433164226864077106237911525332453415318462977572200564156140421779527603325814820153217860350882790021769623172054541342843469125820775149987202273760399276565723721706036574070520592841353040916288836864951337260701312698071277658949534446398268001168857259110242680873155598310386058016072565624494282700370196700556392188762628014014974081021460770254392860382377224427288390030153929029848462368164932511927152961130906925355861693200531086687678900891622084283082219640550926140409822064945814503192211328372476116990769935090642421350336897788309567762071473479683968801550508174723789832647659912593198298191535009634082896739124071888751947420245940374371766117556793476613521825534241069643747972644616818527645795446791899845100670859545279604113223447869302810010818168757123394242671461209913051721719⟩

def stB15 : BF := ⟨74532508703807975797464050036206986358103290493488859523052453821449914217861028908276398860866101977873055308520205858602653298416546597070725739821082218308527730871799040, 748244534724275269328991625690315647268157876471305690701160640935064777143547888883499572190271262048140950364090903252904216959683997739636092107429322244078715256036730522427546760324944090899910088662168978357794238108155637135433630696863360356125738814352134085632040330592772780163881354601319846636984867531808685825262529055537812786952692652421026781888521118244692221075235605611570249752648898399599996343862953867939335515089995115373580184662957011330065174426841123385667788901376714964856417956596026617090127523183998010231997918745587857379289844718848289005737688847569752410957270492012201477531897363478451285627660567947251330176818901696102791405747975413751465889070901978887677185235313591494386490099976942425359485226357071293995951591449539717670197428301340448906227919240474101001779924941740540888489273352654207160537617952143010177642901489598291427068112973265308348042070611382976237097140131510378743683855950295120827275638598955195917115807786254993898570229132048269230837294058581630519170605394254243648506266915014420263811333029061679222102375712187144237422991112919080860161998064924817788903178090498418824242700752347941157030282561202476768059573596480011407276009757093826600550662439574257846772927365239448776255670044015626409258450365811209171028612049966093956070909408776539025063753889644601811335447270495691168448069589908251340593836026444529972655617280426273953068594105814904487179352962906860916129075938852652859868755196863284678209982277146627330417021269001160276329336001149515497562238836896539104339795533028054377213729872395138241388533156314449571316836921959546516352124870581783159125992476452790257032046684855061328331287423020646263462514672583381734398892212244968526027604207979430796787250254511506945304733540262777521594160313571067366653360223792911737901612901290912279908301703663413844825194980633194787869054693088002898562958694224054052667254013859742806754927704169996203172048797691653426746475329425875206013864572493597925835098673884346476655553094701959306250547688222351143682501809422816270210430908534749410714726302819278497455933445234016128154591216101129916494286407623499625202864258582000415649623861092197825481982238827275456380851222887894325092048258286697035442958983617694741551132429210895659315741373106514470151087474987216877658834138900781302271246687713434471367731403276164114564547547291686877713247153692179365273907223497720658336916412494417885, 852642686666334322907428384636696805859603897211984443640329990521052767963150888395463425853009916952009288321565277401079388757336253021256234345729981865414043236604843769922908062555030103533476914235530622766511476160204841995532631079158216492529696192809236171078649289183862574028247985464332131157800033405680012581264004274361192683640005240052182693316440448980139280825772469333411983720362117439134440373157188422423129549178246200133868170178399518047486610004317505785254517969703740991498862642984553728944571565803552891820495544891488333541722327125154987945252272113573720105339994296570985735729988444135605456273955933769316205763930252047096042211041127270309800979305375842405799836245163244109350479469245890980489411876297934344688486162355658161744117275685939563595449961314683661094345324932943646684191674589292853156302682357817881987059560937306695425126287257520000544974776451897582616234434141199002336000315739471328273734076419559362050958210957341425538895857773226303337678780582006975404633082463398537822916882605911132431163111544543020261138678308330218446421671205023207653404366437475424062321858230667318802070949166725859974618735875272005702273401146092603375190836091546823282392599552441836892961463364871427368495962524578512613314458636660400343752102577826572332012623984928671613033520020450108558342467673835966244192011760747229201177410500847389739617646809683851898855347522600858396938753812955846787762368808655853668830641021372703587851862019173489915883447143064445401993001774630758688369824896093244812430800613182414452427868204823469967617196161457871456042598016816498890651904178372376740742203941115843376997539828868775983372790234083433742149222320982184608372790300562452288128869412951559528686847467505740636854814814568171207064505203602571059489679896155165675951930205539308678083975516330873707489300849451543987581566179077916313900586921327363753250414506880345735265920789785457243979978880126662653635333597965479136126317702860814106244486296519976597929614858587242643045795575067215329587529983625316135548746423251965394429615972883047363000947367391301706655427399211820530947960921509337491431071462242748272480691263623349487899419724330575006599194961787401399555826183371458767128004682537869462154160706513143528853462614421990689170209979357881517644903631396086061525122481949292192556740440201337089684597044689049324615289047359644808471027560284364591944856047393291297, 1081909606653343392592646516134533071475964401847486662511699860895084024129961406346852954682533517608918848125410124744395238439666575509502625743800265729259619770502240827222360397603462575885329815295824644339342679749870693830277741106065413212018940592730128888900908674364483042655146238462738385583747257825383623691816294014135836720731956135562190856469855099217857804541563618153831694792038580186062773748498676667512473272715173890238894043642129950141523280642598555118296912604358036484195252421669989861530041640575849043991883488249377513480428822733145583011303205076285624286954692330869783789453105662568907821147647267454431734999246802994598272497907921527274198448328908966392112137382122085057967214951958747293311517170959874497761014880522584980462396376575385052590915209335027429449684934662505387987938417287929515339504821797994388287130352052033976176675025450477430220103719632387600644052170149727544580945598548584615805544270514252199043448240962432314166380720147918116018128591139314768041617876487733652145336172535669313155061190428002555370818148419450784511268025036960366083280473607308244927003587277248663966002044784632797861254176939073848167060123267414792950583548399199084926700120229613385083761871161224810488828155742860436253606197968285901645162234997564872796448524592709871010811363049921377973533976810896748008906480781594308133008614930572208079811915748299021387180126490098757056646087062525536087561333181419696901968389064246452548182777231257223984805140369041333316692618096823790803247736444976709865803191105172167767916696830864237785408058347726948088340725198311143641185594128231973936608678186360103684815606917035651827847011599045425521786408625142120889080876388453361779587421171456115667867728352213422605343981350350462872065675278202182259833140682480489012599615756487724056899765589368821728064687566544158657597148137643467345492682119790707488055059473819387446616694133692476622075757607373286774108178606221623202784892566246186409544360542746167302708459472225841397213580586053481243239810163267041082475626741618871812703547384514057890026606868837924848848863936318981039924075635773072066524358784122180067506315223827199893996625682897883008288223562835093820416225398632275145030488597485672234311469112103591332373077705870122446178260860125555702699126116398938945301210270123477693970393679341750681167664620560498490980278991076800286225822494408986207977444746625725713, 232718739511869402011571906739524728746908782300887912429999488397706359712585283709545367114085791616092992636242831965767842226061680132163339901101040204088981532341761003810330263809188036536611030070717121236643472938325104277805147771318863649368596907642288258707610529675270004529552478803598579911828070622883388323031217891963904972926831264760972308985739958625729316985075600070203054904939983727598882861224490170589580672786851379616350055582448579325406888912669117416964584161148282242979998952904291517870216283030221411161091743276770825394959599505113250650212764632077681060721764546455934886600107658366056031867694570254680427052400112743094396330073801303173361896465105757151195382309892080765823121629983348589204387573596990988158758220362030487193124157674630739737818895241991069283892714455908788799624789505670170297158324553409975850948058397837894103895870626161248928868081948526282288531371065307193562178731386232335083548316313262523017891227680319798364376916731438132021027363382641085747297275771879539740501739330391030034018248974178217008673334168136484897618100451423025468923896647829156301321620063368728286021834105838085219556918362016009482208414507720212237497864131417922579872599196076032067551900905475914793873368073316150239756891689246772440044662906271496298682326875811661833144265087940233059857656011703704196616462655508159286844933422161966735693311839405122092929170375098885734542316128139349658337189607620096755107904979355671198883981137173693698246215462195646275739292455390243412249990784778329257355303352680824557993745617090320563841001880860713397368363528390227568995258884155574227297969094889219349876751512712554701012497724367758769642031309566833625591064557267795533202790700706254544009136645506930001240273148546278915406157287624280601070757863904601883149429353410847135398564059753344137533901724560565716210391085198261575294015246966979114629208606181436630515467003789600576896088320233153153419591417095737646405381465574545282940450749895390488500604627707111976067932758782474520088638545696972899312963056465345687286144518510163703995012537360929542820735318166876102098430380871265399930933439585713186437305238792079283972743413281304847670656916663436912408815286673176341869654307515318472863277075852295114942823641665234101878030167948031882934653690766770556609467120656005974503879977804407276694468846630483548779826740929693789085366773283042355505767448314983797⟩

def stB16 : BF := ⟨240874507884014456258512040195164494048619710705277543324884338590749761135863480522368633586219614244074534179741966340351798545668669095721355128586179016716705610781052617, 385872498605594193754999080049155831574683369990326242317439129663596646805574731408287370500555077249479259891554466053289687746135320860761812210562159682520912221538555780088205878060639712624561505406824138460106815953347446227703631455425727523110786810105418262719247789190607006406431146254374224105504914591475770552105371296332442441464290924120027428184772028088641880077660260774442922977949510972095284848565836681181774989907418521818097705855116809872697646696197266517956250835140792454685559849505974812118810129994484486586780155578560563028320615353937818492574307503413291331521096578821890632307554229102430164699098720989626914409710704144406942883123838265964724925698336926792082293626819989031863439744561144334244511785708436395082976700028980191129356692873854596525098640536257431006527937688957895540154065060936921725062508134924067545942973310377120688220939630237199287843332626979522957326009681143223061579777510682906889121406125903999941539331822910657637637729732257159293659550162818106850136210705266825833514883687313119788723158405648184153542947902882712164308676706205482521693677845925920723799398082759427479830948560430712641634672996956809922728163524435657298174865101803185843990805241872753347073541251379745365561423958069144499423859617196351260123507603274747695180514630291778925048359883589289506314468507464626576785286049891838038756998191272414518093525465260580368125264182054679545820310051342597127513695459225087528612220153595848568333321782196615825932590616313196944879955369591020726997771533011981268063141320463891161988674785476839189608137838946326373928292968985000785653499199623988145103904711880840114031623590205894051079116470909215847340785414507476254978920234534362966406460675309721365272192097507728401121570082657804074089413556283504552839279605290337722441439407717485980035075623011465083203274693533477587187911124774220961543541741768171407067178307890493143616885653008618494680939126323699458798688460617832795067285055433082964645914625073108592858866871887409649300060006357307806235113318177144949051193667606521048815860558237319297422085221124666206787729200705177392827554770004321578404772332480368570329295928774015453095884343539674820731152231678855414151177399733847174835598087357495878749142384105946930026987004713745020081659358715334846986605121783277827624123260230162723047723369150693050254745519467432180417125466528303034003599976929844035000205937400637693, 927972636002419000602639809781050057420195046227793906122679377235876773374508504171980160049724331863994313087997846965823888172017345052930366144865605935076459844260200262336028320910895106291657100429655784248647798850045846751469392745793649405125389912552706471664164481833584087544699113282496240202162881222596408625937055838930054194142502633845663378584235516668925575828666158126732067196297316761138158551594014727487327281866054057935305126161203746405554616884835481858446416456729203941287910829187446671225645280888671990514076632060283924987495448513428851743816688228225697212891002203752326821120375401843768910791076156617862693810313097616954323955552768748587678012042723774898238660080171753209193174816025922539488014801678523469703885902254213358220536843624809245295114842321566025592905576220763300153677090251230844552854581862537659249607781128009235151440038190266759643192151368355058450109625077293613232383083188603497804324795846059769442480643304284452370372154828891031416165295734476059638986389120709150783282722097280211528111055028299541501955244798347953512572673753296495595431699669253866027200893867780081634269696225595973096471101118222645455852881781973387329918088820211120222016749629616354763854414275284356590271216947608299484011272897388701864421990335271099082050556586393608322002380296440778090432404275962485835596686738197120716605661890063420774682709099424149635215213289187839521930984601610527885943566770098100393922878434829748881164586931933334416977106036165359022283155161981485723239240010060700415404518593643770243454112807432235476772256652484002419570860193935202036307337248252691185548117201515364693842583353263889829299628661177540318736347581601109231202855560757833288512956050742355701182486652286098443945014079977353421095045838294613683224399554591982297815754637681488412570531475360161542641858977093850970096585105671256109015091031425409286078751454426573786266005846875956702016891268117784995040602896561245492818709251386170617097721398564432788596739101743760653356721765237622467898594833137980714924523398307095199207692623927420683508789942559186541320841530917421905042804939031886639262978658916031297408360519094981679798687920761840766315626097201808397926097386070369820740692771989098217822158228696576637754141301512235201569923254128332418865024356283339947200182991904834870427810401527968499005728949442420913966491505371721714788999658783846333189819786049436934, 592261966334720445013049492801384631975666655510043063547891096994040873481309907109734715093396848211485149013251566321929434510685530253585576889691040595563534458174690087817265650081227439164606661911674766867699564993072140614258030493531579197585595834579218984829532871441062175587970824399237383201786342837220564422672023491989307025600185111946463150146959121110990821276398591298522017747373227334225898150671445642487045004183039383482013081836443621406571604500586099213135903252913510874748229204056384786515313445964257478250870926692164988550854388079155972326363190583790398915579384032806996120013610116359556232371865407653043300931872316505506195401420399926743349951049725545032755121886577787248195829057697087764562895479805742928368246628647999809718479465371602233116444260452371886260332875835544601762440668486934396427979349640326621601988468019050273932117809094499271981673477015975540237979613066307339936106310403676482960688949757865906697579863035476247649792456907193549938557599788568117933688768131494848035702652995955217258076444335286967561397842176663223945546967918699962853939638749069790372958174584161690458393834346443495984292708987162312570580144610383698431846386898398507291219736894154311733277788627793374909625226930572494488830417585256835139410906920418807476867652878147149328695391835090697624929428451585818880116234679615354369311844467679491478664741438699376641666266851555907685886617637644664127342357899063740161073499520690981728539446420808771296063479680489409907550619855623358181878249015519572961450894111874486101667971328940581228892264183581103679368973395393302310651896270311932712250231875463901398093475996425426984485275701920733291591051867316972100355219056989419837192005098589882934535167553056806105315464528953663764891882871449464233977821474435997920771234495778341215152752114400927215472997284587808904575086364345308336514872245825821819366587198902978603126618382664167661806308391171812670249818649395415638759946923252346806952434908051420497526711622137607609514798255691274066511918754215400711984735986535088965629423379525320616195173590607524421744385354763681751488891308003128818428471805842856000979864860989552799977299936874493860487159902481256130407335607747344578527834746237285941293384677734940112125415801255246215947634446950333793808499692789372301538442968485563160475080838729572914859004777796474818928419642806247813852467687055871063996552261239071758, 513322185984008254332111425892521184212901683836794089292643828399385451142994772546691833741680170963599428443604685416880359429292210819226028287204357067140904250865464158007297207505723563985359939208834609098633500507558933675590338573692038027036208410947426785905084439657537352806890535090961346127291034670809861034577571826530026255339375996148617796523691780651267347537420094593055464488733592107960539050689880872427155661050141409872218254792262018667228618573354711247314109798214429561179919872168059616803396977090075140647606112669635569175385894414012480803852843198829951718415524409468785221069495489936814721580774628807694756832875275043228598585750920498988342287424670882924717532063834302182742429927168091465413750104561162079915053071764798591581585406619952325661574716173425242386103995266443301415554015166173641771312259753812245355389601243387370035597782501571358982908727596037364769107852986243571821967394800901322413079084764456735827994332950438392757039316974769314889947228986528404974251639085460499732046030629881828325529654582861367607633017401825700069328605375097736829484475122415379192284838674184822858943476257117840999984728157438691671181343784333481222729172654534758738331613168208533228450811029945662905482277809022766433026523032715404933230030164631806827584909309409556790494073910297165913113867107425705849974753698408561641289606007671436005653530617290519363857029242535920610186003983546994111919676568729377559815677382248489610074278771357186259439732147617179511983698726751181737783116613990142067115745929906947355711945285167118868920157342022136185204784005453941515372733029676201219735718688433934801784025762536298233560298851545305788649062852991467718648535118611664550186696452585852517851810278583658288052522029812991719054142964482394062607908743937855153878378167704852862924498135417823356721843580314768377385482560620218059172807252080420618029475158575865189999618173439316136474729873283004453427558435696475009415336448869518978595372129451932047037476843791031387754506708831805075370533595691955381707235340362829443401058209298630479703831442825627688462818826679046850072988743690429232775643754405406650224227201765053210764448243728850827445219562626793566698676076659873393977640341405452198955605452474790424996926590869967352878391569424696026420082087841774983402502929492054954049075369570130413576745503175983534252106378406286143258126491336013443007688194623764015⟩

theorem saltedExpB : bcSaltedExpandKey bfInit 0 206194662513534749705098423655607014647894899201728464094172417435167459132234478689763541686534462555786726000561108048500636413870766166035119554111 = stB0 := by
  decide!

theorem chunkB1 : bhashLoop 0 206194662513534749705098423655607014647894899201728464094172417435167459132234478689763541686534462555786726000561108048500636413870766166035119554111 4 stB0 = stB1 := by
  decide!

theorem chunkB2 : bhashLoop 0 206194662513534749705098423655607014647894899201728464094172417435167459132234478689763541686534462555786726000561108048500636413870766166035119554111 4 stB1 = stB2 := by
  decide!

theorem chunkB3 : bhashLoop 0 206194662513534749705098423655607014647894899201728464094172417435167459132234478689763541686534462555786726000561108048500636413870766166035119554111 4 stB2 = stB3 := by
  decide!

theorem chunkB4 : bhashLoop 0 206194662513534749705098423655607014647894899201728464094172417435167459132234478689763541686534462555786726000561108048500636413870766166035119554111 4 stB3 = stB4 := by
  decide!

theorem chunkB5 : bhashLoop 0 206194662513534749705098423655607014647894899201728464094172417435167459132234478689763541686534462555786726000561108048500636413870766166035119554111 4 stB4 = stB5 := by
  decide!

theorem chunkB6 : bhashLoop 0 206194662513534749705098423655607014647894899201728464094172417435167459132234478689763541686534462555786726000561108048500636413870766166035119554111 4 stB5 = stB6 := by
  decide!

theorem chunkB7 : bhashLoop 0 206194662513534749705098423655607014647894899201728464094172417435167459132234478689763541686534462555786726000561108048500636413870766166035119554111 4 stB6 = stB7 := by
  decide!

theorem chunkB8 : bhashLoop 0 206194662513534749705098423655607014647894899201728464094172417435167459132234478689763541686534462555786726000561108048500636413870766166035119554111 4 stB7 = stB8 := by
  decide!

theorem chunkB9 : bhashLoop 0 206194662513534749705098423655607014647894899201728464094172417435167459132234478689763541686534462555786726000561108048500636413870766166035119554111 4 stB8 = stB9 := by
  decide!

theorem chunkB10 : bhashLoop 0 206194662513534749705098423655607014647894899201728464094172417435167459132234478689763541686534462555786726000561108048500636413870766166035119554111 4 stB9 = stB10 := by
  decide!

theorem chunkB11 : bhashLoop 0 206194662513534749705098423655607014647894899201728464094172417435167459132234478689763541686534462555786726000561108048500636413870766166035119554111 4 stB10 = stB11 := by
  decide!

theorem chunkB12 : bhashLoop 0 206194662513534749705098423655607014647894899201728464094172417435167459132234478689763541686534462555786726000561108048500636413870766166035119554111 4 stB11 = stB12 := by
  decide!

theorem chunkB13 : bhashLoop 0 206194662513534749705098423655607014647894899201728464094172417435167459132234478689763541686534462555786726000561108048500636413870766166035119554111 4 stB12 = stB13 := by
  decide!

theorem chunkB14 : bhashLoop 0 206194662513534749705098423655607014647894899201728464094172417435167459132234478689763541686534462555786726000561108048500636413870766166035119554111 4 stB13 = stB14 := by
  decide!

theorem chunkB15 : bhashLoop 0 206194662513534749705098423655607014647894899201728464094172417435167459132234478689763541686534462555786726000561108048500636413870766166035119554111 4 stB14 = stB15 := by
  decide!

theorem chunkB16 : bhashLoop 0 206194662513534749705098423655607014647894899201728464094172417435167459132234478689763541686534462555786726000561108048500636413870766166035119554111 4 stB15 = stB16 := by
  decide!

theorem finishB :
    bhashFinish stB16.p stB16.s0 stB16.s1 stB16.s2 stB16.s3 =
      [0xb0, 0xb2, 0x29, 0xdb, 0xc6, 0xba, 0xde, 0xf0, 0xe1, 0xda, 0x25, 0x27, 0x47, 0x4a, 0x8b, 0x28, 0x88, 0x8f, 0x8b, 0x06, 0x14, 0x76, 0xfe, 0x80, 0xc3, 0x22, 0x56, 0xe1, 0x14, 0x2d, 0xd0, 0x0d] := by
  decide!

theorem loopB : bhashLoop 0 206194662513534749705098423655607014647894899201728464094172417435167459132234478689763541686534462555786726000561108048500636413870766166035119554111 64 stB0 = stB16 := by
  have h0 := bhashLoop_add 0 206194662513534749705098423655607014647894899201728464094172417435167459132234478689763541686534462555786726000561108048500636413870766166035119554111 4 60 stB0
  rw [chunkB1] at h0
  norm_num at h0
  have h1 := bhashLoop_add 0 206194662513534749705098423655607014647894899201728464094172417435167459132234478689763541686534462555786726000561108048500636413870766166035119554111 4 56 stB1
  rw [chunkB2] at h1
  norm_num at h1
  have h2 := bhashLoop_add 0 206194662513534749705098423655607014647894899201728464094172417435167459132234478689763541686534462555786726000561108048500636413870766166035119554111 4 52 stB2
  rw [chunkB3] at h2
  norm_num at h2
  have h3 := bhashLoop_add 0 206194662513534749705098423655607014647894899201728464094172417435167459132234478689763541686534462555786726000561108048500636413870766166035119554111 4 48 stB3
  rw [chunkB4] at h3
  norm_num at h3
  have h4 := bhashLoop_add 0 206194662513534749705098423655607014647894899201728464094172417435167459132234478689763541686534462555786726000561108048500636413870766166035119554111 4 44 stB4
  rw [chunkB5] at h4
  norm_num at h4
  have h5 := bhashLoop_add 0 206194662513534749705098423655607014647894899201728464094172417435167459132234478689763541686534462555786726000561108048500636413870766166035119554111 4 40 stB5
  rw [chunkB6] at h5
  norm_num at h5
  have h6 := bhashLoop_add 0 206194662513534749705098423655607014647894899201728464094172417435167459132234478689763541686534462555786726000561108048500636413870766166035119554111 4 36 stB6
  rw [chunkB7] at h6
  norm_num at h6
  have h7 := bhashLoop_add 0 206194662513534749705098423655607014647894899201728464094172417435167459132234478689763541686534462555786726000561108048500636413870766166035119554111 4 32 stB7
  rw [chunkB8] at h7
  norm_num at h7
  have h8 := bhashLoop_add 0 206194662513534749705098423655607014647894899201728464094172417435167459132234478689763541686534462555786726000561108048500636413870766166035119554111 4 28 stB8
  rw [chunkB9] at h8
  norm_num at h8
  have h9 := bhashLoop_add 0 206194662513534749705098423655607014647894899201728464094172417435167459132234478689763541686534462555786726000561108048500636413870766166035119554111 4 24 stB9
  rw [chunkB10] at h9
  norm_num at h9
  have h10 := bhashLoop_add 0 206194662513534749705098423655607014647894899201728464094172417435167459132234478689763541686534462555786726000561108048500636413870766166035119554111 4 20 stB10
  rw [chunkB11] at h10
  norm_num at h10
  have h11 := bhashLoop_add 0 206194662513534749705098423655607014647894899201728464094172417435167459132234478689763541686534462555786726000561108048500636413870766166035119554111 4 16 stB11
  rw [chunkB12] at h11
  norm_num at h11
  have h12 := bhashLoop_add 0 206194662513534749705098423655607014647894899201728464094172417435167459132234478689763541686534462555786726000561108048500636413870766166035119554111 4 12 stB12
  rw [chunkB13] at h12
  norm_num at h12
  have h13 := bhashLoop_add 0 206194662513534749705098423655607014647894899201728464094172417435167459132234478689763541686534462555786726000561108048500636413870766166035119554111 4 8 stB13
  rw [chunkB14] at h13
  norm_num at h13
  have h14 := bhashLoop_add 0 206194662513534749705098423655607014647894899201728464094172417435167459132234478689763541686534462555786726000561108048500636413870766166035119554111 4 4 stB14
  rw [chunkB15] at h14
  norm_num at h14
  rw [h0, h1, h2, h3, h4, h5, h6, h7, h8, h9, h10, h11, h12, h13, h14]
  exact chunkB16

/-- C4: the bhash known-answer tests: with password and salt both 64 zero
bytes the output is 46 02 86 e9 ... 92 6c, and with password the ascending
bytes 0x00..0x3f and salt 64 zero bytes the output is b0 b2 29 db ... d0 0d. -/
theorem bhash_known_answers :
    bhash (List.replicate 64 0) (List.replicate 64 0) =
      [0x46, 0x02, 0x86, 0xe9, 0x72, 0xfa, 0x83, 0x3f, 0x8b, 0x12, 0x83, 0xad, 0x8f, 0xa9, 0x19, 0xfa, 0x29, 0xbd, 0xe2, 0x0e, 0x23, 0x32, 0x9e, 0x77, 0x4d, 0x84, 0x22, 0xba, 0xc0, 0xa7, 0x92, 0x6c] ∧
    bhash (List.range 64) (List.replicate 64 0) =
      [0xb0, 0xb2, 0x29, 0xdb, 0xc6, 0xba, 0xde, 0xf0, 0xe1, 0xda, 0x25, 0x27, 0x47, 0x4a, 0x8b, 0x28, 0x88, 0x8f, 0x8b, 0x06, 0x14, 0x76, 0xfe, 0x80, 0xc3, 0x22, 0x56, 0xe1, 0x14, 0x2d, 0xd0, 0x0d] := by
  constructor
  · simp only [bhash]
    rw [beNat_zero64, saltedExpA, loopA]
    exact finishA
  · simp only [bhash]
    rw [beNat_zero64, beNat_range64, saltedExpB, loopB]
    exact finishB
